import Mathlib

/-!
# STMems standard C driver examples

A shallow embedding of the three example programs

* `iis2dulpx_STdC/examples/iis2dulpx_read_data_drdy.c`
* `lsm6dso32x_STdC/examples/lsm6dso32x_offset.c`
* `lsm6dso16is_STdC/examples/lsm6dso16is_read_data_drdy.c`

Every example is embedded as a transition system whose program counter
ranges over the source lines of its statements (`Pc.l163` is the statement
on line 163).  One transition executes one statement.  The register-level
sensor driver (`*_reg.c/h`), the hardware-abstraction layer and the C
library are not part of the sources: what the device answers to a driver
call is taken from an oracle `dev`, indexed by the number of answers
already consumed, and every call is recorded in the history `trace` of the
state together with the arguments it was given.
-/

namespace STMems

/-! ## Machine integers, strings and the C library -/

/-- The IEEE-754 bit pattern of a `float_t`; the examples never compute on it. -/
abbrev float_t := Nat

/-- Value stored into an `uint8_t`. -/
def u8 (n : Nat) : Nat := n % 256

/-- Value stored into an `uint16_t`. -/
def u16 (n : Nat) : Nat := n % 65536

/-- Value stored into an `int16_t`. -/
def i16 (z : Int) : Int := (z + 32768) % 65536 - 32768

/-- An 8-bit pattern read as a two's-complement integer. -/
def int8_of (b : Nat) : Int :=
  if b % 256 < 128 then ((b % 256 : Nat) : Int) else ((b % 256 : Nat) : Int) - 256

/-- The bytes of a string literal, without the terminating NUL. -/
def bytes (s : String) : List Nat := s.toList.map Char.toNat

/-- The C library's conversion of a `double` argument under `%W.Pf`
(`fmt_f W P v`); it is not part of the sources and is taken as a parameter. -/
structure Libc where
  fmt_f : Nat → Nat → float_t → List Nat

/-- No conversion produces a NUL character. -/
def Libc.NulFree (libc : Libc) : Prop := ∀ w p v, 0 ∉ libc.fmt_f w p v

/-- A zero-initialised `static uint8_t tx_buffer[1000]`. -/
def tx_buffer_zero : List Nat := List.replicate 1000 0

/-- Call `snprintf(buf, size, fmt, ...)` whose complete formatted output is
`text`: at most `size - 1` characters are stored, then a terminating NUL;
the bytes of `buf` behind it keep their value. -/
def snprintf (buf : List Nat) (size : Nat) (text : List Nat) : List Nat :=
  if size = 0 then buf
  else (text.take (size - 1) ++ [0]) ++ buf.drop ((text.take (size - 1)).length + 1)

/-- Call `strlen(buf)`: the number of bytes before the first NUL. -/
def strlen (buf : List Nat) : Nat := (buf.takeWhile (fun c => c ≠ 0)).length

/-- Call `memset(p, 0x00, n * sizeof(int16_t))` on an array of three `int16_t`. -/
def memset3 (_ : Int × Int × Int) : Int × Int × Int := (0, 0, 0)

/-- Output of the format `"Acceleration [mg]:%4.2f\t%4.2f\t%4.2f\r\n"`. -/
def fmt_acceleration (libc : Libc) (v : float_t × float_t × float_t) : List Nat :=
  bytes "Acceleration [mg]:" ++ libc.fmt_f 4 2 v.1 ++ bytes "\t" ++ libc.fmt_f 4 2 v.2.1
    ++ bytes "\t" ++ libc.fmt_f 4 2 v.2.2 ++ bytes "\r\n"

/-- Output of the format `"Angular rate [mdps]:%4.2f\t%4.2f\t%4.2f\r\n"`. -/
def fmt_angular_rate (libc : Libc) (v : float_t × float_t × float_t) : List Nat :=
  bytes "Angular rate [mdps]:" ++ libc.fmt_f 4 2 v.1 ++ bytes "\t" ++ libc.fmt_f 4 2 v.2.1
    ++ bytes "\t" ++ libc.fmt_f 4 2 v.2.2 ++ bytes "\r\n"

/-- Output of the format `"Temperature [degC]:%6.2f\r\n"`. -/
def fmt_temperature (libc : Libc) (v : float_t) : List Nat :=
  bytes "Temperature [degC]:" ++ libc.fmt_f 6 2 v ++ bytes "\r\n"

/-- Output of the format `"Temp[degC]:%3.2f\r\n"`. -/
def fmt_temp (libc : Libc) (v : float_t) : List Nat :=
  bytes "Temp[degC]:" ++ libc.fmt_f 3 2 v ++ bytes "\r\n"

/-- The three formats the examples print with; a `snprintf` call is
recorded with the one it uses. -/
inductive Quantity where
  | acceleration
  | angular_rate
  | temperature
deriving DecidableEq, Repr

/-! ## Properties of histories -/

/-- Every event of `tr` that satisfies `q` has an earlier event of `tr`
that satisfies `p`. -/
def Precedes {E : Type} (p q : E → Bool) (tr : List E) : Prop :=
  ∀ (j : Nat) (e : E), tr[j]? = some e → q e = true → ∃ (i : Nat) (e' : E), i < j ∧ tr[i]? = some e' ∧ p e' = true

/-- Every event of `tr` that satisfies `p` stands before every event of
`tr` that satisfies `q`. -/
def AllBefore {E : Type} (p q : E → Bool) (tr : List E) : Prop :=
  ∀ (i j : Nat) (e e' : E), tr[i]? = some e → tr[j]? = some e' → p e = true → q e' = true → i < j

/-- Every event of `tr` that satisfies `p` is followed by a later event of
`tr` that satisfies `q`. -/
def FollowedBy {E : Type} (p q : E → Bool) (tr : List E) : Prop :=
  ∀ (i : Nat) (e : E), tr[i]? = some e → p e = true →
    ∃ (j : Nat) (e' : E), i < j ∧ tr[j]? = some e' ∧ q e' = true

/-- Decision procedure for `FollowedBy`. -/
def followedByB {E : Type} (p q : E → Bool) : List E → Bool
  | [] => true
  | e :: rest => (!p e || rest.any q) && followedByB p q rest

/-- Decision procedure for `Precedes`. -/
def precedesB {E : Type} (p q : E → Bool) : List E → Bool
  | [] => true
  | e :: rest => !q e && (p e || precedesB p q rest)

/-- Decision procedure for `WrittenBeforeRead`, given the locations
`written` before the list starts. -/
def wbrB {E L : Type} [DecidableEq L] (reads writes : E → List L) (written : List L) :
    List E → Bool
  | [] => true
  | e :: rest =>
    (reads e).all (fun l => decide (l ∈ written)) && wbrB reads writes (written ++ writes e) rest

/-- Past source line `L` the history holds an event that satisfies `p`. -/
def Seen {E : Type} (L : Nat) (p : E → Bool) (line : Nat) (tr : List E) : Prop :=
  L < line → tr.any p = true

/-- Up to source line `M` the history holds no event that satisfies `p`. -/
def NotYet {E : Type} (M : Nat) (p : E → Bool) (line : Nat) (tr : List E) : Prop :=
  line ≤ M → tr.any p = false

/-- Every location an event of `tr` reads was written by an earlier event
of `tr`. -/
def WrittenBeforeRead {E L : Type} (reads writes : E → List L) (tr : List E) : Prop :=
  ∀ (i : Nat) (e : E) (l : L), tr[i]? = some e → l ∈ reads e →
    ∃ (j : Nat) (e' : E), j < i ∧ tr[j]? = some e' ∧ l ∈ writes e'

/-! ## The device context -/

/-- The three platform callbacks an example installs in its context. -/
inductive Callback where
  | platform_write
  | platform_read
  | platform_delay
deriving DecidableEq, Repr

/-- The bus handle `&SENSOR_BUS`. -/
inductive BusHandle where
  | SENSOR_BUS
deriving DecidableEq, Repr

/-- The fields of `stmdev_ctx_t` the examples assign; `none` is a field
that has not been assigned yet. -/
structure stmdev_ctx_t where
  write_reg : Option Callback
  read_reg : Option Callback
  mdelay : Option Callback
  handle : Option BusHandle
deriving DecidableEq, Repr

/-- The context before any field is assigned. -/
def ctx_unset : stmdev_ctx_t := ⟨none, none, none, none⟩

/-- The context every example builds in its first four statements. -/
def ctx_ready : stmdev_ctx_t :=
  ⟨some .platform_write, some .platform_read, some .platform_delay, some .SENSOR_BUS⟩

/-- The driver's `PROPERTY_DISABLE` / `PROPERTY_ENABLE`. -/
inductive Property where
  | PROPERTY_DISABLE
  | PROPERTY_ENABLE
deriving DecidableEq, Repr

/-! ## The platform functions

The three examples carry the same `platform_write` and `platform_read`,
up to the I2C address constant; the board is chosen by the preprocessor. -/

/-- The board macros; each may or may not be defined. -/
structure Board where
  NUCLEO_F401RE : Bool
  STEVAL_MKI109V3 : Bool
  SPC584B_DIS : Bool
deriving DecidableEq, Repr

/-- Level of the chip-select pin. -/
inductive GPIO_PinState where
  | GPIO_PIN_RESET
  | GPIO_PIN_SET
deriving DecidableEq, Repr

/-- The calls into the hardware-abstraction layer made by the platform
functions, with their arguments (the memory-address size of the two I2C
memory calls is always `I2C_MEMADD_SIZE_8BIT`, the pin always `CS_up`). -/
inductive HalCall where
  | HAL_I2C_Mem_Write (handle devAddr reg : Nat) (data : List Nat) (len timeout : Nat)
  | HAL_I2C_Mem_Read (handle devAddr reg len timeout : Nat)
  | HAL_GPIO_WritePin (level : GPIO_PinState)
  | HAL_SPI_Transmit (handle : Nat) (data : List Nat) (len timeout : Nat)
  | HAL_SPI_Receive (handle len timeout : Nat)
  | i2c_lld_write (handle devAddr reg : Nat) (data : List Nat) (len : Nat)
  | i2c_lld_read (handle devAddr reg len : Nat)
deriving DecidableEq, Repr

/-- The hardware-abstraction layer: the calls made so far, the level of
the chip-select pin, and what the layer answers to its n-th call (a status
and, for a read, the bytes it delivers). -/
structure Hal where
  log : List HalCall
  cs : GPIO_PinState
  status : Nat → Int
  rx : Nat → List Nat

/-- One call into the layer: it is logged, a write to the chip-select pin
takes effect, and the layer's status for this call is returned. -/
def Hal.call (h : Hal) (c : HalCall) : Hal × Int :=
  ({ h with
      log := h.log ++ [c]
      cs := match c with
        | .HAL_GPIO_WritePin level => level
        | _ => h.cs },
    h.status h.log.length)

/-- One receiving call: as `Hal.call`, and the first `len` bytes of the
buffer are replaced by the bytes the layer delivers. -/
def Hal.recv (h : Hal) (c : HalCall) (bufp : List Nat) (len : Nat) :
    Hal × List Nat × Int :=
  ((h.call c).1, ((h.rx h.log.length).take len).map u8 ++ bufp.drop len, (h.call c).2)

/-- Function `platform_write`; `ADD_N` and `ADD_S` are the I2C address
constants used under `NUCLEO_F401RE` and under `SPC584B_DIS`. -/
def platform_write (b : Board) (ADD_N ADD_S : Nat) (hal : Hal) (handle reg : Nat)
    (bufp : List Nat) (len : Nat) : Hal × Int :=
  if b.NUCLEO_F401RE then
    let hal := (hal.call (.HAL_I2C_Mem_Write handle ADD_N (u8 reg) bufp (u16 len) 1000)).1
    (hal, 0)
  else if b.STEVAL_MKI109V3 then
    let hal := (hal.call (.HAL_GPIO_WritePin .GPIO_PIN_RESET)).1
    let hal := (hal.call (.HAL_SPI_Transmit handle [u8 reg] 1 1000)).1
    let hal := (hal.call (.HAL_SPI_Transmit handle bufp (u16 len) 1000)).1
    let hal := (hal.call (.HAL_GPIO_WritePin .GPIO_PIN_SET)).1
    (hal, 0)
  else if b.SPC584B_DIS then
    let hal := (hal.call (.i2c_lld_write handle (ADD_S &&& 0xFE) (u8 reg) bufp (u16 len))).1
    (hal, 0)
  else
    (hal, 0)

/-- Function `platform_read`; `ADD_N` and `ADD_S` as for `platform_write`. -/
def platform_read (b : Board) (ADD_N ADD_S : Nat) (hal : Hal) (handle reg : Nat)
    (bufp : List Nat) (len : Nat) : Hal × List Nat × Int :=
  if b.NUCLEO_F401RE then
    let r := hal.recv (.HAL_I2C_Mem_Read handle ADD_N (u8 reg) (u16 len) 1000) bufp (u16 len)
    (r.1, r.2.1, 0)
  else if b.STEVAL_MKI109V3 then
    let reg := u8 (u8 reg ||| 0x80)
    let hal := (hal.call (.HAL_GPIO_WritePin .GPIO_PIN_RESET)).1
    let hal := (hal.call (.HAL_SPI_Transmit handle [reg] 1 1000)).1
    let r := hal.recv (.HAL_SPI_Receive handle (u16 len) 1000) bufp (u16 len)
    let hal := (r.1.call (.HAL_GPIO_WritePin .GPIO_PIN_SET)).1
    (hal, r.2.1, 0)
  else if b.SPC584B_DIS then
    let r := hal.recv (.i2c_lld_read handle (ADD_S &&& 0xFE) (u8 reg) (u16 len)) bufp (u16 len)
    (r.1, r.2.1, 0)
  else
    (hal, bufp, 0)

/-! ## Example `iis2dulpx_read_data_drdy.c` -/

namespace iis2dulpx

/-- Constants of `iis2dulpx_reg.h`, which is not part of the sources. -/
structure Consts where
  IIS2DULPX_ID : Nat
  IIS2DULPX_I2C_ADD_L : Nat

/-- Function `platform_write` of the example. -/
def platform_write (k : Consts) (b : Board) :=
  STMems.platform_write b k.IIS2DULPX_I2C_ADD_L k.IIS2DULPX_I2C_ADD_L

/-- Function `platform_read` of the example. -/
def platform_read (k : Consts) (b : Board) :=
  STMems.platform_read b k.IIS2DULPX_I2C_ADD_L k.IIS2DULPX_I2C_ADD_L

/-- Arguments of `iis2dulpx_init_set` used by the example. -/
inductive iis2dulpx_init_t where
  | IIS2DULPX_RESET
  | IIS2DULPX_SENSOR_ONLY_ON
deriving DecidableEq, Repr

/-- Full scale: the value of the zero-initialised static, and the one the
example assigns. -/
inductive iis2dulpx_fs_t where
  | zero
  | IIS2DULPX_4g
deriving DecidableEq, Repr

/-- Bandwidth: zero-initialised value and the one the example assigns. -/
inductive iis2dulpx_bw_t where
  | zero
  | IIS2DULPX_ODR_div_4
deriving DecidableEq, Repr

/-- Output data rate: zero-initialised value and the one the example assigns. -/
inductive iis2dulpx_odr_t where
  | zero
  | IIS2DULPX_25Hz_LP
deriving DecidableEq, Repr

/-- The fields of `iis2dulpx_md_t` the example assigns. -/
structure iis2dulpx_md_t where
  fs : iis2dulpx_fs_t
  bw : iis2dulpx_bw_t
  odr : iis2dulpx_odr_t
deriving DecidableEq, Repr

/-- The routing structure `iis2dulpx_pin_int_route_t`: its field `drdy`,
and in `others` the content of all its other fields. -/
structure iis2dulpx_pin_int_route_t where
  drdy : Nat
  others : Nat
deriving DecidableEq, Repr

/-- The part of `iis2dulpx_xl_data_t` the example reads: `mg[0..2]`. -/
structure iis2dulpx_xl_data_t where
  mg : float_t × float_t × float_t
deriving DecidableEq, Repr

/-- The part of `iis2dulpx_outt_data_t` the example reads: `heat.deg_c`. -/
structure iis2dulpx_outt_data_t where
  deg_c : float_t
deriving DecidableEq, Repr

/-- What the device answers to one driver call; a call uses the field of
its kind. -/
structure Resp where
  id : Nat
  sw_reset : Nat
  xl : iis2dulpx_xl_data_t
  outt : iis2dulpx_outt_data_t

/-- Program points: the source line of each statement of
`iis2dulpx_read_data_drdy`. -/
inductive Pc where
  | l149 | l150 | l151 | l152 | l155 | l158 | l160 | l163 | l164 | l165
  | l168 | l170 | l171 | l174 | l177 | l178 | l182 | l183 | l184 | l185
  | l189 | l190 | l192 | l195 | l197 | l199 | l202 | l204
deriving DecidableEq, Repr

/-- Source line of a program point. -/
def Pc.line : Pc → Nat
  | .l149 => 149 | .l150 => 150 | .l151 => 151 | .l152 => 152 | .l155 => 155
  | .l158 => 158 | .l160 => 160 | .l163 => 163 | .l164 => 164 | .l165 => 165
  | .l168 => 168 | .l170 => 170 | .l171 => 171 | .l174 => 174 | .l177 => 177
  | .l178 => 178 | .l182 => 182 | .l183 => 183 | .l184 => 184 | .l185 => 185
  | .l189 => 189 | .l190 => 190 | .l192 => 192 | .l195 => 195 | .l197 => 197
  | .l199 => 199 | .l202 => 202 | .l204 => 204

/-- The history: every call the example makes, with the context and the
arguments passed and the value obtained; the clearing of `drdy_event`; and
every invocation of the interrupt handler, with the program point of the
main function it interrupted. -/
inductive Ev where
  | platform_init
  | platform_delay (ms : Nat)
  | exit_deep_power_down (ctx : stmdev_ctx_t)
  | device_id_get (ctx : stmdev_ctx_t) (id : Nat)
  | init_set (ctx : stmdev_ctx_t) (val : iis2dulpx_init_t)
  | status_get (ctx : stmdev_ctx_t) (sw_reset : Nat)
  | pin_int1_route_set (ctx : stmdev_ctx_t) (val : iis2dulpx_pin_int_route_t)
  | mode_set (ctx : stmdev_ctx_t) (md : iis2dulpx_md_t)
  | xl_data_get (ctx : stmdev_ctx_t) (md : iis2dulpx_md_t) (data : iis2dulpx_xl_data_t)
  | outt_data_get (ctx : stmdev_ctx_t) (data : iis2dulpx_outt_data_t)
  | drdy_event_clear
  | snprintf (fmt : Quantity) (text : List Nat)
  | tx_com (sent : List Nat) (len : Nat)
  | handler (interrupted : Pc)
deriving DecidableEq, Repr

/-- The statics and locals of the example, the program point, the number
of device answers consumed and the history. -/
structure State where
  pc : Pc
  tx_buffer : List Nat
  data_xl : iis2dulpx_xl_data_t
  data_temp : iis2dulpx_outt_data_t
  dev_ctx : stmdev_ctx_t
  md : iis2dulpx_md_t
  drdy_event : Nat
  int_route : iis2dulpx_pin_int_route_t
  sw_reset : Nat
  id : Nat
  reads : Nat
  trace : List Ev
deriving DecidableEq, Repr

/-- Entry of `iis2dulpx_read_data_drdy`: the statics are zero, `drdy_event`
is 0; the local `int_route` has no initialiser and holds `garbage`; the
locals `status` and `id` are assigned before they are read. -/
def init (garbage : iis2dulpx_pin_int_route_t) : State :=
  { pc := .l149
    tx_buffer := tx_buffer_zero
    data_xl := ⟨(0, 0, 0)⟩
    data_temp := ⟨0⟩
    dev_ctx := ctx_unset
    md := ⟨.zero, .zero, .zero⟩
    drdy_event := 0
    int_route := garbage
    sw_reset := 0
    id := 0
    reads := 0
    trace := [] }

/-- Record a call in the history. -/
def State.log (s : State) (e : Ev) : State := { s with trace := s.trace ++ [e] }

/-- One statement of `iis2dulpx_read_data_drdy`. -/
def step (k : Consts) (libc : Libc) (dev : Nat → Resp) (s : State) : State :=
  match s.pc with
  | .l149 => { s with pc := .l150, dev_ctx := { s.dev_ctx with write_reg := some .platform_write } }
  | .l150 => { s with pc := .l151, dev_ctx := { s.dev_ctx with read_reg := some .platform_read } }
  | .l151 => { s with pc := .l152, dev_ctx := { s.dev_ctx with mdelay := some .platform_delay } }
  | .l152 => { s with pc := .l155, dev_ctx := { s.dev_ctx with handle := some .SENSOR_BUS } }
  | .l155 => { s with pc := .l158 }.log .platform_init
  | .l158 => { s with pc := .l160 }.log (.platform_delay 10)
  | .l160 => { s with pc := .l163 }.log (.exit_deep_power_down s.dev_ctx)
  | .l163 =>
    { s with pc := .l164, id := u8 (dev s.reads).id, reads := s.reads + 1 }.log
      (.device_id_get s.dev_ctx (u8 (dev s.reads).id))
  | .l164 => if s.id ≠ k.IIS2DULPX_ID then { s with pc := .l165 } else { s with pc := .l168 }
  | .l165 => s
  | .l168 => { s with pc := .l170 }.log (.init_set s.dev_ctx .IIS2DULPX_RESET)
  | .l170 =>
    { s with pc := .l171, sw_reset := (dev s.reads).sw_reset % 2, reads := s.reads + 1 }.log
      (.status_get s.dev_ctx ((dev s.reads).sw_reset % 2))
  | .l171 => if s.sw_reset ≠ 0 then { s with pc := .l170 } else { s with pc := .l174 }
  | .l174 => { s with pc := .l177 }.log (.init_set s.dev_ctx .IIS2DULPX_SENSOR_ONLY_ON)
  | .l177 => { s with pc := .l178, int_route := { s.int_route with drdy := 1 } }
  | .l178 => { s with pc := .l182 }.log (.pin_int1_route_set s.dev_ctx s.int_route)
  | .l182 => { s with pc := .l183, md := { s.md with fs := .IIS2DULPX_4g } }
  | .l183 => { s with pc := .l184, md := { s.md with bw := .IIS2DULPX_ODR_div_4 } }
  | .l184 => { s with pc := .l185, md := { s.md with odr := .IIS2DULPX_25Hz_LP } }
  | .l185 => { s with pc := .l189 }.log (.mode_set s.dev_ctx s.md)
  | .l189 => if s.drdy_event > 0 then { s with pc := .l190 } else { s with pc := .l189 }
  | .l190 =>
    { s with pc := .l192, data_xl := (dev s.reads).xl, reads := s.reads + 1 }.log
      (.xl_data_get s.dev_ctx s.md (dev s.reads).xl)
  | .l192 => { s with pc := .l195, drdy_event := 0 }.log .drdy_event_clear
  | .l195 =>
    { s with pc := .l197
             tx_buffer := snprintf s.tx_buffer 1000 (fmt_acceleration libc s.data_xl.mg) }.log
      (.snprintf .acceleration (fmt_acceleration libc s.data_xl.mg))
  | .l197 =>
    { s with pc := .l199 }.log
      (.tx_com (s.tx_buffer.take (u16 (strlen s.tx_buffer))) (u16 (strlen s.tx_buffer)))
  | .l199 =>
    { s with pc := .l202, data_temp := (dev s.reads).outt, reads := s.reads + 1 }.log
      (.outt_data_get s.dev_ctx (dev s.reads).outt)
  | .l202 =>
    { s with pc := .l204
             tx_buffer := snprintf s.tx_buffer 1000 (fmt_temp libc s.data_temp.deg_c) }.log
      (.snprintf .temperature (fmt_temp libc s.data_temp.deg_c))
  | .l204 =>
    { s with pc := .l189 }.log
      (.tx_com (s.tx_buffer.take (u16 (strlen s.tx_buffer))) (u16 (strlen s.tx_buffer)))

/-- Function `iis2dulpx_read_data_drdy_handler`. -/
def iis2dulpx_read_data_drdy_handler (s : State) : State := { s with drdy_event := 1 }

/-- What runs next: a statement of the main function, or the interrupt
handler. -/
inductive Act where
  | main
  | irq
deriving DecidableEq, Repr

/-- One scheduling step; an invocation of the handler is recorded in the
history with the program point it interrupted. -/
def act (k : Consts) (libc : Libc) (dev : Nat → Resp) (s : State) : Act → State
  | .main => step k libc dev s
  | .irq => (iis2dulpx_read_data_drdy_handler s).log (.handler s.pc)

/-- Run a schedule from a state. -/
def exec (k : Consts) (libc : Libc) (dev : Nat → Resp) (s : State) (sch : List Act) : State :=
  sch.foldl (act k libc dev) s

/-- Run the main function alone for `n` statements. -/
def run (k : Consts) (libc : Libc) (dev : Nat → Resp) (n : Nat) (s : State) : State :=
  (step k libc dev)^[n] s

/-- Run from the loop head `l189` until the loop head is reached again,
for at most `fuel` statements. -/
def toHead (k : Consts) (libc : Libc) (dev : Nat → Resp) : Nat → State → State
  | 0, s => s
  | fuel + 1, s => if s.pc = .l189 then s else toHead k libc dev fuel (step k libc dev s)

/-- One iteration of the `while (1)` loop on lines 188 to 206. -/
def iteration (k : Consts) (libc : Libc) (dev : Nat → Resp) (s : State) : State :=
  toHead k libc dev 8 (step k libc dev s)

/-- The calls into the sensor driver. -/
def Ev.isDriverCall : Ev → Bool
  | .exit_deep_power_down _ => true
  | .device_id_get _ _ => true
  | .init_set _ _ => true
  | .status_get _ _ => true
  | .pin_int1_route_set _ _ => true
  | .mode_set _ _ => true
  | .xl_data_get _ _ _ => true
  | .outt_data_get _ _ => true
  | _ => false

/-- The context a driver call was given. -/
def Ev.ctx : Ev → Option stmdev_ctx_t
  | .exit_deep_power_down c => some c
  | .device_id_get c _ => some c
  | .init_set c _ => some c
  | .status_get c _ => some c
  | .pin_int1_route_set c _ => some c
  | .mode_set c _ => some c
  | .xl_data_get c _ _ => some c
  | .outt_data_get c _ => some c
  | _ => none

/-- The device-ID read. -/
def Ev.isIdGet : Ev → Bool
  | .device_id_get _ _ => true
  | _ => false

/-- The device reset. -/
def Ev.isReset : Ev → Bool
  | .init_set _ .IIS2DULPX_RESET => true
  | _ => false

/-- The setting of output data rate and full scale. -/
def Ev.isRateOrScale : Ev → Bool
  | .mode_set _ _ => true
  | _ => false

/-- The sample reads. -/
def Ev.isSample : Ev → Bool
  | .xl_data_get _ _ _ => true
  | .outt_data_get _ _ => true
  | _ => false

/-- The transmissions. -/
def Ev.isTx : Ev → Bool
  | .tx_com _ _ => true
  | _ => false

/-- The invocations of the interrupt handler. -/
def Ev.isHandler : Ev → Bool
  | .handler _ => true
  | _ => false

/-- The reads of the acceleration sample. -/
def Ev.isXlGet : Ev → Bool
  | .xl_data_get _ _ _ => true
  | _ => false

/-- The history of a run up to and including the device-ID read. -/
def id_trace (id : Nat) : List Ev :=
  [.platform_init, .platform_delay 10, .exit_deep_power_down ctx_ready,
   .device_id_get ctx_ready id]

/-- The static buffers of the example. -/
inductive Loc where
  | data_xl
  | data_temp
  | tx_buffer
deriving DecidableEq, Repr

/-- The buffers a call reads. -/
def Ev.reads : Ev → List Loc
  | .snprintf .acceleration _ => [.data_xl]
  | .snprintf .temperature _ => [.data_temp]
  | .tx_com _ _ => [.tx_buffer]
  | _ => []

/-- The buffers a call writes. -/
def Ev.writes : Ev → List Loc
  | .xl_data_get _ _ _ => [.data_xl]
  | .outt_data_get _ _ => [.data_temp]
  | .snprintf _ _ => [.tx_buffer]
  | _ => []

end iis2dulpx

/-! ## Example `lsm6dso32x_offset.c` -/

namespace lsm6dso32x

/-- The part of `lsm6dso32x_reg.c/h`, which is not part of the sources,
that the example depends on: two constants and the conversion functions. -/
structure Driver where
  LSM6DSO32X_ID : Nat
  LSM6DSO32X_I2C_ADD_L : Nat
  lsm6dso32x_from_fs4_to_mg : Int → float_t
  lsm6dso32x_from_fs2000_to_mdps : Int → float_t
  lsm6dso32x_from_lsb_to_celsius : Int → float_t

/-- Function `platform_write` of the example. -/
def platform_write (k : Driver) (b : Board) :=
  STMems.platform_write b k.LSM6DSO32X_I2C_ADD_L k.LSM6DSO32X_I2C_ADD_L

/-- Function `platform_read` of the example. -/
def platform_read (k : Driver) (b : Board) :=
  STMems.platform_read b k.LSM6DSO32X_I2C_ADD_L k.LSM6DSO32X_I2C_ADD_L

/-- The enumeration constants the example passes to the driver. -/
inductive Const where
  | LSM6DSO32X_I3C_DISABLE
  | LSM6DSO32X_LSb_1mg
  | LSM6DSO32X_XL_ODR_12Hz5
  | LSM6DSO32X_GY_ODR_12Hz5
  | LSM6DSO32X_4g
  | LSM6DSO32X_2000dps
  | LSM6DSO32X_LP_ODR_DIV_100
deriving DecidableEq, Repr

/-- What the device answers to one driver call; a call uses the field of
its kind. -/
structure Resp where
  byte : Nat
  raw3 : Int × Int × Int
  raw : Int

/-- Program points: the source line of each statement of `lsm6dso32x_offset`. -/
inductive Pc where
  | l138 | l139 | l140 | l141 | l143 | l145 | l147 | l149 | l150
  | l153 | l156 | l157 | l160 | l162 | l164 | l169 | l170 | l171 | l172
  | l174 | l175 | l177 | l178 | l181 | l182
  | l188 | l190 | l192 | l193 | l194 | l196 | l198 | l200 | l203
  | l206 | l208 | l210 | l211 | l212 | l214 | l216 | l218 | l221
  | l224 | l226 | l228 | l229 | l230 | l232 | l234
deriving DecidableEq, Repr

/-- Source line of a program point. -/
def Pc.line : Pc → Nat
  | .l138 => 138 | .l139 => 139 | .l140 => 140 | .l141 => 141 | .l143 => 143
  | .l145 => 145 | .l147 => 147 | .l149 => 149 | .l150 => 150 | .l153 => 153
  | .l156 => 156 | .l157 => 157 | .l160 => 160 | .l162 => 162 | .l164 => 164
  | .l169 => 169 | .l170 => 170 | .l171 => 171 | .l172 => 172 | .l174 => 174
  | .l175 => 175 | .l177 => 177 | .l178 => 178 | .l181 => 181 | .l182 => 182
  | .l188 => 188 | .l190 => 190 | .l192 => 192 | .l193 => 193 | .l194 => 194
  | .l196 => 196 | .l198 => 198 | .l200 => 200 | .l203 => 203 | .l206 => 206
  | .l208 => 208 | .l210 => 210 | .l211 => 211 | .l212 => 212 | .l214 => 214
  | .l216 => 216 | .l218 => 218 | .l221 => 221 | .l224 => 224 | .l226 => 226
  | .l228 => 228 | .l229 => 229 | .l230 => 230 | .l232 => 232 | .l234 => 234

/-- The history: every call the example makes, with the context and the
arguments passed and the value obtained. -/
inductive Ev where
  | platform_init
  | platform_delay (ms : Nat)
  | device_id_get (ctx : stmdev_ctx_t) (id : Nat)
  | reset_set (ctx : stmdev_ctx_t) (val : Property)
  | reset_get (ctx : stmdev_ctx_t) (rst : Nat)
  | i3c_disable_set (ctx : stmdev_ctx_t) (val : Const)
  | block_data_update_set (ctx : stmdev_ctx_t) (val : Property)
  | xl_offset_weight_set (ctx : stmdev_ctx_t) (val : Const)
  | xl_usr_offset_x_set (ctx : stmdev_ctx_t) (buff : Nat)
  | xl_usr_offset_y_set (ctx : stmdev_ctx_t) (buff : Nat)
  | xl_usr_offset_z_set (ctx : stmdev_ctx_t) (buff : Nat)
  | xl_usr_offset_set (ctx : stmdev_ctx_t) (val : Property)
  | xl_data_rate_set (ctx : stmdev_ctx_t) (val : Const)
  | gy_data_rate_set (ctx : stmdev_ctx_t) (val : Const)
  | xl_full_scale_set (ctx : stmdev_ctx_t) (val : Const)
  | gy_full_scale_set (ctx : stmdev_ctx_t) (val : Const)
  | xl_hp_path_on_out_set (ctx : stmdev_ctx_t) (val : Const)
  | xl_filter_lp2_set (ctx : stmdev_ctx_t) (val : Property)
  | xl_flag_data_ready_get (ctx : stmdev_ctx_t) (flag : Nat)
  | gy_flag_data_ready_get (ctx : stmdev_ctx_t) (flag : Nat)
  | temp_flag_data_ready_get (ctx : stmdev_ctx_t) (flag : Nat)
  | memset (q : Quantity)
  | acceleration_raw_get (ctx : stmdev_ctx_t) (val : Int × Int × Int)
  | angular_rate_raw_get (ctx : stmdev_ctx_t) (val : Int × Int × Int)
  | temperature_raw_get (ctx : stmdev_ctx_t) (val : Int)
  | from_fs4_to_mg (axis : Nat) (lsb : Int)
  | from_fs2000_to_mdps (axis : Nat) (lsb : Int)
  | from_lsb_to_celsius (lsb : Int)
  | snprintf (fmt : Quantity) (text : List Nat)
  | tx_com (sent : List Nat) (len : Nat)
deriving DecidableEq, Repr

/-- The statics and locals of the example, the program point, the number
of device answers consumed and the history. -/
structure State where
  pc : Pc
  data_raw_acceleration : Int × Int × Int
  data_raw_angular_rate : Int × Int × Int
  data_raw_temperature : Int
  acceleration_mg : float_t × float_t × float_t
  angular_rate_mdps : float_t × float_t × float_t
  temperature_degC : float_t
  whoamI : Nat
  rst : Nat
  tx_buffer : List Nat
  dev_ctx : stmdev_ctx_t
  offset : Nat × Nat × Nat
  reg : Nat
  reads : Nat
  trace : List Ev
deriving DecidableEq, Repr

/-- Entry of `lsm6dso32x_offset`: the statics are zero, the local `offset`
has its initialiser, the locals `dev_ctx` and `reg` are assigned before
they are read. -/
def init : State :=
  { pc := .l138
    data_raw_acceleration := (0, 0, 0)
    data_raw_angular_rate := (0, 0, 0)
    data_raw_temperature := 0
    acceleration_mg := (0, 0, 0)
    angular_rate_mdps := (0, 0, 0)
    temperature_degC := 0
    whoamI := 0
    rst := 0
    tx_buffer := tx_buffer_zero
    dev_ctx := ctx_unset
    offset := (0x30, 0x40, 0x7E)
    reg := 0
    reads := 0
    trace := [] }

/-- Record a call in the history. -/
def State.log (s : State) (e : Ev) : State := { s with trace := s.trace ++ [e] }

/-- The driver answers a call: one device answer is consumed. -/
def State.answered (s : State) : State := { s with reads := s.reads + 1 }

/-- One statement of `lsm6dso32x_offset`. -/
def step (k : Driver) (libc : Libc) (dev : Nat → Resp) (s : State) : State :=
  match s.pc with
  | .l138 => { s with pc := .l139, dev_ctx := { s.dev_ctx with write_reg := some .platform_write } }
  | .l139 => { s with pc := .l140, dev_ctx := { s.dev_ctx with read_reg := some .platform_read } }
  | .l140 => { s with pc := .l141, dev_ctx := { s.dev_ctx with mdelay := some .platform_delay } }
  | .l141 => { s with pc := .l143, dev_ctx := { s.dev_ctx with handle := some .SENSOR_BUS } }
  | .l143 => { s with pc := .l145 }.log .platform_init
  | .l145 => { s with pc := .l147 }.log (.platform_delay 10)
  | .l147 =>
    ({ s with pc := .l149, whoamI := u8 (dev s.reads).byte }.log
      (.device_id_get s.dev_ctx (u8 (dev s.reads).byte))).answered
  | .l149 => if s.whoamI ≠ k.LSM6DSO32X_ID then { s with pc := .l150 } else { s with pc := .l153 }
  | .l150 => s
  | .l153 => { s with pc := .l156 }.log (.reset_set s.dev_ctx .PROPERTY_ENABLE)
  | .l156 =>
    ({ s with pc := .l157, rst := u8 (dev s.reads).byte }.log
      (.reset_get s.dev_ctx (u8 (dev s.reads).byte))).answered
  | .l157 => if s.rst ≠ 0 then { s with pc := .l156 } else { s with pc := .l160 }
  | .l160 => { s with pc := .l162 }.log (.i3c_disable_set s.dev_ctx .LSM6DSO32X_I3C_DISABLE)
  | .l162 => { s with pc := .l164 }.log (.block_data_update_set s.dev_ctx .PROPERTY_ENABLE)
  | .l164 => { s with pc := .l169 }.log (.xl_offset_weight_set s.dev_ctx .LSM6DSO32X_LSb_1mg)
  | .l169 => { s with pc := .l170 }.log (.xl_usr_offset_x_set s.dev_ctx s.offset.1)
  | .l170 => { s with pc := .l171 }.log (.xl_usr_offset_y_set s.dev_ctx s.offset.2.1)
  | .l171 => { s with pc := .l172 }.log (.xl_usr_offset_z_set s.dev_ctx s.offset.2.2)
  | .l172 => { s with pc := .l174 }.log (.xl_usr_offset_set s.dev_ctx .PROPERTY_ENABLE)
  | .l174 => { s with pc := .l175 }.log (.xl_data_rate_set s.dev_ctx .LSM6DSO32X_XL_ODR_12Hz5)
  | .l175 => { s with pc := .l177 }.log (.gy_data_rate_set s.dev_ctx .LSM6DSO32X_GY_ODR_12Hz5)
  | .l177 => { s with pc := .l178 }.log (.xl_full_scale_set s.dev_ctx .LSM6DSO32X_4g)
  | .l178 => { s with pc := .l181 }.log (.gy_full_scale_set s.dev_ctx .LSM6DSO32X_2000dps)
  | .l181 => { s with pc := .l182 }.log (.xl_hp_path_on_out_set s.dev_ctx .LSM6DSO32X_LP_ODR_DIV_100)
  | .l182 => { s with pc := .l188 }.log (.xl_filter_lp2_set s.dev_ctx .PROPERTY_ENABLE)
  | .l188 =>
    ({ s with pc := .l190, reg := u8 (dev s.reads).byte }.log
      (.xl_flag_data_ready_get s.dev_ctx (u8 (dev s.reads).byte))).answered
  | .l190 => if s.reg ≠ 0 then { s with pc := .l192 } else { s with pc := .l206 }
  | .l192 =>
    { s with pc := .l193, data_raw_acceleration := memset3 s.data_raw_acceleration }.log
      (.memset .acceleration)
  | .l193 =>
    ({ s with pc := .l194
              data_raw_acceleration :=
                (i16 (dev s.reads).raw3.1, i16 (dev s.reads).raw3.2.1, i16 (dev s.reads).raw3.2.2) }.log
      (.acceleration_raw_get s.dev_ctx
        (i16 (dev s.reads).raw3.1, i16 (dev s.reads).raw3.2.1, i16 (dev s.reads).raw3.2.2))).answered
  | .l194 =>
    { s with pc := .l196
             acceleration_mg :=
               (k.lsm6dso32x_from_fs4_to_mg s.data_raw_acceleration.1,
                s.acceleration_mg.2.1, s.acceleration_mg.2.2) }.log
      (.from_fs4_to_mg 0 s.data_raw_acceleration.1)
  | .l196 =>
    { s with pc := .l198
             acceleration_mg :=
               (s.acceleration_mg.1, k.lsm6dso32x_from_fs4_to_mg s.data_raw_acceleration.2.1,
                s.acceleration_mg.2.2) }.log
      (.from_fs4_to_mg 1 s.data_raw_acceleration.2.1)
  | .l198 =>
    { s with pc := .l200
             acceleration_mg :=
               (s.acceleration_mg.1, s.acceleration_mg.2.1,
                k.lsm6dso32x_from_fs4_to_mg s.data_raw_acceleration.2.2) }.log
      (.from_fs4_to_mg 2 s.data_raw_acceleration.2.2)
  | .l200 =>
    { s with pc := .l203
             tx_buffer := snprintf s.tx_buffer 1000 (fmt_acceleration libc s.acceleration_mg) }.log
      (.snprintf .acceleration (fmt_acceleration libc s.acceleration_mg))
  | .l203 =>
    { s with pc := .l206 }.log
      (.tx_com (s.tx_buffer.take (u16 (strlen s.tx_buffer))) (u16 (strlen s.tx_buffer)))
  | .l206 =>
    ({ s with pc := .l208, reg := u8 (dev s.reads).byte }.log
      (.gy_flag_data_ready_get s.dev_ctx (u8 (dev s.reads).byte))).answered
  | .l208 => if s.reg ≠ 0 then { s with pc := .l210 } else { s with pc := .l224 }
  | .l210 =>
    { s with pc := .l211, data_raw_angular_rate := memset3 s.data_raw_angular_rate }.log
      (.memset .angular_rate)
  | .l211 =>
    ({ s with pc := .l212
              data_raw_angular_rate :=
                (i16 (dev s.reads).raw3.1, i16 (dev s.reads).raw3.2.1, i16 (dev s.reads).raw3.2.2) }.log
      (.angular_rate_raw_get s.dev_ctx
        (i16 (dev s.reads).raw3.1, i16 (dev s.reads).raw3.2.1, i16 (dev s.reads).raw3.2.2))).answered
  | .l212 =>
    { s with pc := .l214
             angular_rate_mdps :=
               (k.lsm6dso32x_from_fs2000_to_mdps s.data_raw_angular_rate.1,
                s.angular_rate_mdps.2.1, s.angular_rate_mdps.2.2) }.log
      (.from_fs2000_to_mdps 0 s.data_raw_angular_rate.1)
  | .l214 =>
    { s with pc := .l216
             angular_rate_mdps :=
               (s.angular_rate_mdps.1, k.lsm6dso32x_from_fs2000_to_mdps s.data_raw_angular_rate.2.1,
                s.angular_rate_mdps.2.2) }.log
      (.from_fs2000_to_mdps 1 s.data_raw_angular_rate.2.1)
  | .l216 =>
    { s with pc := .l218
             angular_rate_mdps :=
               (s.angular_rate_mdps.1, s.angular_rate_mdps.2.1,
                k.lsm6dso32x_from_fs2000_to_mdps s.data_raw_angular_rate.2.2) }.log
      (.from_fs2000_to_mdps 2 s.data_raw_angular_rate.2.2)
  | .l218 =>
    { s with pc := .l221
             tx_buffer := snprintf s.tx_buffer 1000 (fmt_angular_rate libc s.angular_rate_mdps) }.log
      (.snprintf .angular_rate (fmt_angular_rate libc s.angular_rate_mdps))
  | .l221 =>
    { s with pc := .l224 }.log
      (.tx_com (s.tx_buffer.take (u16 (strlen s.tx_buffer))) (u16 (strlen s.tx_buffer)))
  | .l224 =>
    ({ s with pc := .l226, reg := u8 (dev s.reads).byte }.log
      (.temp_flag_data_ready_get s.dev_ctx (u8 (dev s.reads).byte))).answered
  | .l226 => if s.reg ≠ 0 then { s with pc := .l228 } else { s with pc := .l188 }
  | .l228 => { s with pc := .l229, data_raw_temperature := 0 }.log (.memset .temperature)
  | .l229 =>
    ({ s with pc := .l230, data_raw_temperature := i16 (dev s.reads).raw }.log
      (.temperature_raw_get s.dev_ctx (i16 (dev s.reads).raw))).answered
  | .l230 =>
    { s with pc := .l232
             temperature_degC := k.lsm6dso32x_from_lsb_to_celsius s.data_raw_temperature }.log
      (.from_lsb_to_celsius s.data_raw_temperature)
  | .l232 =>
    { s with pc := .l234
             tx_buffer := snprintf s.tx_buffer 1000 (fmt_temperature libc s.temperature_degC) }.log
      (.snprintf .temperature (fmt_temperature libc s.temperature_degC))
  | .l234 =>
    { s with pc := .l188 }.log
      (.tx_com (s.tx_buffer.take (u16 (strlen s.tx_buffer))) (u16 (strlen s.tx_buffer)))

/-- Run the example for `n` statements. -/
def run (k : Driver) (libc : Libc) (dev : Nat → Resp) (n : Nat) (s : State) : State :=
  (step k libc dev)^[n] s

/-- Run until the program point `target` is reached, for at most `fuel`
statements. -/
def toPc (k : Driver) (libc : Libc) (dev : Nat → Resp) (target : Pc) : Nat → State → State
  | 0, s => s
  | fuel + 1, s =>
    if s.pc = target then s else toPc k libc dev target fuel (step k libc dev s)

/-- Lines 188 to 204 of the loop: the acceleration. -/
def acceleration_part (k : Driver) (libc : Libc) (dev : Nat → Resp) (s : State) : State :=
  toPc k libc dev .l206 9 s

/-- Lines 206 to 222 of the loop: the angular rate. -/
def angular_rate_part (k : Driver) (libc : Libc) (dev : Nat → Resp) (s : State) : State :=
  toPc k libc dev .l224 9 s

/-- Lines 224 to 235 of the loop: the temperature. -/
def temperature_part (k : Driver) (libc : Libc) (dev : Nat → Resp) (s : State) : State :=
  toPc k libc dev .l188 7 s

/-- One iteration of the `while (1)` loop on lines 185 to 236, from the
loop head back to the loop head. -/
def iteration (k : Driver) (libc : Libc) (dev : Nat → Resp) (s : State) : State :=
  temperature_part k libc dev (angular_rate_part k libc dev (acceleration_part k libc dev s))

/-- The calls into the sensor driver that are given the context. -/
def Ev.ctx : Ev → Option stmdev_ctx_t
  | .device_id_get c _ => some c
  | .reset_set c _ => some c
  | .reset_get c _ => some c
  | .i3c_disable_set c _ => some c
  | .block_data_update_set c _ => some c
  | .xl_offset_weight_set c _ => some c
  | .xl_usr_offset_x_set c _ => some c
  | .xl_usr_offset_y_set c _ => some c
  | .xl_usr_offset_z_set c _ => some c
  | .xl_usr_offset_set c _ => some c
  | .xl_data_rate_set c _ => some c
  | .gy_data_rate_set c _ => some c
  | .xl_full_scale_set c _ => some c
  | .gy_full_scale_set c _ => some c
  | .xl_hp_path_on_out_set c _ => some c
  | .xl_filter_lp2_set c _ => some c
  | .xl_flag_data_ready_get c _ => some c
  | .gy_flag_data_ready_get c _ => some c
  | .temp_flag_data_ready_get c _ => some c
  | .acceleration_raw_get c _ => some c
  | .angular_rate_raw_get c _ => some c
  | .temperature_raw_get c _ => some c
  | _ => none

/-- The calls into the sensor driver: those given the context, and the
conversion functions. -/
def Ev.isDriverCall (e : Ev) : Bool :=
  match e with
  | .from_fs4_to_mg _ _ => true
  | .from_fs2000_to_mdps _ _ => true
  | .from_lsb_to_celsius _ => true
  | _ => e.ctx.isSome

/-- The device-ID read. -/
def Ev.isIdGet : Ev → Bool
  | .device_id_get _ _ => true
  | _ => false

/-- The device reset. -/
def Ev.isReset : Ev → Bool
  | .reset_set _ _ => true
  | _ => false

/-- The output-data-rate and full-scale settings. -/
def Ev.isRateOrScale : Ev → Bool
  | .xl_data_rate_set _ _ => true
  | .gy_data_rate_set _ _ => true
  | .xl_full_scale_set _ _ => true
  | .gy_full_scale_set _ _ => true
  | _ => false

/-- The sample reads and the data-ready polls. -/
def Ev.isSample : Ev → Bool
  | .xl_flag_data_ready_get _ _ => true
  | .gy_flag_data_ready_get _ _ => true
  | .temp_flag_data_ready_get _ _ => true
  | .acceleration_raw_get _ _ => true
  | .angular_rate_raw_get _ _ => true
  | .temperature_raw_get _ _ => true
  | _ => false

/-- The transmissions. -/
def Ev.isTx : Ev → Bool
  | .tx_com _ _ => true
  | _ => false

/-- The history of a run up to and including the device-ID read. -/
def id_trace (id : Nat) : List Ev :=
  [.platform_init, .platform_delay 10, .device_id_get ctx_ready id]

/-- The static buffers of the example, element by element. -/
inductive Loc where
  | data_raw_acceleration (i : Nat)
  | data_raw_angular_rate (i : Nat)
  | data_raw_temperature
  | acceleration_mg (i : Nat)
  | angular_rate_mdps (i : Nat)
  | temperature_degC
  | tx_buffer
deriving DecidableEq, Repr

/-- The buffer elements a call reads. -/
def Ev.reads : Ev → List Loc
  | .from_fs4_to_mg i _ => [.data_raw_acceleration i]
  | .from_fs2000_to_mdps i _ => [.data_raw_angular_rate i]
  | .from_lsb_to_celsius _ => [.data_raw_temperature]
  | .snprintf .acceleration _ => [.acceleration_mg 0, .acceleration_mg 1, .acceleration_mg 2]
  | .snprintf .angular_rate _ => [.angular_rate_mdps 0, .angular_rate_mdps 1, .angular_rate_mdps 2]
  | .snprintf .temperature _ => [.temperature_degC]
  | .tx_com _ _ => [.tx_buffer]
  | _ => []

/-- The buffer elements a call writes (a conversion: the element its
result is assigned to). -/
def Ev.writes : Ev → List Loc
  | .memset .acceleration =>
    [.data_raw_acceleration 0, .data_raw_acceleration 1, .data_raw_acceleration 2]
  | .memset .angular_rate =>
    [.data_raw_angular_rate 0, .data_raw_angular_rate 1, .data_raw_angular_rate 2]
  | .memset .temperature => [.data_raw_temperature]
  | .acceleration_raw_get _ _ =>
    [.data_raw_acceleration 0, .data_raw_acceleration 1, .data_raw_acceleration 2]
  | .angular_rate_raw_get _ _ =>
    [.data_raw_angular_rate 0, .data_raw_angular_rate 1, .data_raw_angular_rate 2]
  | .temperature_raw_get _ _ => [.data_raw_temperature]
  | .from_fs4_to_mg i _ => [.acceleration_mg i]
  | .from_fs2000_to_mdps i _ => [.angular_rate_mdps i]
  | .from_lsb_to_celsius _ => [.temperature_degC]
  | .snprintf _ _ => [.tx_buffer]
  | _ => []

end lsm6dso32x

/-! ## Example `lsm6dso16is_read_data_drdy.c` -/

namespace lsm6dso16is

/-- The part of `lsm6dso16is_reg.c/h`, which is not part of the sources,
that the example depends on: three constants and the conversion functions. -/
structure Driver where
  LSM6DSO16IS_ID : Nat
  LSM6DSO16IS_I2C_ADD_L : Nat
  LSM6DSO16IS_I2C_ADD_H : Nat
  lsm6dso16is_from_fs2g_to_mg : Int → float_t
  lsm6dso16is_from_fs2000dps_to_mdps : Int → float_t
  lsm6dso16is_from_lsb_to_celsius : Int → float_t

/-- Function `platform_write` of the example. -/
def platform_write (k : Driver) (b : Board) :=
  STMems.platform_write b k.LSM6DSO16IS_I2C_ADD_L k.LSM6DSO16IS_I2C_ADD_H

/-- Function `platform_read` of the example. -/
def platform_read (k : Driver) (b : Board) :=
  STMems.platform_read b k.LSM6DSO16IS_I2C_ADD_L k.LSM6DSO16IS_I2C_ADD_H

/-- The enumeration constants the example passes to the driver. -/
inductive Const where
  | LSM6DSO16IS_XL_ODR_AT_12Hz5_HP
  | LSM6DSO16IS_GY_ODR_AT_12Hz5_HP
  | LSM6DSO16IS_2g
  | LSM6DSO16IS_2000dps
deriving DecidableEq, Repr

/-- The routing structure `lsm6dso16is_pin_int1_route_t`: its field
`drdy_xl`, and in `others` the content of all its other fields. -/
structure lsm6dso16is_pin_int1_route_t where
  drdy_xl : Nat
  others : Nat
deriving DecidableEq, Repr

/-- What the device answers to one driver call; a call uses the field of
its kind. -/
structure Resp where
  byte : Nat
  raw3 : Int × Int × Int
  raw : Int
  route : lsm6dso16is_pin_int1_route_t

/-- Program points of `lsm6dso16is_read_data_drdy`: the source line of
each statement. -/
inductive Pc where
  | l194 | l195 | l196 | l197 | l199 | l201 | l203 | l205 | l206
  | l209 | l211 | l212 | l213 | l220 | l221 | l224 | l225 | l234
deriving DecidableEq, Repr

/-- Source line of a program point of the main function. -/
def Pc.line : Pc → Nat
  | .l194 => 194 | .l195 => 195 | .l196 => 196 | .l197 => 197 | .l199 => 199
  | .l201 => 201 | .l203 => 203 | .l205 => 205 | .l206 => 206 | .l209 => 209
  | .l211 => 211 | .l212 => 212 | .l213 => 213 | .l220 => 220 | .l221 => 221
  | .l224 => 224 | .l225 => 225 | .l234 => 234

/-- Program points of `lsm6dso16is_read_data_drdy_handler`: the source
line of each statement; `h186` is the return. -/
inductive HPc where
  | h138 | h140 | h142 | h143 | h144 | h146 | h148 | h150 | h153
  | h156 | h158 | h160 | h161 | h162 | h164 | h166 | h168 | h171
  | h174 | h176 | h178 | h179 | h180 | h182 | h184 | h186
deriving DecidableEq, Repr

/-- The history: every call the example makes, with the context and the
arguments passed and the value obtained. -/
inductive Ev where
  | platform_init
  | platform_delay (ms : Nat)
  | device_id_get (ctx : stmdev_ctx_t) (id : Nat)
  | software_reset (ctx : stmdev_ctx_t)
  | pin_int1_route_get (ctx : stmdev_ctx_t) (val : lsm6dso16is_pin_int1_route_t)
  | pin_int1_route_set (ctx : stmdev_ctx_t) (val : lsm6dso16is_pin_int1_route_t)
  | xl_data_rate_set (ctx : stmdev_ctx_t) (val : Const)
  | gy_data_rate_set (ctx : stmdev_ctx_t) (val : Const)
  | xl_full_scale_set (ctx : stmdev_ctx_t) (val : Const)
  | gy_full_scale_set (ctx : stmdev_ctx_t) (val : Const)
  | xl_flag_data_ready_get (ctx : stmdev_ctx_t) (flag : Nat)
  | gy_flag_data_ready_get (ctx : stmdev_ctx_t) (flag : Nat)
  | temp_flag_data_ready_get (ctx : stmdev_ctx_t) (flag : Nat)
  | memset (q : Quantity)
  | acceleration_raw_get (ctx : stmdev_ctx_t) (val : Int × Int × Int)
  | angular_rate_raw_get (ctx : stmdev_ctx_t) (val : Int × Int × Int)
  | temperature_raw_get (ctx : stmdev_ctx_t) (val : Int)
  | from_fs2g_to_mg (axis : Nat) (lsb : Int)
  | from_fs2000dps_to_mdps (axis : Nat) (lsb : Int)
  | from_lsb_to_celsius (lsb : Int)
  | snprintf (fmt : Quantity) (text : List Nat)
  | tx_com (sent : List Nat) (len : Nat)
deriving DecidableEq, Repr

/-- The statics of the example, the locals of its two functions (`val`
of the main function, `drdy` of the handler), the program point of each,
the number of device answers consumed and the history. -/
structure State where
  pc : Pc
  hpc : HPc
  data_raw_acceleration : Int × Int × Int
  data_raw_angular_rate : Int × Int × Int
  data_raw_temperature : Int
  acceleration_mg : float_t × float_t × float_t
  angular_rate_mdps : float_t × float_t × float_t
  temperature_degC : float_t
  whoamI : Nat
  tx_buffer : List Nat
  dev_ctx : stmdev_ctx_t
  val : lsm6dso16is_pin_int1_route_t
  drdy : Nat
  reads : Nat
  trace : List Ev
deriving DecidableEq, Repr

/-- Entry of `lsm6dso16is_read_data_drdy`: the statics are zero; the
locals `val` and `drdy` are assigned before they are read; the handler is
not running. -/
def init : State :=
  { pc := .l194
    hpc := .h186
    data_raw_acceleration := (0, 0, 0)
    data_raw_angular_rate := (0, 0, 0)
    data_raw_temperature := 0
    acceleration_mg := (0, 0, 0)
    angular_rate_mdps := (0, 0, 0)
    temperature_degC := 0
    whoamI := 0
    tx_buffer := tx_buffer_zero
    dev_ctx := ctx_unset
    val := ⟨0, 0⟩
    drdy := 0
    reads := 0
    trace := [] }

/-- Record a call in the history. -/
def State.log (s : State) (e : Ev) : State := { s with trace := s.trace ++ [e] }

/-- The driver answers a call: one device answer is consumed. -/
def State.answered (s : State) : State := { s with reads := s.reads + 1 }

/-- One statement of `lsm6dso16is_read_data_drdy`. -/
def step (k : Driver) (dev : Nat → Resp) (s : State) : State :=
  match s.pc with
  | .l194 => { s with pc := .l195, dev_ctx := { s.dev_ctx with write_reg := some .platform_write } }
  | .l195 => { s with pc := .l196, dev_ctx := { s.dev_ctx with read_reg := some .platform_read } }
  | .l196 => { s with pc := .l197, dev_ctx := { s.dev_ctx with mdelay := some .platform_delay } }
  | .l197 => { s with pc := .l199, dev_ctx := { s.dev_ctx with handle := some .SENSOR_BUS } }
  | .l199 => { s with pc := .l201 }.log .platform_init
  | .l201 => { s with pc := .l203 }.log (.platform_delay 10)
  | .l203 =>
    ({ s with pc := .l205, whoamI := u8 (dev s.reads).byte }.log
      (.device_id_get s.dev_ctx (u8 (dev s.reads).byte))).answered
  | .l205 => if s.whoamI ≠ k.LSM6DSO16IS_ID then { s with pc := .l206 } else { s with pc := .l209 }
  | .l206 => s
  | .l209 => { s with pc := .l211 }.log (.software_reset s.dev_ctx)
  | .l211 =>
    ({ s with pc := .l212, val := (dev s.reads).route }.log
      (.pin_int1_route_get s.dev_ctx (dev s.reads).route)).answered
  | .l212 => { s with pc := .l213, val := { s.val with drdy_xl := 1 } }
  | .l213 => { s with pc := .l220 }.log (.pin_int1_route_set s.dev_ctx s.val)
  | .l220 => { s with pc := .l221 }.log (.xl_data_rate_set s.dev_ctx .LSM6DSO16IS_XL_ODR_AT_12Hz5_HP)
  | .l221 => { s with pc := .l224 }.log (.gy_data_rate_set s.dev_ctx .LSM6DSO16IS_GY_ODR_AT_12Hz5_HP)
  | .l224 => { s with pc := .l225 }.log (.xl_full_scale_set s.dev_ctx .LSM6DSO16IS_2g)
  | .l225 => { s with pc := .l234 }.log (.gy_full_scale_set s.dev_ctx .LSM6DSO16IS_2000dps)
  | .l234 => s

/-- One statement of `lsm6dso16is_read_data_drdy_handler`. -/
def hstep (k : Driver) (libc : Libc) (dev : Nat → Resp) (s : State) : State :=
  match s.hpc with
  | .h138 =>
    ({ s with hpc := .h140, drdy := u8 (dev s.reads).byte }.log
      (.xl_flag_data_ready_get s.dev_ctx (u8 (dev s.reads).byte))).answered
  | .h140 => if s.drdy ≠ 0 then { s with hpc := .h142 } else { s with hpc := .h156 }
  | .h142 =>
    { s with hpc := .h143, data_raw_acceleration := memset3 s.data_raw_acceleration }.log
      (.memset .acceleration)
  | .h143 =>
    ({ s with hpc := .h144
              data_raw_acceleration :=
                (i16 (dev s.reads).raw3.1, i16 (dev s.reads).raw3.2.1, i16 (dev s.reads).raw3.2.2) }.log
      (.acceleration_raw_get s.dev_ctx
        (i16 (dev s.reads).raw3.1, i16 (dev s.reads).raw3.2.1, i16 (dev s.reads).raw3.2.2))).answered
  | .h144 =>
    { s with hpc := .h146
             acceleration_mg :=
               (k.lsm6dso16is_from_fs2g_to_mg s.data_raw_acceleration.1,
                s.acceleration_mg.2.1, s.acceleration_mg.2.2) }.log
      (.from_fs2g_to_mg 0 s.data_raw_acceleration.1)
  | .h146 =>
    { s with hpc := .h148
             acceleration_mg :=
               (s.acceleration_mg.1, k.lsm6dso16is_from_fs2g_to_mg s.data_raw_acceleration.2.1,
                s.acceleration_mg.2.2) }.log
      (.from_fs2g_to_mg 1 s.data_raw_acceleration.2.1)
  | .h148 =>
    { s with hpc := .h150
             acceleration_mg :=
               (s.acceleration_mg.1, s.acceleration_mg.2.1,
                k.lsm6dso16is_from_fs2g_to_mg s.data_raw_acceleration.2.2) }.log
      (.from_fs2g_to_mg 2 s.data_raw_acceleration.2.2)
  | .h150 =>
    { s with hpc := .h153
             tx_buffer := snprintf s.tx_buffer 1000 (fmt_acceleration libc s.acceleration_mg) }.log
      (.snprintf .acceleration (fmt_acceleration libc s.acceleration_mg))
  | .h153 =>
    { s with hpc := .h156 }.log
      (.tx_com (s.tx_buffer.take (u16 (strlen s.tx_buffer))) (u16 (strlen s.tx_buffer)))
  | .h156 =>
    ({ s with hpc := .h158, drdy := u8 (dev s.reads).byte }.log
      (.gy_flag_data_ready_get s.dev_ctx (u8 (dev s.reads).byte))).answered
  | .h158 => if s.drdy ≠ 0 then { s with hpc := .h160 } else { s with hpc := .h174 }
  | .h160 =>
    { s with hpc := .h161, data_raw_angular_rate := memset3 s.data_raw_angular_rate }.log
      (.memset .angular_rate)
  | .h161 =>
    ({ s with hpc := .h162
              data_raw_angular_rate :=
                (i16 (dev s.reads).raw3.1, i16 (dev s.reads).raw3.2.1, i16 (dev s.reads).raw3.2.2) }.log
      (.angular_rate_raw_get s.dev_ctx
        (i16 (dev s.reads).raw3.1, i16 (dev s.reads).raw3.2.1, i16 (dev s.reads).raw3.2.2))).answered
  | .h162 =>
    { s with hpc := .h164
             angular_rate_mdps :=
               (k.lsm6dso16is_from_fs2000dps_to_mdps s.data_raw_angular_rate.1,
                s.angular_rate_mdps.2.1, s.angular_rate_mdps.2.2) }.log
      (.from_fs2000dps_to_mdps 0 s.data_raw_angular_rate.1)
  | .h164 =>
    { s with hpc := .h166
             angular_rate_mdps :=
               (s.angular_rate_mdps.1,
                k.lsm6dso16is_from_fs2000dps_to_mdps s.data_raw_angular_rate.2.1,
                s.angular_rate_mdps.2.2) }.log
      (.from_fs2000dps_to_mdps 1 s.data_raw_angular_rate.2.1)
  | .h166 =>
    { s with hpc := .h168
             angular_rate_mdps :=
               (s.angular_rate_mdps.1, s.angular_rate_mdps.2.1,
                k.lsm6dso16is_from_fs2000dps_to_mdps s.data_raw_angular_rate.2.2) }.log
      (.from_fs2000dps_to_mdps 2 s.data_raw_angular_rate.2.2)
  | .h168 =>
    { s with hpc := .h171
             tx_buffer := snprintf s.tx_buffer 1000 (fmt_angular_rate libc s.angular_rate_mdps) }.log
      (.snprintf .angular_rate (fmt_angular_rate libc s.angular_rate_mdps))
  | .h171 =>
    { s with hpc := .h174 }.log
      (.tx_com (s.tx_buffer.take (u16 (strlen s.tx_buffer))) (u16 (strlen s.tx_buffer)))
  | .h174 =>
    ({ s with hpc := .h176, drdy := u8 (dev s.reads).byte }.log
      (.temp_flag_data_ready_get s.dev_ctx (u8 (dev s.reads).byte))).answered
  | .h176 => if s.drdy ≠ 0 then { s with hpc := .h178 } else { s with hpc := .h186 }
  | .h178 => { s with hpc := .h179, data_raw_temperature := 0 }.log (.memset .temperature)
  | .h179 =>
    ({ s with hpc := .h180, data_raw_temperature := i16 (dev s.reads).raw }.log
      (.temperature_raw_get s.dev_ctx (i16 (dev s.reads).raw))).answered
  | .h180 =>
    { s with hpc := .h182
             temperature_degC := k.lsm6dso16is_from_lsb_to_celsius s.data_raw_temperature }.log
      (.from_lsb_to_celsius s.data_raw_temperature)
  | .h182 =>
    { s with hpc := .h184
             tx_buffer := snprintf s.tx_buffer 1000 (fmt_temperature libc s.temperature_degC) }.log
      (.snprintf .temperature (fmt_temperature libc s.temperature_degC))
  | .h184 =>
    { s with hpc := .h186 }.log
      (.tx_com (s.tx_buffer.take (u16 (strlen s.tx_buffer))) (u16 (strlen s.tx_buffer)))
  | .h186 => s

/-- Run the main function for `n` statements. -/
def run (k : Driver) (dev : Nat → Resp) (n : Nat) (s : State) : State :=
  (step k dev)^[n] s

/-- Run the handler until the program point `target` is reached, for at
most `fuel` statements. -/
def toPc (k : Driver) (libc : Libc) (dev : Nat → Resp) (target : HPc) : Nat → State → State
  | 0, s => s
  | fuel + 1, s =>
    if s.hpc = target then s else toPc k libc dev target fuel (hstep k libc dev s)

/-- Lines 138 to 154 of the handler: the acceleration. -/
def acceleration_part (k : Driver) (libc : Libc) (dev : Nat → Resp) (s : State) : State :=
  toPc k libc dev .h156 9 s

/-- Lines 156 to 172 of the handler: the angular rate. -/
def angular_rate_part (k : Driver) (libc : Libc) (dev : Nat → Resp) (s : State) : State :=
  toPc k libc dev .h174 9 s

/-- Lines 174 to 185 of the handler: the temperature. -/
def temperature_part (k : Driver) (libc : Libc) (dev : Nat → Resp) (s : State) : State :=
  toPc k libc dev .h186 7 s

/-- One invocation of `lsm6dso16is_read_data_drdy_handler`, from its
first statement to its return. -/
def lsm6dso16is_read_data_drdy_handler (k : Driver) (libc : Libc) (dev : Nat → Resp)
    (s : State) : State :=
  temperature_part k libc dev
    (angular_rate_part k libc dev (acceleration_part k libc dev { s with hpc := .h138 }))

/-- The calls into the sensor driver that are given the context. -/
def Ev.ctx : Ev → Option stmdev_ctx_t
  | .device_id_get c _ => some c
  | .software_reset c => some c
  | .pin_int1_route_get c _ => some c
  | .pin_int1_route_set c _ => some c
  | .xl_data_rate_set c _ => some c
  | .gy_data_rate_set c _ => some c
  | .xl_full_scale_set c _ => some c
  | .gy_full_scale_set c _ => some c
  | .xl_flag_data_ready_get c _ => some c
  | .gy_flag_data_ready_get c _ => some c
  | .temp_flag_data_ready_get c _ => some c
  | .acceleration_raw_get c _ => some c
  | .angular_rate_raw_get c _ => some c
  | .temperature_raw_get c _ => some c
  | _ => none

/-- The calls into the sensor driver: those given the context, and the
conversion functions. -/
def Ev.isDriverCall (e : Ev) : Bool :=
  match e with
  | .from_fs2g_to_mg _ _ => true
  | .from_fs2000dps_to_mdps _ _ => true
  | .from_lsb_to_celsius _ => true
  | _ => e.ctx.isSome

/-- The device-ID read. -/
def Ev.isIdGet : Ev → Bool
  | .device_id_get _ _ => true
  | _ => false

/-- The device reset. -/
def Ev.isReset : Ev → Bool
  | .software_reset _ => true
  | _ => false

/-- The output-data-rate and full-scale settings. -/
def Ev.isRateOrScale : Ev → Bool
  | .xl_data_rate_set _ _ => true
  | .gy_data_rate_set _ _ => true
  | .xl_full_scale_set _ _ => true
  | .gy_full_scale_set _ _ => true
  | _ => false

/-- The sample reads and the data-ready polls. -/
def Ev.isSample : Ev → Bool
  | .xl_flag_data_ready_get _ _ => true
  | .gy_flag_data_ready_get _ _ => true
  | .temp_flag_data_ready_get _ _ => true
  | .acceleration_raw_get _ _ => true
  | .angular_rate_raw_get _ _ => true
  | .temperature_raw_get _ _ => true
  | _ => false

/-- The transmissions. -/
def Ev.isTx : Ev → Bool
  | .tx_com _ _ => true
  | _ => false

/-- The history of a run up to and including the device-ID read. -/
def id_trace (id : Nat) : List Ev :=
  [.platform_init, .platform_delay 10, .device_id_get ctx_ready id]

/-- The static buffers of the example, element by element. -/
inductive Loc where
  | data_raw_acceleration (i : Nat)
  | data_raw_angular_rate (i : Nat)
  | data_raw_temperature
  | acceleration_mg (i : Nat)
  | angular_rate_mdps (i : Nat)
  | temperature_degC
  | tx_buffer
deriving DecidableEq, Repr

/-- The buffer elements a call reads. -/
def Ev.reads : Ev → List Loc
  | .from_fs2g_to_mg i _ => [.data_raw_acceleration i]
  | .from_fs2000dps_to_mdps i _ => [.data_raw_angular_rate i]
  | .from_lsb_to_celsius _ => [.data_raw_temperature]
  | .snprintf .acceleration _ => [.acceleration_mg 0, .acceleration_mg 1, .acceleration_mg 2]
  | .snprintf .angular_rate _ => [.angular_rate_mdps 0, .angular_rate_mdps 1, .angular_rate_mdps 2]
  | .snprintf .temperature _ => [.temperature_degC]
  | .tx_com _ _ => [.tx_buffer]
  | _ => []

/-- The buffer elements a call writes (a conversion: the element its
result is assigned to). -/
def Ev.writes : Ev → List Loc
  | .memset .acceleration =>
    [.data_raw_acceleration 0, .data_raw_acceleration 1, .data_raw_acceleration 2]
  | .memset .angular_rate =>
    [.data_raw_angular_rate 0, .data_raw_angular_rate 1, .data_raw_angular_rate 2]
  | .memset .temperature => [.data_raw_temperature]
  | .acceleration_raw_get _ _ =>
    [.data_raw_acceleration 0, .data_raw_acceleration 1, .data_raw_acceleration 2]
  | .angular_rate_raw_get _ _ =>
    [.data_raw_angular_rate 0, .data_raw_angular_rate 1, .data_raw_angular_rate 2]
  | .temperature_raw_get _ _ => [.data_raw_temperature]
  | .from_fs2g_to_mg i _ => [.acceleration_mg i]
  | .from_fs2000dps_to_mdps i _ => [.angular_rate_mdps i]
  | .from_lsb_to_celsius _ => [.temperature_degC]
  | .snprintf _ _ => [.tx_buffer]
  | _ => []

end lsm6dso16is

/-! ## The bus transfers of the platform functions -/

/-- The calls one `platform_write` makes under each board: every bus
transfer once, in this order; no call when no board macro is defined. -/
def write_calls (b : Board) (ADD_N ADD_S handle reg : Nat) (bufp : List Nat) (len : Nat) :
    List HalCall :=
  if b.NUCLEO_F401RE then
    [.HAL_I2C_Mem_Write handle ADD_N (u8 reg) bufp (u16 len) 1000]
  else if b.STEVAL_MKI109V3 then
    [.HAL_GPIO_WritePin .GPIO_PIN_RESET,
     .HAL_SPI_Transmit handle [u8 reg] 1 1000,
     .HAL_SPI_Transmit handle bufp (u16 len) 1000,
     .HAL_GPIO_WritePin .GPIO_PIN_SET]
  else if b.SPC584B_DIS then
    [.i2c_lld_write handle (ADD_S &&& 0xFE) (u8 reg) bufp (u16 len)]
  else []

/-- The calls one `platform_read` makes under each board. -/
def read_calls (b : Board) (ADD_N ADD_S handle reg len : Nat) : List HalCall :=
  if b.NUCLEO_F401RE then
    [.HAL_I2C_Mem_Read handle ADD_N (u8 reg) (u16 len) 1000]
  else if b.STEVAL_MKI109V3 then
    [.HAL_GPIO_WritePin .GPIO_PIN_RESET,
     .HAL_SPI_Transmit handle [u8 (u8 reg ||| 0x80)] 1 1000,
     .HAL_SPI_Receive handle (u16 len) 1000,
     .HAL_GPIO_WritePin .GPIO_PIN_SET]
  else if b.SPC584B_DIS then
    [.i2c_lld_read handle (ADD_S &&& 0xFE) (u8 reg) (u16 len)]
  else []

/-- The calls of a list that move data over the I2C or SPI bus. -/
def HalCall.isTransfer : HalCall → Bool
  | .HAL_GPIO_WritePin _ => false
  | _ => true

/-! ## Concrete inputs

A driver, a C library and device answers to evaluate the examples on. -/

/-- A `%f` conversion for evaluation: one decimal digit. -/
def libc_ex : Libc := ⟨fun _ _ v => [48 + v % 10]⟩

namespace iis2dulpx

/-- Constants as in the vendor header. -/
def k_ex : Consts := ⟨0x47, 0x31⟩

/-- A device that answers the right ID, reports the reset finished at the
third poll, and delivers a fixed sample. -/
def dev_ok : Nat → Resp := fun n => ⟨0x47, if n < 3 then 1 else 0, ⟨(1, 2, 3)⟩, ⟨4⟩⟩

/-- A device that answers a wrong ID. -/
def dev_wrong_id : Nat → Resp := fun _ => ⟨0x00, 0, ⟨(0, 0, 0)⟩, ⟨0⟩⟩

/-- The invocations of the handler that did not interrupt the main
function between the read on line 190 and the clearing on line 192. -/
def Ev.isHandlerOutside192 : Ev → Bool
  | .handler p => p != .l192
  | _ => false

/-- A schedule on `dev_ok`: the 23 statements of the initialisation, an
interrupt, the test and the read of lines 189 and 190, a second interrupt,
and the six remaining statements of the iteration. -/
def sch_lost : List Act :=
  List.replicate 23 .main ++
    [.irq, .main, .main, .irq, .main, .main, .main, .main, .main, .main]

/-- A schedule on `dev_ok`: the 23 statements of the initialisation, one
interrupt, and the eight statements of one iteration. -/
def sch_served : List Act :=
  List.replicate 23 .main ++
    [.irq, .main, .main, .main, .main, .main, .main, .main, .main]

/-- A device that answers the right ID and never reports the reset finished. -/
def dev_stuck : Nat → Resp := fun _ => ⟨0x47, 1, ⟨(0, 0, 0)⟩, ⟨0⟩⟩

end iis2dulpx

namespace lsm6dso32x

/-- Constants as in the vendor header, and conversions for evaluation. -/
def k_ex : Driver := ⟨0x6C, 0xD5, Int.natAbs, Int.natAbs, Int.natAbs⟩

/-- A device that answers the right ID, reports the reset finished at the
third poll, and then always has data ready. -/
def dev_ok : Nat → Resp := fun n =>
  ⟨if n = 0 then 0x6C else if n < 3 then 1 else if n = 3 then 0 else 1, (1, 2, 3), 4⟩

/-- A device that answers a wrong ID. -/
def dev_wrong_id : Nat → Resp := fun _ => ⟨0x00, (0, 0, 0), 0⟩

/-- A device that answers the right ID and then a nonzero byte to every
call, so that the reset is never reported finished. -/
def dev_stuck : Nat → Resp := fun n => ⟨if n = 0 then 0x6C else 1, (0, 0, 0), 0⟩

end lsm6dso32x

namespace lsm6dso16is

/-- Constants as in the vendor header, and conversions for evaluation. -/
def k_ex : Driver := ⟨0x22, 0xD5, 0xD7, Int.natAbs, Int.natAbs, Int.natAbs⟩

/-- A device that answers the right ID and always has data ready. -/
def dev_ok : Nat → Resp := fun n => ⟨if n = 0 then 0x22 else 1, (1, 2, 3), 4, ⟨0, 5⟩⟩

/-- A device that answers a wrong ID. -/
def dev_wrong_id : Nat → Resp := fun _ => ⟨0x00, (0, 0, 0), 0, ⟨0, 0⟩⟩

end lsm6dso16is

namespace lsm6dso32x

/-- Check on one event of the history: a user-offset call carries the byte
of `offset[]` for its axis, the weight call carries `LSM6DSO32X_LSb_1mg`. -/
def Ev.offsetOk : Ev → Bool
  | .xl_offset_weight_set _ v => v == .LSM6DSO32X_LSb_1mg
  | .xl_usr_offset_x_set _ b => b == 0x30
  | .xl_usr_offset_y_set _ b => b == 0x40
  | .xl_usr_offset_z_set _ b => b == 0x7E
  | _ => true

end lsm6dso32x

namespace iis2dulpx

/-- The fixed waits. -/
def Ev.isDelay : Ev → Bool
  | .platform_delay _ => true
  | _ => false

end iis2dulpx

namespace lsm6dso32x

/-- The fixed waits. -/
def Ev.isDelay : Ev → Bool
  | .platform_delay _ => true
  | _ => false

end lsm6dso32x

namespace lsm6dso16is

/-- The fixed waits. -/
def Ev.isDelay : Ev → Bool
  | .platform_delay _ => true
  | _ => false

end lsm6dso16is

/-! ## Invariants of the main functions -/

namespace iis2dulpx

/-- A call that is given a context is given the complete one. -/
def Ev.ctxOk (e : Ev) : Bool :=
  match e.ctx with
  | none => true
  | some c => c == ctx_ready

/-- What holds of the context `c` when `iis2dulpx_read_data_drdy` stands
on source line `line`, and of the contexts recorded in the history. -/
def CtxInv (line : Nat) (c : stmdev_ctx_t) (tr : List Ev) : Prop :=
  (149 < line → c.write_reg = some .platform_write) ∧
  (150 < line → c.read_reg = some .platform_read) ∧
  (151 < line → c.mdelay = some .platform_delay) ∧
  (152 < line → c.handle = some .SENSOR_BUS) ∧
  tr.all Ev.ctxOk = true

/-- What the history holds when `iis2dulpx_read_data_drdy` stands on
source line `line`. -/
def OrderInv (line : Nat) (tr : List Ev) : Prop :=
  Seen 163 Ev.isIdGet line tr ∧
  Seen 168 Ev.isReset line tr ∧
  Seen 185 Ev.isRateOrScale line tr ∧
  NotYet 185 Ev.isSample line tr ∧
  Precedes Ev.isIdGet Ev.isReset tr ∧
  Precedes Ev.isReset Ev.isRateOrScale tr ∧
  Precedes Ev.isRateOrScale Ev.isSample tr ∧
  AllBefore Ev.isRateOrScale Ev.isSample tr

end iis2dulpx

namespace lsm6dso32x

/-- A call that is given a context is given the complete one. -/
def Ev.ctxOk (e : Ev) : Bool :=
  match e.ctx with
  | none => true
  | some c => c == ctx_ready

/-- The call `lsm6dso32x_xl_data_rate_set(&dev_ctx, LSM6DSO32X_XL_ODR_12Hz5)`. -/
def Ev.isXlRateSet : Ev → Bool
  | .xl_data_rate_set _ .LSM6DSO32X_XL_ODR_12Hz5 => true
  | _ => false

/-- The call `lsm6dso32x_gy_data_rate_set(&dev_ctx, LSM6DSO32X_GY_ODR_12Hz5)`. -/
def Ev.isGyRateSet : Ev → Bool
  | .gy_data_rate_set _ .LSM6DSO32X_GY_ODR_12Hz5 => true
  | _ => false

/-- The call `lsm6dso32x_xl_full_scale_set(&dev_ctx, LSM6DSO32X_4g)`. -/
def Ev.isXlScaleSet : Ev → Bool
  | .xl_full_scale_set _ .LSM6DSO32X_4g => true
  | _ => false

/-- The call `lsm6dso32x_gy_full_scale_set(&dev_ctx, LSM6DSO32X_2000dps)`. -/
def Ev.isGyScaleSet : Ev → Bool
  | .gy_full_scale_set _ .LSM6DSO32X_2000dps => true
  | _ => false

/-- What holds of the context `c` when `lsm6dso32x_offset` stands
on source line `line`, and of the contexts recorded in the history. -/
def CtxInv (line : Nat) (c : stmdev_ctx_t) (tr : List Ev) : Prop :=
  (138 < line → c.write_reg = some .platform_write) ∧
  (139 < line → c.read_reg = some .platform_read) ∧
  (140 < line → c.mdelay = some .platform_delay) ∧
  (141 < line → c.handle = some .SENSOR_BUS) ∧
  tr.all Ev.ctxOk = true

/-- What the history holds when `lsm6dso32x_offset` stands on source line
`line`. -/
def OrderInv (line : Nat) (tr : List Ev) : Prop :=
  Seen 147 Ev.isIdGet line tr ∧
  Seen 153 Ev.isReset line tr ∧
  Seen 174 Ev.isXlRateSet line tr ∧
  Seen 175 Ev.isGyRateSet line tr ∧
  Seen 177 Ev.isXlScaleSet line tr ∧
  Seen 178 Ev.isGyScaleSet line tr ∧
  NotYet 182 Ev.isSample line tr ∧
  Precedes Ev.isIdGet Ev.isReset tr ∧
  Precedes Ev.isReset Ev.isRateOrScale tr ∧
  Precedes Ev.isXlRateSet Ev.isSample tr ∧
  Precedes Ev.isGyRateSet Ev.isSample tr ∧
  Precedes Ev.isXlScaleSet Ev.isSample tr ∧
  Precedes Ev.isGyScaleSet Ev.isSample tr ∧
  AllBefore Ev.isRateOrScale Ev.isSample tr

end lsm6dso32x

namespace lsm6dso16is

/-- A call that is given a context is given the complete one. -/
def Ev.ctxOk (e : Ev) : Bool :=
  match e.ctx with
  | none => true
  | some c => c == ctx_ready

/-- What holds of the context `c` when `lsm6dso16is_read_data_drdy` stands
on source line `line`, and of the contexts recorded in the history. -/
def CtxInv (line : Nat) (c : stmdev_ctx_t) (tr : List Ev) : Prop :=
  (194 < line → c.write_reg = some .platform_write) ∧
  (195 < line → c.read_reg = some .platform_read) ∧
  (196 < line → c.mdelay = some .platform_delay) ∧
  (197 < line → c.handle = some .SENSOR_BUS) ∧
  tr.all Ev.ctxOk = true

/-- What the history holds when `lsm6dso16is_read_data_drdy` stands on
source line `line`. -/
def OrderInv (line : Nat) (tr : List Ev) : Prop :=
  Seen 203 Ev.isIdGet line tr ∧
  Seen 209 Ev.isReset line tr ∧
  NotYet 234 Ev.isSample line tr ∧
  Precedes Ev.isIdGet Ev.isReset tr ∧
  Precedes Ev.isReset Ev.isRateOrScale tr

end lsm6dso16is

/-! ## The calls of one pass over the sampling statements -/

namespace lsm6dso32x

/-- The call `tx_com(tx_buffer, strlen(tx_buffer))` on the buffer `buf`. -/
def tx_event (buf : List Nat) : Ev :=
  .tx_com (buf.take (u16 (strlen buf))) (u16 (strlen buf))

/-- The three `int16_t` a raw-get stores for the device answer `r`. -/
def raw3_of (r : Resp) : Int × Int × Int := (i16 r.raw3.1, i16 r.raw3.2.1, i16 r.raw3.2.2)

/-- The three assignments of lines 194 to 199. -/
def acceleration_mg_of (k : Driver) (raw : Int × Int × Int) : float_t × float_t × float_t :=
  (k.lsm6dso32x_from_fs4_to_mg raw.1, k.lsm6dso32x_from_fs4_to_mg raw.2.1,
   k.lsm6dso32x_from_fs4_to_mg raw.2.2)

/-- The three assignments of lines 212 to 217. -/
def angular_rate_mdps_of (k : Driver) (raw : Int × Int × Int) :
    float_t × float_t × float_t :=
  (k.lsm6dso32x_from_fs2000_to_mdps raw.1, k.lsm6dso32x_from_fs2000_to_mdps raw.2.1,
   k.lsm6dso32x_from_fs2000_to_mdps raw.2.2)

/-- The calls of lines 188 to 204 when the flag read is `f`, the raw
sample `raw` and the text buffer `buf`. -/
def acceleration_events (k : Driver) (libc : Libc) (ctx : stmdev_ctx_t) (f : Nat)
    (raw : Int × Int × Int) (buf : List Nat) : List Ev :=
  .xl_flag_data_ready_get ctx f ::
    if f ≠ 0 then
      [.memset .acceleration, .acceleration_raw_get ctx raw,
       .from_fs4_to_mg 0 raw.1, .from_fs4_to_mg 1 raw.2.1, .from_fs4_to_mg 2 raw.2.2,
       .snprintf .acceleration (fmt_acceleration libc (acceleration_mg_of k raw)),
       tx_event (snprintf buf 1000 (fmt_acceleration libc (acceleration_mg_of k raw)))]
    else []

/-- The calls of lines 206 to 222. -/
def angular_rate_events (k : Driver) (libc : Libc) (ctx : stmdev_ctx_t) (f : Nat)
    (raw : Int × Int × Int) (buf : List Nat) : List Ev :=
  .gy_flag_data_ready_get ctx f ::
    if f ≠ 0 then
      [.memset .angular_rate, .angular_rate_raw_get ctx raw,
       .from_fs2000_to_mdps 0 raw.1, .from_fs2000_to_mdps 1 raw.2.1,
       .from_fs2000_to_mdps 2 raw.2.2,
       .snprintf .angular_rate (fmt_angular_rate libc (angular_rate_mdps_of k raw)),
       tx_event (snprintf buf 1000 (fmt_angular_rate libc (angular_rate_mdps_of k raw)))]
    else []

/-- The calls of lines 224 to 235. -/
def temperature_events (k : Driver) (libc : Libc) (ctx : stmdev_ctx_t) (f : Nat)
    (raw : Int) (buf : List Nat) : List Ev :=
  .temp_flag_data_ready_get ctx f ::
    if f ≠ 0 then
      [.memset .temperature, .temperature_raw_get ctx raw, .from_lsb_to_celsius raw,
       .snprintf .temperature (fmt_temperature libc (k.lsm6dso32x_from_lsb_to_celsius raw)),
       tx_event (snprintf buf 1000
         (fmt_temperature libc (k.lsm6dso32x_from_lsb_to_celsius raw)))]
    else []

/-- The zeroing of the raw buffer of a quantity. -/
def Ev.isMemset (q : Quantity) : Ev → Bool
  | .memset q' => q == q'
  | _ => false

/-- The raw-get of a quantity. -/
def Ev.isRawGet : Quantity → Ev → Bool
  | .acceleration, .acceleration_raw_get _ _ => true
  | .angular_rate, .angular_rate_raw_get _ _ => true
  | .temperature, .temperature_raw_get _ _ => true
  | _, _ => false

/-- The conversions of a quantity, each with the assignment of its result. -/
def Ev.isConv : Quantity → Ev → Bool
  | .acceleration, .from_fs4_to_mg _ _ => true
  | .angular_rate, .from_fs2000_to_mdps _ _ => true
  | .temperature, .from_lsb_to_celsius _ => true
  | _, _ => false

/-- The formatting of a quantity into `tx_buffer`. -/
def Ev.isSnprintf (q : Quantity) : Ev → Bool
  | .snprintf q' _ => q == q'
  | _ => false

/-- The data-ready poll of a quantity, with the flag it returned. -/
def Ev.isFlagGet : Quantity → Nat → Ev → Bool
  | .acceleration, f, .xl_flag_data_ready_get _ f' => f == f'
  | .angular_rate, f, .gy_flag_data_ready_get _ f' => f == f'
  | .temperature, f, .temp_flag_data_ready_get _ f' => f == f'
  | _, _, _ => false

/-- The calls `evs` of one pass poll the data-ready flag of the quantity
`q` once, obtaining `f`, and hold a raw-get, a conversion, a formatting
and a transmission exactly when `f` is not zero. -/
def GatedBy (f : Nat) (q : Quantity) (evs : List Ev) : Prop :=
  evs.countP (Ev.isFlagGet q f) = 1 ∧
  (evs.any (Ev.isRawGet q) = true ↔ f ≠ 0) ∧
  (evs.any (Ev.isConv q) = true ↔ f ≠ 0) ∧
  (evs.any (Ev.isSnprintf q) = true ↔ f ≠ 0) ∧
  (evs.any Ev.isTx = true ↔ f ≠ 0)

/-- The sample buffers and the text buffer of `s'` are those of `s`. -/
def Untouched (s s' : State) : Prop :=
  s'.data_raw_acceleration = s.data_raw_acceleration ∧
  s'.data_raw_angular_rate = s.data_raw_angular_rate ∧
  s'.data_raw_temperature = s.data_raw_temperature ∧
  s'.acceleration_mg = s.acceleration_mg ∧
  s'.angular_rate_mdps = s.angular_rate_mdps ∧
  s'.temperature_degC = s.temperature_degC ∧
  s'.tx_buffer = s.tx_buffer

/-- In the calls `evs` of one pass every buffer element read was written
earlier in the pass; the raw buffer of `q` is zeroed before the raw-get,
the raw-get comes before every conversion, a conversion before the
formatting, the formatting before the transmission. -/
def InOrder (q : Quantity) (evs : List Ev) : Prop :=
  WrittenBeforeRead Ev.reads Ev.writes evs ∧
  Precedes (Ev.isMemset q) (Ev.isRawGet q) evs ∧
  Precedes (Ev.isRawGet q) (Ev.isConv q) evs ∧
  Precedes (Ev.isConv q) (Ev.isSnprintf q) evs ∧
  Precedes (Ev.isSnprintf q) Ev.isTx evs

end lsm6dso32x

namespace lsm6dso16is

/-- The call `tx_com(tx_buffer, strlen(tx_buffer))` on the buffer `buf`. -/
def tx_event (buf : List Nat) : Ev :=
  .tx_com (buf.take (u16 (strlen buf))) (u16 (strlen buf))

/-- The three `int16_t` a raw-get stores for the device answer `r`. -/
def raw3_of (r : Resp) : Int × Int × Int := (i16 r.raw3.1, i16 r.raw3.2.1, i16 r.raw3.2.2)

/-- The three assignments of lines 144 to 149. -/
def acceleration_mg_of (k : Driver) (raw : Int × Int × Int) : float_t × float_t × float_t :=
  (k.lsm6dso16is_from_fs2g_to_mg raw.1, k.lsm6dso16is_from_fs2g_to_mg raw.2.1,
   k.lsm6dso16is_from_fs2g_to_mg raw.2.2)

/-- The three assignments of lines 162 to 167. -/
def angular_rate_mdps_of (k : Driver) (raw : Int × Int × Int) :
    float_t × float_t × float_t :=
  (k.lsm6dso16is_from_fs2000dps_to_mdps raw.1, k.lsm6dso16is_from_fs2000dps_to_mdps raw.2.1,
   k.lsm6dso16is_from_fs2000dps_to_mdps raw.2.2)

/-- The calls of lines 138 to 154 when the flag read is `f`, the raw
sample `raw` and the text buffer `buf`. -/
def acceleration_events (k : Driver) (libc : Libc) (ctx : stmdev_ctx_t) (f : Nat)
    (raw : Int × Int × Int) (buf : List Nat) : List Ev :=
  .xl_flag_data_ready_get ctx f ::
    if f ≠ 0 then
      [.memset .acceleration, .acceleration_raw_get ctx raw,
       .from_fs2g_to_mg 0 raw.1, .from_fs2g_to_mg 1 raw.2.1, .from_fs2g_to_mg 2 raw.2.2,
       .snprintf .acceleration (fmt_acceleration libc (acceleration_mg_of k raw)),
       tx_event (snprintf buf 1000 (fmt_acceleration libc (acceleration_mg_of k raw)))]
    else []

/-- The calls of lines 156 to 172. -/
def angular_rate_events (k : Driver) (libc : Libc) (ctx : stmdev_ctx_t) (f : Nat)
    (raw : Int × Int × Int) (buf : List Nat) : List Ev :=
  .gy_flag_data_ready_get ctx f ::
    if f ≠ 0 then
      [.memset .angular_rate, .angular_rate_raw_get ctx raw,
       .from_fs2000dps_to_mdps 0 raw.1, .from_fs2000dps_to_mdps 1 raw.2.1,
       .from_fs2000dps_to_mdps 2 raw.2.2,
       .snprintf .angular_rate (fmt_angular_rate libc (angular_rate_mdps_of k raw)),
       tx_event (snprintf buf 1000 (fmt_angular_rate libc (angular_rate_mdps_of k raw)))]
    else []

/-- The calls of lines 174 to 185. -/
def temperature_events (k : Driver) (libc : Libc) (ctx : stmdev_ctx_t) (f : Nat)
    (raw : Int) (buf : List Nat) : List Ev :=
  .temp_flag_data_ready_get ctx f ::
    if f ≠ 0 then
      [.memset .temperature, .temperature_raw_get ctx raw, .from_lsb_to_celsius raw,
       .snprintf .temperature (fmt_temperature libc (k.lsm6dso16is_from_lsb_to_celsius raw)),
       tx_event (snprintf buf 1000
         (fmt_temperature libc (k.lsm6dso16is_from_lsb_to_celsius raw)))]
    else []

/-- The zeroing of the raw buffer of a quantity. -/
def Ev.isMemset (q : Quantity) : Ev → Bool
  | .memset q' => q == q'
  | _ => false

/-- The raw-get of a quantity. -/
def Ev.isRawGet : Quantity → Ev → Bool
  | .acceleration, .acceleration_raw_get _ _ => true
  | .angular_rate, .angular_rate_raw_get _ _ => true
  | .temperature, .temperature_raw_get _ _ => true
  | _, _ => false

/-- The conversions of a quantity, each with the assignment of its result. -/
def Ev.isConv : Quantity → Ev → Bool
  | .acceleration, .from_fs2g_to_mg _ _ => true
  | .angular_rate, .from_fs2000dps_to_mdps _ _ => true
  | .temperature, .from_lsb_to_celsius _ => true
  | _, _ => false

/-- The formatting of a quantity into `tx_buffer`. -/
def Ev.isSnprintf (q : Quantity) : Ev → Bool
  | .snprintf q' _ => q == q'
  | _ => false

/-- The data-ready poll of a quantity, with the flag it returned. -/
def Ev.isFlagGet : Quantity → Nat → Ev → Bool
  | .acceleration, f, .xl_flag_data_ready_get _ f' => f == f'
  | .angular_rate, f, .gy_flag_data_ready_get _ f' => f == f'
  | .temperature, f, .temp_flag_data_ready_get _ f' => f == f'
  | _, _, _ => false

/-- The calls `evs` of one pass poll the data-ready flag of the quantity
`q` once, obtaining `f`, and hold a raw-get, a conversion, a formatting
and a transmission exactly when `f` is not zero. -/
def GatedBy (f : Nat) (q : Quantity) (evs : List Ev) : Prop :=
  evs.countP (Ev.isFlagGet q f) = 1 ∧
  (evs.any (Ev.isRawGet q) = true ↔ f ≠ 0) ∧
  (evs.any (Ev.isConv q) = true ↔ f ≠ 0) ∧
  (evs.any (Ev.isSnprintf q) = true ↔ f ≠ 0) ∧
  (evs.any Ev.isTx = true ↔ f ≠ 0)

/-- The sample buffers and the text buffer of `s'` are those of `s`. -/
def Untouched (s s' : State) : Prop :=
  s'.data_raw_acceleration = s.data_raw_acceleration ∧
  s'.data_raw_angular_rate = s.data_raw_angular_rate ∧
  s'.data_raw_temperature = s.data_raw_temperature ∧
  s'.acceleration_mg = s.acceleration_mg ∧
  s'.angular_rate_mdps = s.angular_rate_mdps ∧
  s'.temperature_degC = s.temperature_degC ∧
  s'.tx_buffer = s.tx_buffer

/-- In the calls `evs` of one pass every buffer element read was written
earlier in the pass; the raw buffer of `q` is zeroed before the raw-get,
the raw-get comes before every conversion, a conversion before the
formatting, the formatting before the transmission. -/
def InOrder (q : Quantity) (evs : List Ev) : Prop :=
  WrittenBeforeRead Ev.reads Ev.writes evs ∧
  Precedes (Ev.isMemset q) (Ev.isRawGet q) evs ∧
  Precedes (Ev.isRawGet q) (Ev.isConv q) evs ∧
  Precedes (Ev.isConv q) (Ev.isSnprintf q) evs ∧
  Precedes (Ev.isSnprintf q) Ev.isTx evs

end lsm6dso16is

namespace iis2dulpx

/-- The call `tx_com(tx_buffer, strlen(tx_buffer))` on the buffer `buf`. -/
def tx_event (buf : List Nat) : Ev :=
  .tx_com (buf.take (u16 (strlen buf))) (u16 (strlen buf))

/-- The calls of lines 189 to 204 when `drdy_event` is found to be `flag`,
the device delivers `xl` and `outt`, and the text buffer is `buf`. -/
def iteration_events (libc : Libc) (ctx : stmdev_ctx_t) (md : iis2dulpx_md_t) (flag : Nat)
    (xl : iis2dulpx_xl_data_t) (outt : iis2dulpx_outt_data_t) (buf : List Nat) : List Ev :=
  if 0 < flag then
    [.xl_data_get ctx md xl, .drdy_event_clear,
     .snprintf .acceleration (fmt_acceleration libc xl.mg),
     tx_event (snprintf buf 1000 (fmt_acceleration libc xl.mg)),
     .outt_data_get ctx outt,
     .snprintf .temperature (fmt_temp libc outt.deg_c),
     tx_event (snprintf (snprintf buf 1000 (fmt_acceleration libc xl.mg)) 1000
       (fmt_temp libc outt.deg_c))]
  else []

/-- The formattings into `tx_buffer`. -/
def Ev.isFormat : Ev → Bool
  | .snprintf _ _ => true
  | _ => false

/-- The reads of the temperature sample. -/
def Ev.isOuttGet : Ev → Bool
  | .outt_data_get _ _ => true
  | _ => false

/-- The formatting of a quantity into `tx_buffer`. -/
def Ev.isSnprintf (q : Quantity) : Ev → Bool
  | .snprintf q' _ => q == q'
  | _ => false

end iis2dulpx

/-! ## Formatting and sending -/

namespace iis2dulpx

/-- Between `s` and `s'` the example formats `text` into `tx_buffer` and
then calls `tx_com`: the history grows by the `snprintf` call and a
`tx_com` call that is given the first 999 characters of `text` and their
number; this number is the `strlen` of the buffer after formatting, is at
most 999 and is unchanged by the conversion to `uint16_t`. -/
def FormatsAndSends (s s' : State) (q : Quantity) (text : List Nat) : Prop :=
  s'.trace = s.trace ++ [.snprintf q text, .tx_com (text.take 999) (min text.length 999)] ∧
  strlen s'.tx_buffer = min text.length 999 ∧
  u16 (strlen s'.tx_buffer) = strlen s'.tx_buffer ∧
  strlen s'.tx_buffer ≤ 999

end iis2dulpx

namespace lsm6dso32x

/-- Between `s` and `s'` the example formats `text` into `tx_buffer` and
then calls `tx_com`: the history grows by the `snprintf` call and a
`tx_com` call that is given the first 999 characters of `text` and their
number; this number is the `strlen` of the buffer after formatting, is at
most 999 and is unchanged by the conversion to `uint16_t`. -/
def FormatsAndSends (s s' : State) (q : Quantity) (text : List Nat) : Prop :=
  s'.trace = s.trace ++ [.snprintf q text, .tx_com (text.take 999) (min text.length 999)] ∧
  strlen s'.tx_buffer = min text.length 999 ∧
  u16 (strlen s'.tx_buffer) = strlen s'.tx_buffer ∧
  strlen s'.tx_buffer ≤ 999

end lsm6dso32x

namespace lsm6dso16is

/-- Between `s` and `s'` the example formats `text` into `tx_buffer` and
then calls `tx_com`: the history grows by the `snprintf` call and a
`tx_com` call that is given the first 999 characters of `text` and their
number; this number is the `strlen` of the buffer after formatting, is at
most 999 and is unchanged by the conversion to `uint16_t`. -/
def FormatsAndSends (s s' : State) (q : Quantity) (text : List Nat) : Prop :=
  s'.trace = s.trace ++ [.snprintf q text, .tx_com (text.take 999) (min text.length 999)] ∧
  strlen s'.tx_buffer = min text.length 999 ∧
  u16 (strlen s'.tx_buffer) = strlen s'.tx_buffer ∧
  strlen s'.tx_buffer ≤ 999

end lsm6dso16is

/-! ## Block data update -/

namespace lsm6dso32x

/-- The call `lsm6dso32x_block_data_update_set(&dev_ctx, PROPERTY_ENABLE)`. -/
def Ev.isBduEnable : Ev → Bool
  | .block_data_update_set _ .PROPERTY_ENABLE => true
  | _ => false

/-- The raw-gets of the acceleration, the angular rate and the temperature. -/
def Ev.isAnyRawGet : Ev → Bool
  | .acceleration_raw_get _ _ => true
  | .angular_rate_raw_get _ _ => true
  | .temperature_raw_get _ _ => true
  | _ => false

/-- What the history holds of block data update when `lsm6dso32x_offset`
stands on source line `line`. -/
def BduInv (line : Nat) (tr : List Ev) : Prop :=
  Seen 162 Ev.isBduEnable line tr ∧
  NotYet 182 Ev.isAnyRawGet line tr ∧
  Precedes Ev.isBduEnable Ev.isAnyRawGet tr

end lsm6dso32x

namespace lsm6dso16is

/-- The calls of the history that enable block data update. The example
has a single such call, `lsm6dso16is_block_data_update_set(&dev_ctx,
PROPERTY_ENABLE)` on line 218, and it is commented out: no statement of
`step` or `hstep` makes it and no event of the history stands for it. -/
def Ev.isBduEnable : Ev → Bool
  | _ => false

/-- The raw-gets of the acceleration, the angular rate and the temperature. -/
def Ev.isAnyRawGet : Ev → Bool
  | .acceleration_raw_get _ _ => true
  | .angular_rate_raw_get _ _ => true
  | .temperature_raw_get _ _ => true
  | _ => false

/-- The history of the complete initialisation (lines 199 to 225) when
the device answers the ID `id` and the INT1 routing `r`. -/
def init_trace (id : Nat) (r : lsm6dso16is_pin_int1_route_t) : List Ev :=
  [.platform_init, .platform_delay 10, .device_id_get ctx_ready id,
   .software_reset ctx_ready,
   .pin_int1_route_get ctx_ready r,
   .pin_int1_route_set ctx_ready { r with drdy_xl := 1 },
   .xl_data_rate_set ctx_ready .LSM6DSO16IS_XL_ODR_AT_12Hz5_HP,
   .gy_data_rate_set ctx_ready .LSM6DSO16IS_GY_ODR_AT_12Hz5_HP,
   .xl_full_scale_set ctx_ready .LSM6DSO16IS_2g,
   .gy_full_scale_set ctx_ready .LSM6DSO16IS_2000dps]

end lsm6dso16is

/-! ## The scale of the reported values -/

namespace lsm6dso32x

/-- Check on one event of the history: a full-scale call carries the
constant of line 177 (accelerometer) or of line 178 (gyroscope). -/
def Ev.scaleOk : Ev → Bool
  | .xl_full_scale_set _ v => v == .LSM6DSO32X_4g
  | .gy_full_scale_set _ v => v == .LSM6DSO32X_2000dps
  | _ => true

/-- What the history holds of the full scales when `lsm6dso32x_offset`
stands on source line `line`. -/
def ScaleInv (line : Nat) (tr : List Ev) : Prop :=
  Seen 177 Ev.isXlScaleSet line tr ∧
  Seen 178 Ev.isGyScaleSet line tr ∧
  Precedes Ev.isXlScaleSet (Ev.isConv .acceleration) tr ∧
  Precedes Ev.isGyScaleSet (Ev.isConv .angular_rate) tr ∧
  tr.all Ev.scaleOk = true

/-- The pass from `s` to `s'` reports the acceleration sample `raw`: the
raw-get of the pass delivers `raw` into `data_raw_acceleration`, for each
axis `acceleration_mg[i]` is `lsm6dso32x_from_fs4_to_mg` of
`data_raw_acceleration[i]`, and the text formatted in the pass holds the
three values in the order 0, 1, 2. -/
def ReportsAcceleration (k : Driver) (libc : Libc) (s s' : State) (raw : Int × Int × Int) :
    Prop :=
  s'.data_raw_acceleration = raw ∧
  s'.acceleration_mg.1 = k.lsm6dso32x_from_fs4_to_mg s'.data_raw_acceleration.1 ∧
  s'.acceleration_mg.2.1 = k.lsm6dso32x_from_fs4_to_mg s'.data_raw_acceleration.2.1 ∧
  s'.acceleration_mg.2.2 = k.lsm6dso32x_from_fs4_to_mg s'.data_raw_acceleration.2.2 ∧
  ∃ evs, s'.trace = s.trace ++ evs ∧
    Ev.acceleration_raw_get s.dev_ctx raw ∈ evs ∧
    Ev.snprintf .acceleration
      (bytes "Acceleration [mg]:" ++ libc.fmt_f 4 2 s'.acceleration_mg.1 ++ bytes "\t" ++
        libc.fmt_f 4 2 s'.acceleration_mg.2.1 ++ bytes "\t" ++
        libc.fmt_f 4 2 s'.acceleration_mg.2.2 ++ bytes "\r\n") ∈ evs

/-- The pass from `s` to `s'` reports the angular-rate sample `raw`, with
`lsm6dso32x_from_fs2000_to_mdps`. -/
def ReportsAngularRate (k : Driver) (libc : Libc) (s s' : State) (raw : Int × Int × Int) :
    Prop :=
  s'.data_raw_angular_rate = raw ∧
  s'.angular_rate_mdps.1 = k.lsm6dso32x_from_fs2000_to_mdps s'.data_raw_angular_rate.1 ∧
  s'.angular_rate_mdps.2.1 = k.lsm6dso32x_from_fs2000_to_mdps s'.data_raw_angular_rate.2.1 ∧
  s'.angular_rate_mdps.2.2 = k.lsm6dso32x_from_fs2000_to_mdps s'.data_raw_angular_rate.2.2 ∧
  ∃ evs, s'.trace = s.trace ++ evs ∧
    Ev.angular_rate_raw_get s.dev_ctx raw ∈ evs ∧
    Ev.snprintf .angular_rate
      (bytes "Angular rate [mdps]:" ++ libc.fmt_f 4 2 s'.angular_rate_mdps.1 ++ bytes "\t" ++
        libc.fmt_f 4 2 s'.angular_rate_mdps.2.1 ++ bytes "\t" ++
        libc.fmt_f 4 2 s'.angular_rate_mdps.2.2 ++ bytes "\r\n") ∈ evs

end lsm6dso32x

namespace lsm6dso16is

/-- The call `lsm6dso16is_xl_full_scale_set(&dev_ctx, LSM6DSO16IS_2g)`. -/
def Ev.isXlScaleSet : Ev → Bool
  | .xl_full_scale_set _ .LSM6DSO16IS_2g => true
  | _ => false

/-- The call `lsm6dso16is_gy_full_scale_set(&dev_ctx, LSM6DSO16IS_2000dps)`. -/
def Ev.isGyScaleSet : Ev → Bool
  | .gy_full_scale_set _ .LSM6DSO16IS_2000dps => true
  | _ => false

/-- Check on one event of the history: a full-scale call carries the
constant of line 224 (accelerometer) or of line 225 (gyroscope). -/
def Ev.scaleOk : Ev → Bool
  | .xl_full_scale_set _ v => v == .LSM6DSO16IS_2g
  | .gy_full_scale_set _ v => v == .LSM6DSO16IS_2000dps
  | _ => true

/-- The pass from `s` to `s'` reports the acceleration sample `raw`: the
raw-get of the pass delivers `raw` into `data_raw_acceleration`, for each
axis `acceleration_mg[i]` is `lsm6dso16is_from_fs2g_to_mg` of
`data_raw_acceleration[i]`, and the text formatted in the pass holds the
three values in the order 0, 1, 2. -/
def ReportsAcceleration (k : Driver) (libc : Libc) (s s' : State) (raw : Int × Int × Int) :
    Prop :=
  s'.data_raw_acceleration = raw ∧
  s'.acceleration_mg.1 = k.lsm6dso16is_from_fs2g_to_mg s'.data_raw_acceleration.1 ∧
  s'.acceleration_mg.2.1 = k.lsm6dso16is_from_fs2g_to_mg s'.data_raw_acceleration.2.1 ∧
  s'.acceleration_mg.2.2 = k.lsm6dso16is_from_fs2g_to_mg s'.data_raw_acceleration.2.2 ∧
  ∃ evs, s'.trace = s.trace ++ evs ∧
    Ev.acceleration_raw_get s.dev_ctx raw ∈ evs ∧
    Ev.snprintf .acceleration
      (bytes "Acceleration [mg]:" ++ libc.fmt_f 4 2 s'.acceleration_mg.1 ++ bytes "\t" ++
        libc.fmt_f 4 2 s'.acceleration_mg.2.1 ++ bytes "\t" ++
        libc.fmt_f 4 2 s'.acceleration_mg.2.2 ++ bytes "\r\n") ∈ evs

/-- The pass from `s` to `s'` reports the angular-rate sample `raw`, with
`lsm6dso16is_from_fs2000dps_to_mdps`. -/
def ReportsAngularRate (k : Driver) (libc : Libc) (s s' : State) (raw : Int × Int × Int) :
    Prop :=
  s'.data_raw_angular_rate = raw ∧
  s'.angular_rate_mdps.1 = k.lsm6dso16is_from_fs2000dps_to_mdps s'.data_raw_angular_rate.1 ∧
  s'.angular_rate_mdps.2.1 =
    k.lsm6dso16is_from_fs2000dps_to_mdps s'.data_raw_angular_rate.2.1 ∧
  s'.angular_rate_mdps.2.2 =
    k.lsm6dso16is_from_fs2000dps_to_mdps s'.data_raw_angular_rate.2.2 ∧
  ∃ evs, s'.trace = s.trace ++ evs ∧
    Ev.angular_rate_raw_get s.dev_ctx raw ∈ evs ∧
    Ev.snprintf .angular_rate
      (bytes "Angular rate [mdps]:" ++ libc.fmt_f 4 2 s'.angular_rate_mdps.1 ++ bytes "\t" ++
        libc.fmt_f 4 2 s'.angular_rate_mdps.2.1 ++ bytes "\t" ++
        libc.fmt_f 4 2 s'.angular_rate_mdps.2.2 ++ bytes "\r\n") ∈ evs

end lsm6dso16is

namespace iis2dulpx

/-- The mode structure `md` after the assignments of lines 182 to 184. -/
def md_set : iis2dulpx_md_t := ⟨.IIS2DULPX_4g, .IIS2DULPX_ODR_div_4, .IIS2DULPX_25Hz_LP⟩

/-- Check on one event of the history: `iis2dulpx_mode_set` and
`iis2dulpx_xl_data_get` are given the mode structure `md_set`. -/
def Ev.mdOk : Ev → Bool
  | .mode_set _ m => m == md_set
  | .xl_data_get _ m _ => m == md_set
  | _ => true

/-- The call `iis2dulpx_mode_set`. -/
def Ev.isModeSet : Ev → Bool
  | .mode_set _ _ => true
  | _ => false

/-- What holds of `md` when `iis2dulpx_read_data_drdy` stands on source
line `line`, and of the mode structures recorded in the history. -/
def MdInv (line : Nat) (md : iis2dulpx_md_t) (tr : List Ev) : Prop :=
  (182 < line → md.fs = .IIS2DULPX_4g) ∧
  (183 < line → md.bw = .IIS2DULPX_ODR_div_4) ∧
  (184 < line → md.odr = .IIS2DULPX_25Hz_LP) ∧
  Seen 185 Ev.isModeSet line tr ∧
  Precedes Ev.isModeSet Ev.isXlGet tr ∧
  tr.all Ev.mdOk = true

end iis2dulpx

/-! ## The INT1 routing -/

namespace iis2dulpx

/-- The call `iis2dulpx_pin_int1_route_set`. -/
def Ev.isRouteSet : Ev → Bool
  | .pin_int1_route_set _ _ => true
  | _ => false

/-- Check on one event of the history: the routing given to
`iis2dulpx_pin_int1_route_set` has `drdy = 1` and, in its other fields,
what the local `int_route` held on entry, `g`. -/
def Ev.routeIs (g : iis2dulpx_pin_int_route_t) : Ev → Bool
  | .pin_int1_route_set _ v => v == ⟨1, g.others⟩
  | _ => true

/-- What holds of the local `int_route` (`r`) when
`iis2dulpx_read_data_drdy`, entered with `int_route` holding `g`, stands on
source line `line`, and of the routings recorded in the history. -/
def RouteInv (g : iis2dulpx_pin_int_route_t) (line : Nat) (r : iis2dulpx_pin_int_route_t)
    (tr : List Ev) : Prop :=
  r.others = g.others ∧
  (177 < line → r.drdy = 1) ∧
  Seen 178 Ev.isRouteSet line tr ∧
  tr.all (Ev.routeIs g) = true

/-- An entry state in which the memory of the local `int_route` holds a
nonzero value outside the field `drdy`. -/
def garbage_ex : iis2dulpx_pin_int_route_t := ⟨0, 1⟩

end iis2dulpx

/-! ## SPI transactions -/

/-- The board on which the SPI branch of the platform functions is
compiled: `STEVAL_MKI109V3` defined, `NUCLEO_F401RE` not. -/
def spi_board : Board := ⟨false, true, false⟩

/-- A state of the hardware-abstraction layer to evaluate on: nothing
called yet, chip select high, every call answering the status 1. -/
def hal_ex : Hal := ⟨[], .GPIO_PIN_SET, fun _ => 1, fun _ => [0xAA, 0xBB, 0xCC]⟩

/-- The address byte of an SPI transaction: the first byte given to the
first `HAL_SPI_Transmit` among `calls`. -/
def spi_address : List HalCall → Option Nat
  | [] => none
  | .HAL_SPI_Transmit _ data _ _ :: _ => data.head?
  | _ :: rest => spi_address rest

/-- The state of the layer after `calls`, made one after the other from `h`. -/
def Hal.calls (h : Hal) (calls : List HalCall) : Hal :=
  calls.foldl (fun h c => (h.call c).1) h

/-- The calls `calls`, made one after the other from the state `h` of the
layer, each with the level the chip-select pin has when the call is made. -/
def Hal.levels (h : Hal) : List HalCall → List (HalCall × GPIO_PinState)
  | [] => []
  | c :: rest => (c, h.cs) :: Hal.levels (h.call c).1 rest

/-- The transaction made of the address transfer `addr` and the data
transfer `data`, which takes the layer from `hal` to `hal'`, is bracketed
by chip select: the calls are, in this order, the pin driven low, `addr`,
`data`, the pin driven high; both transfers are made while the pin is low;
the pin is high afterwards. -/
def Bracketed (hal : Hal) (addr data : HalCall) (hal' : Hal) : Prop :=
  addr.isTransfer = true ∧ data.isTransfer = true ∧
  hal' = hal.calls [.HAL_GPIO_WritePin .GPIO_PIN_RESET, addr, data,
    .HAL_GPIO_WritePin .GPIO_PIN_SET] ∧
  hal'.log = hal.log ++ [.HAL_GPIO_WritePin .GPIO_PIN_RESET, addr, data,
    .HAL_GPIO_WritePin .GPIO_PIN_SET] ∧
  hal.levels [.HAL_GPIO_WritePin .GPIO_PIN_RESET, addr, data,
      .HAL_GPIO_WritePin .GPIO_PIN_SET] =
    [(.HAL_GPIO_WritePin .GPIO_PIN_RESET, hal.cs), (addr, .GPIO_PIN_RESET),
     (data, .GPIO_PIN_RESET), (.HAL_GPIO_WritePin .GPIO_PIN_SET, .GPIO_PIN_RESET)] ∧
  hal'.cs = .GPIO_PIN_SET

end STMems

/-! # Theorems -/

namespace STMems

/-! ## Histories -/

theorem getElem?_snoc {E : Type} (tr : List E) (e x : E) (j : Nat) :
    (tr ++ [e])[j]? = some x ↔ (j < tr.length ∧ tr[j]? = some x) ∨ (j = tr.length ∧ x = e) := by
  rcases Nat.lt_trichotomy j tr.length with h | h | h
  · rw [List.getElem?_append_left h]
    constructor
    · intro hx; exact Or.inl ⟨h, hx⟩
    · rintro (⟨_, hx⟩ | ⟨hj, _⟩)
      · exact hx
      · omega
  · subst h
    simp [eq_comm]
  · rw [List.getElem?_append_right (by omega)]
    have h1 : j - tr.length ≠ 0 := by omega
    have h2 : [e][j - tr.length]? = none := by
      cases hj : j - tr.length with
      | zero => exact absurd hj h1
      | succ m => simp
    rw [h2]
    constructor
    · intro hx; cases hx
    · rintro (⟨hj, _⟩ | ⟨hj, _⟩) <;> omega

theorem lt_length_of_getElem? {E : Type} {tr : List E} {x : E} {i : Nat}
    (h : tr[i]? = some x) : i < tr.length := by
  rcases Nat.lt_or_ge i tr.length with h5 | h5
  · exact h5
  · rw [List.getElem?_eq_none h5] at h; cases h

theorem precedes_nil {E : Type} (p q : E → Bool) : Precedes p q ([] : List E) := by
  intro j e h; simp at h

theorem precedes_snoc {E : Type} (p q : E → Bool) (tr : List E) (e : E) :
    Precedes p q (tr ++ [e]) ↔ Precedes p q tr ∧ (q e = true → tr.any p = true) := by
  constructor
  · intro h
    refine ⟨?_, ?_⟩
    · intro j x hx hq
      have hj : j < tr.length := lt_length_of_getElem? hx
      obtain ⟨i, e', hi, he', hp⟩ := h j x ((getElem?_snoc tr e x j).2 (Or.inl ⟨hj, hx⟩)) hq
      refine ⟨i, e', hi, ?_, hp⟩
      rcases (getElem?_snoc tr e e' i).1 he' with ⟨_, h2⟩ | ⟨h2, _⟩
      · exact h2
      · omega
    · intro hq
      obtain ⟨i, e', hi, he', hp⟩ :=
        h tr.length e ((getElem?_snoc tr e e _).2 (Or.inr ⟨rfl, rfl⟩)) hq
      rcases (getElem?_snoc tr e e' i).1 he' with ⟨_, h2⟩ | ⟨h2, _⟩
      · exact List.any_eq_true.2 ⟨e', List.mem_iff_getElem?.2 ⟨i, h2⟩, hp⟩
      · omega
  · rintro ⟨h1, h2⟩ j x hx hq
    rcases (getElem?_snoc tr e x j).1 hx with ⟨_, h3⟩ | ⟨h3, h4⟩
    · obtain ⟨i, e', hi, he', hp⟩ := h1 j x h3 hq
      exact ⟨i, e', hi,
        (getElem?_snoc tr e e' i).2 (Or.inl ⟨lt_length_of_getElem? he', he'⟩), hp⟩
    · subst h4
      obtain ⟨e', hm, hp⟩ := List.any_eq_true.1 (h2 hq)
      obtain ⟨i, hi⟩ := List.mem_iff_getElem?.1 hm
      have hil : i < tr.length := lt_length_of_getElem? hi
      exact ⟨i, e', by omega, (getElem?_snoc tr x e' i).2 (Or.inl ⟨hil, hi⟩), hp⟩

theorem allBefore_nil {E : Type} (p q : E → Bool) : AllBefore p q ([] : List E) := by
  intro i j e e' h; simp at h

theorem allBefore_snoc {E : Type} (p q : E → Bool) (tr : List E) (e : E) :
    AllBefore p q (tr ++ [e]) ↔
      AllBefore p q tr ∧ (p e = true → q e = false ∧ tr.any q = false) := by
  constructor
  · intro h
    refine ⟨?_, ?_⟩
    · intro i j x y hx hy hp hq
      exact h i j x y ((getElem?_snoc tr e x i).2 (Or.inl ⟨lt_length_of_getElem? hx, hx⟩))
        ((getElem?_snoc tr e y j).2 (Or.inl ⟨lt_length_of_getElem? hy, hy⟩)) hp hq
    · intro hp
      have hlast : (tr ++ [e])[tr.length]? = some e :=
        (getElem?_snoc tr e e _).2 (Or.inr ⟨rfl, rfl⟩)
      refine ⟨?_, ?_⟩
      · cases hq : q e with
        | false => rfl
        | true => exact absurd (h _ _ e e hlast hlast hp hq) (lt_irrefl _)
      · rw [List.any_eq_false]
        intro y hy
        obtain ⟨j, hj⟩ := List.mem_iff_getElem?.1 hy
        intro hq
        have h1 := h _ _ e y hlast
          ((getElem?_snoc tr e y j).2 (Or.inl ⟨lt_length_of_getElem? hj, hj⟩)) hp hq
        have h2 := lt_length_of_getElem? hj
        omega
  · rintro ⟨h1, h2⟩ i j x y hx hy hp hq
    rcases (getElem?_snoc tr e x i).1 hx with ⟨hi, h3⟩ | ⟨h3, h4⟩
    · rcases (getElem?_snoc tr e y j).1 hy with ⟨hj, h5⟩ | ⟨h5, h6⟩
      · exact h1 i j x y h3 h5 hp hq
      · omega
    · subst h4
      obtain ⟨hqx, hall⟩ := h2 hp
      rcases (getElem?_snoc tr x y j).1 hy with ⟨hj, h5⟩ | ⟨h5, h6⟩
      · have h7 := (List.any_eq_false.1 hall) y (List.mem_iff_getElem?.2 ⟨j, h5⟩)
        exact absurd hq h7
      · subst h6; rw [hqx] at hq; cases hq

end STMems
/-! ## C1: a wrong device ID stops the example -/

namespace STMems

namespace iis2dulpx

theorem iis2dulpx_run_succ (k : Consts) (libc : Libc) (dev : Nat → Resp) (n : Nat) (s : State) :
    run k libc dev (n + 1) s = run k libc dev n (step k libc dev s) := by
  simp [run, Function.iterate_succ_apply]

theorem iis2dulpx_run_add (k : Consts) (libc : Libc) (dev : Nat → Resp) (m n : Nat) (s : State) :
    run k libc dev (m + n) s = run k libc dev m (run k libc dev n s) := by
  simp [run, Function.iterate_add_apply]

theorem iis2dulpx_run_fixed (k : Consts) (libc : Libc) (dev : Nat → Resp) (n : Nat) (s : State)
    (h : step k libc dev s = s) : run k libc dev n s = s := by
  simpa [run] using Function.iterate_fixed h n

theorem iis2dulpx_run_to_spin (k : Consts) (libc : Libc) (dev : Nat → Resp)
    (g : iis2dulpx_pin_int_route_t) (h : u8 (dev 0).id ≠ k.IIS2DULPX_ID) :
    run k libc dev 9 (init g) =
      { init g with pc := .l165, dev_ctx := ctx_ready, id := u8 (dev 0).id, reads := 1
                    trace := id_trace (u8 (dev 0).id) } := by
  simp [run, step, init, State.log, h, id_trace, ctx_ready, ctx_unset]

theorem iis2dulpx_spin_closed (k : Consts) (libc : Libc) (dev : Nat → Resp) (sch : List Act) :
    ∀ s : State, s.pc = .l165 →
      (exec k libc dev s sch).pc = .l165 ∧
      (exec k libc dev s sch).trace.filter (fun e => !e.isHandler) =
        s.trace.filter (fun e => !e.isHandler) := by
  induction sch with
  | nil => intro s hs; exact ⟨hs, rfl⟩
  | cons a sch ih =>
    intro s hs
    have key : (act k libc dev s a).pc = .l165 ∧
        (act k libc dev s a).trace.filter (fun e => !e.isHandler) =
          s.trace.filter (fun e => !e.isHandler) := by
      cases a with
      | main => simp [act, step, hs]
      | irq =>
        simp [act, iis2dulpx_read_data_drdy_handler, State.log, hs, List.filter_append,
          Ev.isHandler]
    have h2 := ih _ key.1
    simp only [exec, List.foldl_cons] at h2 ⊢
    exact ⟨h2.1, h2.2.trans key.2⟩

theorem iis2dulpx_mismatch_run (k : Consts) (libc : Libc) (dev : Nat → Resp)
    (g : iis2dulpx_pin_int_route_t) (h : u8 (dev 0).id ≠ k.IIS2DULPX_ID) (n : Nat) :
    (run k libc dev n (init g)).trace <+: id_trace (u8 (dev 0).id) ∧
    (9 ≤ n →
      (run k libc dev n (init g)).pc = .l165 ∧
      (run k libc dev n (init g)).trace = id_trace (u8 (dev 0).id) ∧
      step k libc dev (run k libc dev n (init g)) = run k libc dev n (init g) ∧
      ∀ sch, (exec k libc dev (run k libc dev n (init g)) sch).pc = .l165 ∧
        (exec k libc dev (run k libc dev n (init g)) sch).trace.filter
          (fun e => !e.isHandler) = id_trace (u8 (dev 0).id)) := by
  by_cases hn : 9 ≤ n
  · obtain ⟨m, rfl⟩ : ∃ m, n = m + 9 := ⟨n - 9, by omega⟩
    rw [iis2dulpx_run_add, iis2dulpx_run_to_spin k libc dev g h, iis2dulpx_run_fixed _ _ _ _ _ (by simp [step])]
    refine ⟨by simp, fun _ => ⟨rfl, rfl, by simp [step], fun sch => ?_⟩⟩
    have h2 := iis2dulpx_spin_closed k libc dev sch
      { init g with pc := .l165, dev_ctx := ctx_ready, id := u8 (dev 0).id, reads := 1
                    trace := id_trace (u8 (dev 0).id) } rfl
    refine ⟨h2.1, h2.2.trans ?_⟩
    simp [id_trace, Ev.isHandler]
  · have h9 : n < 9 := by omega
    refine ⟨?_, fun h' => absurd h' hn⟩
    interval_cases n <;>
      simp [run, step, init, State.log, h, id_trace, ctx_ready, ctx_unset,
        List.prefix_iff_eq_take]

end iis2dulpx

namespace lsm6dso32x

theorem lsm6dso32x_run_succ (k : Driver) (libc : Libc) (dev : Nat → Resp) (n : Nat) (s : State) :
    run k libc dev (n + 1) s = run k libc dev n (step k libc dev s) := by
  simp [run, Function.iterate_succ_apply]

theorem lsm6dso32x_run_add (k : Driver) (libc : Libc) (dev : Nat → Resp) (m n : Nat) (s : State) :
    run k libc dev (m + n) s = run k libc dev m (run k libc dev n s) := by
  simp [run, Function.iterate_add_apply]

theorem lsm6dso32x_run_fixed (k : Driver) (libc : Libc) (dev : Nat → Resp) (n : Nat) (s : State)
    (h : step k libc dev s = s) : run k libc dev n s = s := by
  simpa [run] using Function.iterate_fixed h n

theorem lsm6dso32x_run_to_spin (k : Driver) (libc : Libc) (dev : Nat → Resp)
    (h : u8 (dev 0).byte ≠ k.LSM6DSO32X_ID) :
    run k libc dev 8 init =
      { init with pc := .l150, dev_ctx := ctx_ready, whoamI := u8 (dev 0).byte, reads := 1
                  trace := id_trace (u8 (dev 0).byte) } := by
  simp [run, step, init, State.log, State.answered, h, id_trace, ctx_ready, ctx_unset]

theorem lsm6dso32x_mismatch_run (k : Driver) (libc : Libc) (dev : Nat → Resp)
    (h : u8 (dev 0).byte ≠ k.LSM6DSO32X_ID) (n : Nat) :
    (run k libc dev n init).trace <+: id_trace (u8 (dev 0).byte) ∧
    (8 ≤ n →
      (run k libc dev n init).pc = .l150 ∧
      (run k libc dev n init).trace = id_trace (u8 (dev 0).byte) ∧
      step k libc dev (run k libc dev n init) = run k libc dev n init) := by
  by_cases hn : 8 ≤ n
  · obtain ⟨m, rfl⟩ : ∃ m, n = m + 8 := ⟨n - 8, by omega⟩
    rw [lsm6dso32x_run_add, lsm6dso32x_run_to_spin k libc dev h, lsm6dso32x_run_fixed _ _ _ _ _ (by simp [step])]
    exact ⟨by simp, fun _ => ⟨rfl, rfl, by simp [step]⟩⟩
  · have h8 : n < 8 := by omega
    refine ⟨?_, fun h' => absurd h' hn⟩
    interval_cases n <;>
      simp [run, step, init, State.log, State.answered, h, id_trace, ctx_ready, ctx_unset,
        List.prefix_iff_eq_take]

end lsm6dso32x

namespace lsm6dso16is

theorem lsm6dso16is_run_succ (k : Driver) (dev : Nat → Resp) (n : Nat) (s : State) :
    run k dev (n + 1) s = run k dev n (step k dev s) := by
  simp [run, Function.iterate_succ_apply]

theorem lsm6dso16is_run_add (k : Driver) (dev : Nat → Resp) (m n : Nat) (s : State) :
    run k dev (m + n) s = run k dev m (run k dev n s) := by
  simp [run, Function.iterate_add_apply]

theorem lsm6dso16is_run_fixed (k : Driver) (dev : Nat → Resp) (n : Nat) (s : State)
    (h : step k dev s = s) : run k dev n s = s := by
  simpa [run] using Function.iterate_fixed h n

theorem lsm6dso16is_run_to_spin (k : Driver) (dev : Nat → Resp)
    (h : u8 (dev 0).byte ≠ k.LSM6DSO16IS_ID) :
    run k dev 8 init =
      { init with pc := .l206, dev_ctx := ctx_ready, whoamI := u8 (dev 0).byte, reads := 1
                  trace := id_trace (u8 (dev 0).byte) } := by
  simp [run, step, init, State.log, State.answered, h, id_trace, ctx_ready, ctx_unset]

theorem lsm6dso16is_mismatch_run (k : Driver) (dev : Nat → Resp)
    (h : u8 (dev 0).byte ≠ k.LSM6DSO16IS_ID) (n : Nat) :
    (run k dev n init).trace <+: id_trace (u8 (dev 0).byte) ∧
    (8 ≤ n →
      (run k dev n init).pc = .l206 ∧
      (run k dev n init).trace = id_trace (u8 (dev 0).byte) ∧
      step k dev (run k dev n init) = run k dev n init) := by
  by_cases hn : 8 ≤ n
  · obtain ⟨m, rfl⟩ : ∃ m, n = m + 8 := ⟨n - 8, by omega⟩
    rw [lsm6dso16is_run_add, lsm6dso16is_run_to_spin k dev h, lsm6dso16is_run_fixed _ _ _ _ (by simp [step])]
    exact ⟨by simp, fun _ => ⟨rfl, rfl, by simp [step]⟩⟩
  · have h8 : n < 8 := by omega
    refine ⟨?_, fun h' => absurd h' hn⟩
    interval_cases n <;>
      simp [run, step, init, State.log, State.answered, h, id_trace, ctx_ready, ctx_unset,
        List.prefix_iff_eq_take]

end lsm6dso16is

/-- C1: in each of the three examples, when the device-ID byte the driver
returns differs from the expected constant, the history of the main
function is at every moment an initial segment of: platform
initialisation, boot delay, (for iis2dulpx, leaving deep power down,) one
device-ID read. Once the check on the ID has run (9, 8 and 8 statements
after entry) the history is exactly that list, so the ID was read once and
no driver call, register write or transmission follows; the program point
is the `while(1);` of the check, and executing it leaves the state as it
is. For iis2dulpx this also holds under any interleaving with the
interrupt handler. -/
theorem c1_id_mismatch_spins
    (k1 : iis2dulpx.Consts) (k2 : lsm6dso32x.Driver) (k3 : lsm6dso16is.Driver) (libc : Libc)
    (d1 : Nat → iis2dulpx.Resp) (d2 : Nat → lsm6dso32x.Resp) (d3 : Nat → lsm6dso16is.Resp)
    (g : iis2dulpx.iis2dulpx_pin_int_route_t)
    (h1 : u8 (d1 0).id ≠ k1.IIS2DULPX_ID)
    (h2 : u8 (d2 0).byte ≠ k2.LSM6DSO32X_ID)
    (h3 : u8 (d3 0).byte ≠ k3.LSM6DSO16IS_ID) (n : Nat) :
    ((iis2dulpx.run k1 libc d1 n (iis2dulpx.init g)).trace <+:
        iis2dulpx.id_trace (u8 (d1 0).id) ∧
      (9 ≤ n →
        (iis2dulpx.run k1 libc d1 n (iis2dulpx.init g)).pc = .l165 ∧
        (iis2dulpx.run k1 libc d1 n (iis2dulpx.init g)).trace =
          iis2dulpx.id_trace (u8 (d1 0).id) ∧
        iis2dulpx.step k1 libc d1 (iis2dulpx.run k1 libc d1 n (iis2dulpx.init g)) =
          iis2dulpx.run k1 libc d1 n (iis2dulpx.init g) ∧
        ∀ sch,
          (iis2dulpx.exec k1 libc d1
            (iis2dulpx.run k1 libc d1 n (iis2dulpx.init g)) sch).pc = .l165 ∧
          (iis2dulpx.exec k1 libc d1
            (iis2dulpx.run k1 libc d1 n (iis2dulpx.init g)) sch).trace.filter
              (fun e => !e.isHandler) = iis2dulpx.id_trace (u8 (d1 0).id))) ∧
    ((lsm6dso32x.run k2 libc d2 n lsm6dso32x.init).trace <+:
        lsm6dso32x.id_trace (u8 (d2 0).byte) ∧
      (8 ≤ n →
        (lsm6dso32x.run k2 libc d2 n lsm6dso32x.init).pc = .l150 ∧
        (lsm6dso32x.run k2 libc d2 n lsm6dso32x.init).trace =
          lsm6dso32x.id_trace (u8 (d2 0).byte) ∧
        lsm6dso32x.step k2 libc d2 (lsm6dso32x.run k2 libc d2 n lsm6dso32x.init) =
          lsm6dso32x.run k2 libc d2 n lsm6dso32x.init)) ∧
    ((lsm6dso16is.run k3 d3 n lsm6dso16is.init).trace <+:
        lsm6dso16is.id_trace (u8 (d3 0).byte) ∧
      (8 ≤ n →
        (lsm6dso16is.run k3 d3 n lsm6dso16is.init).pc = .l206 ∧
        (lsm6dso16is.run k3 d3 n lsm6dso16is.init).trace =
          lsm6dso16is.id_trace (u8 (d3 0).byte) ∧
        lsm6dso16is.step k3 d3 (lsm6dso16is.run k3 d3 n lsm6dso16is.init) =
          lsm6dso16is.run k3 d3 n lsm6dso16is.init)) :=
  ⟨iis2dulpx.iis2dulpx_mismatch_run k1 libc d1 g h1 n, lsm6dso32x.lsm6dso32x_mismatch_run k2 libc d2 h2 n,
    lsm6dso16is.lsm6dso16is_mismatch_run k3 d3 h3 n⟩

/-- C1 at a concrete input: three devices that answer ID 0, after 20
statements. -/
theorem c1_id_mismatch_spins_witness :
    (iis2dulpx.run iis2dulpx.k_ex libc_ex iis2dulpx.dev_wrong_id 20
        (iis2dulpx.init ⟨0, 0⟩)).pc = .l165 ∧
    (lsm6dso32x.run lsm6dso32x.k_ex libc_ex lsm6dso32x.dev_wrong_id 20
        lsm6dso32x.init).pc = .l150 ∧
    (lsm6dso16is.run lsm6dso16is.k_ex lsm6dso16is.dev_wrong_id 20
        lsm6dso16is.init).trace = lsm6dso16is.id_trace 0 :=
  have h := c1_id_mismatch_spins iis2dulpx.k_ex lsm6dso32x.k_ex lsm6dso16is.k_ex libc_ex
    iis2dulpx.dev_wrong_id lsm6dso32x.dev_wrong_id lsm6dso16is.dev_wrong_id ⟨0, 0⟩
    (by decide) (by decide) (by decide) 20
  ⟨(h.1.2 (by decide)).1, (h.2.1.2 (by decide)).1, (h.2.2.2 (by decide)).2.1⟩

end STMems
/-! ## C2: `drdy_event` is a one-bit flag -/

namespace STMems

namespace iis2dulpx

theorem iis2dulpx_step_drdy_event (k : Consts) (libc : Libc) (dev : Nat → Resp) (s : State) :
    (step k libc dev s).drdy_event = s.drdy_event ∨
      (s.pc = .l192 ∧ (step k libc dev s).drdy_event = 0) := by
  obtain ⟨pc, a1, a2, a3, a4, a5, a6, a7, a8, a9, a10, tr⟩ := s
  cases pc <;> simp only [step, State.log] <;> (try split) <;> simp

theorem iis2dulpx_exec_cons (k : Consts) (libc : Libc) (dev : Nat → Resp) (s : State)
    (a : Act) (sch : List Act) :
    exec k libc dev s (a :: sch) = exec k libc dev (act k libc dev s a) sch := by
  simp [exec]

theorem iis2dulpx_exec_snoc (k : Consts) (libc : Libc) (dev : Nat → Resp) (s : State)
    (a : Act) (sch : List Act) :
    exec k libc dev s (sch ++ [a]) = act k libc dev (exec k libc dev s sch) a := by
  simp [exec]

theorem iis2dulpx_drdy_le_one (k : Consts) (libc : Libc) (dev : Nat → Resp) (sch : List Act) :
    ∀ s : State, s.drdy_event ≤ 1 → (exec k libc dev s sch).drdy_event ≤ 1 := by
  induction sch with
  | nil => intro s hs; exact hs
  | cons a sch ih =>
    intro s hs
    rw [iis2dulpx_exec_cons]
    apply ih
    cases a with
    | irq => simp [act, iis2dulpx_read_data_drdy_handler, State.log]
    | main =>
      rcases iis2dulpx_step_drdy_event k libc dev s with h | ⟨_, h⟩
      · simp only [act]; omega
      · simp only [act]; omega

theorem iis2dulpx_iteration_idle (k : Consts) (libc : Libc) (dev : Nat → Resp) (s : State)
    (hpc : s.pc = .l189) (h : s.drdy_event = 0) : iteration k libc dev s = s := by
  obtain ⟨pc, a1, a2, a3, a4, a5, a6, a7, a8, a9, a10, tr⟩ := s
  simp only at hpc h
  subst hpc h
  simp [iteration, toHead, step]

theorem iis2dulpx_iteration_busy (k : Consts) (libc : Libc) (dev : Nat → Resp) (s : State)
    (hpc : s.pc = .l189) (h : 0 < s.drdy_event) :
    iteration k libc dev s =
      { s with
        drdy_event := 0
        data_xl := (dev s.reads).xl
        data_temp := (dev (s.reads + 1)).outt
        reads := s.reads + 2
        tx_buffer :=
          snprintf (snprintf s.tx_buffer 1000 (fmt_acceleration libc (dev s.reads).xl.mg)) 1000
            (fmt_temp libc (dev (s.reads + 1)).outt.deg_c)
        trace := s.trace ++
          [Ev.xl_data_get s.dev_ctx s.md (dev s.reads).xl,
           Ev.drdy_event_clear,
           Ev.snprintf .acceleration (fmt_acceleration libc (dev s.reads).xl.mg),
           Ev.tx_com
             ((snprintf s.tx_buffer 1000 (fmt_acceleration libc (dev s.reads).xl.mg)).take
               (u16 (strlen (snprintf s.tx_buffer 1000
                 (fmt_acceleration libc (dev s.reads).xl.mg)))))
             (u16 (strlen (snprintf s.tx_buffer 1000
               (fmt_acceleration libc (dev s.reads).xl.mg)))),
           Ev.outt_data_get s.dev_ctx (dev (s.reads + 1)).outt,
           Ev.snprintf .temperature (fmt_temp libc (dev (s.reads + 1)).outt.deg_c),
           Ev.tx_com
             ((snprintf (snprintf s.tx_buffer 1000 (fmt_acceleration libc (dev s.reads).xl.mg))
                1000 (fmt_temp libc (dev (s.reads + 1)).outt.deg_c)).take
               (u16 (strlen (snprintf
                 (snprintf s.tx_buffer 1000 (fmt_acceleration libc (dev s.reads).xl.mg))
                 1000 (fmt_temp libc (dev (s.reads + 1)).outt.deg_c)))))
             (u16 (strlen (snprintf
               (snprintf s.tx_buffer 1000 (fmt_acceleration libc (dev s.reads).xl.mg))
               1000 (fmt_temp libc (dev (s.reads + 1)).outt.deg_c))))] } := by
  obtain ⟨pc, a1, a2, a3, a4, a5, a6, a7, a8, a9, a10, tr⟩ := s
  simp only at hpc h
  subst hpc
  simp [iteration, toHead, step, State.log, h]

end iis2dulpx

/-- C2: in the iis2dulpx example `drdy_event` starts at 0 and is 0 or 1 in
every state reached by any interleaving of handler invocations and
statements of the main function; the handler sets it to 1 and changes no
other variable; a statement of the main function changes it only on line
192, to 0; and an iteration of the main loop executes that clearing
exactly when it found `drdy_event > 0` at the loop head, leaving the state
as it is otherwise. -/
theorem c2_drdy_event_one_bit (k : iis2dulpx.Consts) (libc : Libc)
    (dev : Nat → iis2dulpx.Resp) (g : iis2dulpx.iis2dulpx_pin_int_route_t) :
    (iis2dulpx.init g).drdy_event = 0 ∧
    (∀ sch,
      (iis2dulpx.exec k libc dev (iis2dulpx.init g) sch).drdy_event = 0 ∨
      (iis2dulpx.exec k libc dev (iis2dulpx.init g) sch).drdy_event = 1) ∧
    (∀ s : iis2dulpx.State,
      (iis2dulpx.iis2dulpx_read_data_drdy_handler s).drdy_event = 1 ∧
      { iis2dulpx.iis2dulpx_read_data_drdy_handler s with drdy_event := s.drdy_event } = s) ∧
    (∀ s : iis2dulpx.State,
      (iis2dulpx.step k libc dev s).drdy_event ≠ s.drdy_event →
        s.pc = .l192 ∧ (iis2dulpx.step k libc dev s).drdy_event = 0) ∧
    (∀ s : iis2dulpx.State, s.pc = .l189 →
      (iis2dulpx.Ev.drdy_event_clear ∈
          (iis2dulpx.iteration k libc dev s).trace.drop s.trace.length ↔
        0 < s.drdy_event) ∧
      (0 < s.drdy_event → (iis2dulpx.iteration k libc dev s).drdy_event = 0) ∧
      (s.drdy_event = 0 → iis2dulpx.iteration k libc dev s = s)) := by
  refine ⟨rfl, fun sch => ?_, fun s => ⟨rfl, rfl⟩, fun s hne => ?_, fun s hpc => ?_⟩
  · have h := iis2dulpx.iis2dulpx_drdy_le_one k libc dev sch (iis2dulpx.init g)
      (by simp [iis2dulpx.init])
    omega
  · rcases iis2dulpx.iis2dulpx_step_drdy_event k libc dev s with h | h
    · exact absurd h hne
    · exact h
  · rcases Nat.eq_zero_or_pos s.drdy_event with h0 | hpos
    · have hid := iis2dulpx.iis2dulpx_iteration_idle k libc dev s hpc h0
      refine ⟨?_, fun h => absurd h0 (by omega), fun _ => hid⟩
      rw [hid]
      simp [h0]
    · have hb := iis2dulpx.iis2dulpx_iteration_busy k libc dev s hpc hpos
      refine ⟨?_, fun _ => by rw [hb], fun h => absurd h (by omega)⟩
      rw [hb]
      simp [hpos]

/-- C2 at a concrete input: the flag after the schedule `sch_served` on
`dev_ok`, and the iteration that starts at the loop head with the flag at
0 and zeroed buffers. -/
theorem c2_drdy_event_one_bit_witness :
    ((iis2dulpx.exec iis2dulpx.k_ex libc_ex iis2dulpx.dev_ok (iis2dulpx.init ⟨0, 0⟩)
        iis2dulpx.sch_served).drdy_event = 0 ∨
      (iis2dulpx.exec iis2dulpx.k_ex libc_ex iis2dulpx.dev_ok (iis2dulpx.init ⟨0, 0⟩)
        iis2dulpx.sch_served).drdy_event = 1) ∧
    iis2dulpx.iteration iis2dulpx.k_ex libc_ex iis2dulpx.dev_ok
        { iis2dulpx.init ⟨0, 0⟩ with pc := .l189 } =
      { iis2dulpx.init ⟨0, 0⟩ with pc := .l189 } :=
  have h := c2_drdy_event_one_bit iis2dulpx.k_ex libc_ex iis2dulpx.dev_ok ⟨0, 0⟩
  ⟨h.2.1 iis2dulpx.sch_served, (h.2.2.2.2 { iis2dulpx.init ⟨0, 0⟩ with pc := .l189 } rfl).2.2 rfl⟩

end STMems
/-! ## C3: the user offsets written by `lsm6dso32x_offset` -/

namespace STMems

namespace lsm6dso32x

theorem lsm6dso32x_offset_inv_step (k : Driver) (libc : Libc) (dev : Nat → Resp) (s : State)
    (h : s.offset = (0x30, 0x40, 0x7E) ∧ s.trace.all Ev.offsetOk = true) :
    (step k libc dev s).offset = (0x30, 0x40, 0x7E) ∧
      (step k libc dev s).trace.all Ev.offsetOk = true := by
  obtain ⟨pc, a1, a2, a3, a4, a5, a6, a7, a8, a9, a10, ⟨o1, o2, o3⟩, a12, a13, tr⟩ := s
  simp only [Prod.mk.injEq] at h
  obtain ⟨⟨rfl, rfl, rfl⟩, h2⟩ := h
  cases pc <;> simp only [step, State.log, State.answered] <;> (try split) <;>
    simp_all [Ev.offsetOk]

theorem lsm6dso32x_offset_inv (k : Driver) (libc : Libc) (dev : Nat → Resp) (n : Nat) :
    (run k libc dev n init).offset = (0x30, 0x40, 0x7E) ∧
      (run k libc dev n init).trace.all Ev.offsetOk = true := by
  induction n with
  | zero => simp [run, init]
  | succ n ih =>
    have h : run k libc dev (n + 1) init = step k libc dev (run k libc dev n init) := by
      simp [run, Function.iterate_succ_apply']
    rw [h]
    exact lsm6dso32x_offset_inv_step k libc dev _ ih

end lsm6dso32x

/-- C3, evaluated on the code: in every run of `lsm6dso32x_offset` the
weight is set to `LSM6DSO32X_LSb_1mg` and the bytes passed to the X, Y and
Z user-offset calls read, as 8-bit two's-complement integers, 48, 64 and
126; on a device that answers the right ID the Z call is made with the
byte 0x7E, which is 126 and not the -127 of the claim and of the comment on
lines 166 to 168 of the source. -/
theorem c3_z_offset_is_plus_126 :
    (∀ (k : lsm6dso32x.Driver) (libc : Libc) (dev : Nat → lsm6dso32x.Resp) (n : Nat)
        (e : lsm6dso32x.Ev), e ∈ (lsm6dso32x.run k libc dev n lsm6dso32x.init).trace →
      (∀ c v, e = .xl_offset_weight_set c v → v = .LSM6DSO32X_LSb_1mg) ∧
      (∀ c b, e = .xl_usr_offset_x_set c b → int8_of b = 48) ∧
      (∀ c b, e = .xl_usr_offset_y_set c b → int8_of b = 64) ∧
      (∀ c b, e = .xl_usr_offset_z_set c b → int8_of b = 126)) ∧
    lsm6dso32x.Ev.xl_usr_offset_z_set ctx_ready 0x7E ∈
      (lsm6dso32x.run lsm6dso32x.k_ex libc_ex lsm6dso32x.dev_ok 21 lsm6dso32x.init).trace ∧
    int8_of 0x7E = 126 ∧ int8_of 0x7E ≠ -127 ∧ int8_of 0x81 = -127 := by
  refine ⟨?_, ?_, by decide, by decide, by decide⟩
  · intro k libc dev n e he
    have h := List.all_eq_true.1 (lsm6dso32x.lsm6dso32x_offset_inv k libc dev n).2 e he
    refine ⟨?_, ?_, ?_, ?_⟩ <;> intro c b hb <;> subst hb <;>
      simp [lsm6dso32x.Ev.offsetOk] at h <;> subst h <;> rfl
  · simp [lsm6dso32x.run, lsm6dso32x.step, lsm6dso32x.init, lsm6dso32x.State.log,
      lsm6dso32x.State.answered, lsm6dso32x.k_ex, lsm6dso32x.dev_ok, u8, ctx_ready, ctx_unset]

end STMems
/-! ## The sampling statements, pass by pass -/

namespace STMems

namespace lsm6dso32x

theorem lsm6dso32x_acceleration_part_eq (k : Driver) (libc : Libc) (dev : Nat → Resp)
    (s : State) (h : s.pc = .l188) :
    acceleration_part k libc dev s =
      if u8 (dev s.reads).byte ≠ 0 then
        { s with
          pc := .l206
          reg := u8 (dev s.reads).byte
          data_raw_acceleration := raw3_of (dev (s.reads + 1))
          acceleration_mg := acceleration_mg_of k (raw3_of (dev (s.reads + 1)))
          tx_buffer := snprintf s.tx_buffer 1000 (fmt_acceleration libc (acceleration_mg_of k (raw3_of (dev (s.reads + 1)))))
          reads := s.reads + 2
          trace := s.trace ++ acceleration_events k libc s.dev_ctx (u8 (dev s.reads).byte)
            (raw3_of (dev (s.reads + 1))) s.tx_buffer }
      else
        { s with
          pc := .l206
          reg := u8 (dev s.reads).byte
          reads := s.reads + 1
          trace := s.trace ++ acceleration_events k libc s.dev_ctx (u8 (dev s.reads).byte)
            (raw3_of (dev (s.reads + 1))) s.tx_buffer } := by
  obtain ⟨pc, a1, a2, a3, a4, a5, a6, a7, a8, a9, a10, a11, a12, areads, tr⟩ := s
  simp only at h
  subst h
  by_cases hf : u8 (dev areads).byte = 0
  · simp only [acceleration_part, toPc, step, State.log, State.answered, hf, acceleration_events,
      reduceCtorEq, ↓reduceIte, ne_eq, not_true_eq_false, List.append_assoc, List.cons_append,
      List.nil_append]
  · simp only [acceleration_part, toPc, step, State.log, State.answered, hf, acceleration_events,
      tx_event, raw3_of, acceleration_mg_of, memset3, reduceCtorEq, ↓reduceIte, ne_eq,
      not_false_eq_true, List.append_assoc, List.cons_append, List.nil_append]

theorem lsm6dso32x_angular_rate_part_eq (k : Driver) (libc : Libc) (dev : Nat → Resp)
    (s : State) (h : s.pc = .l206) :
    angular_rate_part k libc dev s =
      if u8 (dev s.reads).byte ≠ 0 then
        { s with
          pc := .l224
          reg := u8 (dev s.reads).byte
          data_raw_angular_rate := raw3_of (dev (s.reads + 1))
          angular_rate_mdps := angular_rate_mdps_of k (raw3_of (dev (s.reads + 1)))
          tx_buffer := snprintf s.tx_buffer 1000 (fmt_angular_rate libc (angular_rate_mdps_of k (raw3_of (dev (s.reads + 1)))))
          reads := s.reads + 2
          trace := s.trace ++ angular_rate_events k libc s.dev_ctx (u8 (dev s.reads).byte)
            (raw3_of (dev (s.reads + 1))) s.tx_buffer }
      else
        { s with
          pc := .l224
          reg := u8 (dev s.reads).byte
          reads := s.reads + 1
          trace := s.trace ++ angular_rate_events k libc s.dev_ctx (u8 (dev s.reads).byte)
            (raw3_of (dev (s.reads + 1))) s.tx_buffer } := by
  obtain ⟨pc, a1, a2, a3, a4, a5, a6, a7, a8, a9, a10, a11, a12, areads, tr⟩ := s
  simp only at h
  subst h
  by_cases hf : u8 (dev areads).byte = 0
  · simp only [angular_rate_part, toPc, step, State.log, State.answered, hf, angular_rate_events,
      reduceCtorEq, ↓reduceIte, ne_eq, not_true_eq_false, List.append_assoc, List.cons_append,
      List.nil_append]
  · simp only [angular_rate_part, toPc, step, State.log, State.answered, hf, angular_rate_events,
      tx_event, raw3_of, angular_rate_mdps_of, memset3, reduceCtorEq, ↓reduceIte, ne_eq,
      not_false_eq_true, List.append_assoc, List.cons_append, List.nil_append]

theorem lsm6dso32x_temperature_part_eq (k : Driver) (libc : Libc) (dev : Nat → Resp)
    (s : State) (h : s.pc = .l224) :
    temperature_part k libc dev s =
      if u8 (dev s.reads).byte ≠ 0 then
        { s with
          pc := .l188
          reg := u8 (dev s.reads).byte
          data_raw_temperature := i16 (dev (s.reads + 1)).raw
          temperature_degC := k.lsm6dso32x_from_lsb_to_celsius (i16 (dev (s.reads + 1)).raw)
          tx_buffer := snprintf s.tx_buffer 1000 (fmt_temperature libc (k.lsm6dso32x_from_lsb_to_celsius (i16 (dev (s.reads + 1)).raw)))
          reads := s.reads + 2
          trace := s.trace ++ temperature_events k libc s.dev_ctx (u8 (dev s.reads).byte)
            (i16 (dev (s.reads + 1)).raw) s.tx_buffer }
      else
        { s with
          pc := .l188
          reg := u8 (dev s.reads).byte
          reads := s.reads + 1
          trace := s.trace ++ temperature_events k libc s.dev_ctx (u8 (dev s.reads).byte)
            (i16 (dev (s.reads + 1)).raw) s.tx_buffer } := by
  obtain ⟨pc, a1, a2, a3, a4, a5, a6, a7, a8, a9, a10, a11, a12, areads, tr⟩ := s
  simp only at h
  subst h
  by_cases hf : u8 (dev areads).byte = 0
  · simp only [temperature_part, toPc, step, State.log, State.answered, hf, temperature_events,
      reduceCtorEq, ↓reduceIte, ne_eq, not_true_eq_false, List.append_assoc, List.cons_append,
      List.nil_append]
  · simp only [temperature_part, toPc, step, State.log, State.answered, hf, temperature_events,
      tx_event, raw3_of, memset3, reduceCtorEq, ↓reduceIte, ne_eq,
      not_false_eq_true, List.append_assoc, List.cons_append, List.nil_append]

end lsm6dso32x

namespace lsm6dso16is

theorem lsm6dso16is_acceleration_part_eq (k : Driver) (libc : Libc) (dev : Nat → Resp)
    (s : State) (h : s.hpc = .h138) :
    acceleration_part k libc dev s =
      if u8 (dev s.reads).byte ≠ 0 then
        { s with
          hpc := .h156
          drdy := u8 (dev s.reads).byte
          data_raw_acceleration := raw3_of (dev (s.reads + 1))
          acceleration_mg := acceleration_mg_of k (raw3_of (dev (s.reads + 1)))
          tx_buffer := snprintf s.tx_buffer 1000 (fmt_acceleration libc (acceleration_mg_of k (raw3_of (dev (s.reads + 1)))))
          reads := s.reads + 2
          trace := s.trace ++ acceleration_events k libc s.dev_ctx (u8 (dev s.reads).byte)
            (raw3_of (dev (s.reads + 1))) s.tx_buffer }
      else
        { s with
          hpc := .h156
          drdy := u8 (dev s.reads).byte
          reads := s.reads + 1
          trace := s.trace ++ acceleration_events k libc s.dev_ctx (u8 (dev s.reads).byte)
            (raw3_of (dev (s.reads + 1))) s.tx_buffer } := by
  obtain ⟨pc, hpc, a1, a2, a3, a4, a5, a6, a7, a8, a9, a10, a11, areads, tr⟩ := s
  simp only at h
  subst h
  by_cases hf : u8 (dev areads).byte = 0
  · simp only [acceleration_part, toPc, hstep, State.log, State.answered, hf, acceleration_events,
      reduceCtorEq, ↓reduceIte, ne_eq, not_true_eq_false, List.append_assoc, List.cons_append,
      List.nil_append]
  · simp only [acceleration_part, toPc, hstep, State.log, State.answered, hf, acceleration_events,
      tx_event, raw3_of, acceleration_mg_of, memset3, reduceCtorEq, ↓reduceIte, ne_eq,
      not_false_eq_true, List.append_assoc, List.cons_append, List.nil_append]

theorem lsm6dso16is_angular_rate_part_eq (k : Driver) (libc : Libc) (dev : Nat → Resp)
    (s : State) (h : s.hpc = .h156) :
    angular_rate_part k libc dev s =
      if u8 (dev s.reads).byte ≠ 0 then
        { s with
          hpc := .h174
          drdy := u8 (dev s.reads).byte
          data_raw_angular_rate := raw3_of (dev (s.reads + 1))
          angular_rate_mdps := angular_rate_mdps_of k (raw3_of (dev (s.reads + 1)))
          tx_buffer := snprintf s.tx_buffer 1000 (fmt_angular_rate libc (angular_rate_mdps_of k (raw3_of (dev (s.reads + 1)))))
          reads := s.reads + 2
          trace := s.trace ++ angular_rate_events k libc s.dev_ctx (u8 (dev s.reads).byte)
            (raw3_of (dev (s.reads + 1))) s.tx_buffer }
      else
        { s with
          hpc := .h174
          drdy := u8 (dev s.reads).byte
          reads := s.reads + 1
          trace := s.trace ++ angular_rate_events k libc s.dev_ctx (u8 (dev s.reads).byte)
            (raw3_of (dev (s.reads + 1))) s.tx_buffer } := by
  obtain ⟨pc, hpc, a1, a2, a3, a4, a5, a6, a7, a8, a9, a10, a11, areads, tr⟩ := s
  simp only at h
  subst h
  by_cases hf : u8 (dev areads).byte = 0
  · simp only [angular_rate_part, toPc, hstep, State.log, State.answered, hf, angular_rate_events,
      reduceCtorEq, ↓reduceIte, ne_eq, not_true_eq_false, List.append_assoc, List.cons_append,
      List.nil_append]
  · simp only [angular_rate_part, toPc, hstep, State.log, State.answered, hf, angular_rate_events,
      tx_event, raw3_of, angular_rate_mdps_of, memset3, reduceCtorEq, ↓reduceIte, ne_eq,
      not_false_eq_true, List.append_assoc, List.cons_append, List.nil_append]

theorem lsm6dso16is_temperature_part_eq (k : Driver) (libc : Libc) (dev : Nat → Resp)
    (s : State) (h : s.hpc = .h174) :
    temperature_part k libc dev s =
      if u8 (dev s.reads).byte ≠ 0 then
        { s with
          hpc := .h186
          drdy := u8 (dev s.reads).byte
          data_raw_temperature := i16 (dev (s.reads + 1)).raw
          temperature_degC := k.lsm6dso16is_from_lsb_to_celsius (i16 (dev (s.reads + 1)).raw)
          tx_buffer := snprintf s.tx_buffer 1000 (fmt_temperature libc (k.lsm6dso16is_from_lsb_to_celsius (i16 (dev (s.reads + 1)).raw)))
          reads := s.reads + 2
          trace := s.trace ++ temperature_events k libc s.dev_ctx (u8 (dev s.reads).byte)
            (i16 (dev (s.reads + 1)).raw) s.tx_buffer }
      else
        { s with
          hpc := .h186
          drdy := u8 (dev s.reads).byte
          reads := s.reads + 1
          trace := s.trace ++ temperature_events k libc s.dev_ctx (u8 (dev s.reads).byte)
            (i16 (dev (s.reads + 1)).raw) s.tx_buffer } := by
  obtain ⟨pc, hpc, a1, a2, a3, a4, a5, a6, a7, a8, a9, a10, a11, areads, tr⟩ := s
  simp only at h
  subst h
  by_cases hf : u8 (dev areads).byte = 0
  · simp only [temperature_part, toPc, hstep, State.log, State.answered, hf, temperature_events,
      reduceCtorEq, ↓reduceIte, ne_eq, not_true_eq_false, List.append_assoc, List.cons_append,
      List.nil_append]
  · simp only [temperature_part, toPc, hstep, State.log, State.answered, hf, temperature_events,
      tx_event, raw3_of, memset3, reduceCtorEq, ↓reduceIte, ne_eq,
      not_false_eq_true, List.append_assoc, List.cons_append, List.nil_append]

end lsm6dso16is

namespace iis2dulpx

theorem iis2dulpx_iteration_eq (k : Consts) (libc : Libc) (dev : Nat → Resp) (s : State)
    (h : s.pc = .l189) :
    iteration k libc dev s =
      if 0 < s.drdy_event then
        { s with
          drdy_event := 0
          data_xl := (dev s.reads).xl
          data_temp := (dev (s.reads + 1)).outt
          reads := s.reads + 2
          tx_buffer :=
            snprintf (snprintf s.tx_buffer 1000 (fmt_acceleration libc (dev s.reads).xl.mg))
              1000 (fmt_temp libc (dev (s.reads + 1)).outt.deg_c)
          trace := s.trace ++ iteration_events libc s.dev_ctx s.md s.drdy_event
            (dev s.reads).xl (dev (s.reads + 1)).outt s.tx_buffer }
      else s := by
  obtain ⟨pc, a1, a2, a3, a4, a5, a6, a7, a8, a9, a10, tr⟩ := s
  simp only at h
  subst h
  by_cases hf : 0 < a6
  · simp only [iteration, toHead, step, State.log, hf, iteration_events, tx_event,
      reduceCtorEq, ↓reduceIte, gt_iff_lt, List.append_assoc, List.cons_append,
      List.nil_append]
  · simp only [iteration, toHead, step, State.log, hf, reduceCtorEq, ↓reduceIte, gt_iff_lt]

end iis2dulpx

end STMems
/-! ## C5: the order of the calls of the initialisation -/

namespace STMems

theorem seen_snoc {E : Type} {L : Nat} {p : E → Bool} {l l' : Nat} {tr : List E} {e : E}
    (h : Seen L p l tr) (c : L < l' → L < l ∨ p e = true) : Seen L p l' (tr ++ [e]) := by
  intro hl
  rw [List.any_append]
  rcases c hl with h1 | h1
  · simp [h h1]
  · simp [h1]

theorem seen_move {E : Type} {L : Nat} {p : E → Bool} {l l' : Nat} {tr : List E}
    (h : Seen L p l tr) (c : L < l' → L < l) : Seen L p l' tr :=
  fun hl => h (c hl)

theorem notYet_snoc {E : Type} {M : Nat} {p : E → Bool} {l l' : Nat} {tr : List E} {e : E}
    (h : NotYet M p l tr) (c : l' ≤ M → l ≤ M ∧ p e = false) : NotYet M p l' (tr ++ [e]) := by
  intro hl
  rw [List.any_append]
  obtain ⟨h1, h2⟩ := c hl
  simp [h h1, h2]

theorem notYet_move {E : Type} {M : Nat} {p : E → Bool} {l l' : Nat} {tr : List E}
    (h : NotYet M p l tr) (c : l' ≤ M → l ≤ M) : NotYet M p l' tr :=
  fun hl => h (c hl)

theorem precedes_step {E : Type} {L : Nat} {p q : E → Bool} {l : Nat} {tr : List E} {e : E}
    (h : Precedes p q tr) (hs : Seen L p l tr) (c : q e = true → L < l) :
    Precedes p q (tr ++ [e]) :=
  (precedes_snoc p q tr e).2 ⟨h, fun hq => hs (c hq)⟩

theorem allBefore_step {E : Type} {M : Nat} {p q : E → Bool} {l : Nat} {tr : List E} {e : E}
    (h : AllBefore p q tr) (hn : NotYet M q l tr) (c : p e = true → q e = false ∧ l ≤ M) :
    AllBefore p q (tr ++ [e]) :=
  (allBefore_snoc p q tr e).2 ⟨h, fun hp => ⟨(c hp).1, hn (c hp).2⟩⟩

namespace iis2dulpx

theorem iis2dulpx_orderInv_snoc {l l' : Nat} {tr : List Ev} {e : Ev} (h : OrderInv l tr)
    (c : (163 < l' → 163 < l ∨ e.isIdGet = true) ∧
      (168 < l' → 168 < l ∨ e.isReset = true) ∧
      (185 < l' → 185 < l ∨ e.isRateOrScale = true) ∧
      (l' ≤ 185 → l ≤ 185 ∧ e.isSample = false) ∧
      (e.isReset = true → 163 < l) ∧
      (e.isRateOrScale = true → 168 < l) ∧
      (e.isSample = true → 185 < l) ∧
      (e.isRateOrScale = true → e.isSample = false ∧ l ≤ 185)) :
    OrderInv l' (tr ++ [e]) := by
  obtain ⟨h1, h2, h3, h4, h5, h6, h7, h8⟩ := h
  obtain ⟨c1, c2, c3, c4, c5, c6, c7, c8⟩ := c
  exact ⟨seen_snoc h1 c1, seen_snoc h2 c2, seen_snoc h3 c3, notYet_snoc h4 c4,
    precedes_step h5 h1 c5, precedes_step h6 h2 c6, precedes_step h7 h3 c7,
    allBefore_step h8 h4 c8⟩

theorem iis2dulpx_orderInv_move {l l' : Nat} {tr : List Ev} (h : OrderInv l tr)
    (c : (163 < l' → 163 < l) ∧ (168 < l' → 168 < l) ∧ (185 < l' → 185 < l) ∧
      (l' ≤ 185 → l ≤ 185)) :
    OrderInv l' tr := by
  obtain ⟨h1, h2, h3, h4, h5, h6, h7, h8⟩ := h
  obtain ⟨c1, c2, c3, c4⟩ := c
  exact ⟨seen_move h1 c1, seen_move h2 c2, seen_move h3 c3, notYet_move h4 c4, h5, h6, h7, h8⟩

theorem iis2dulpx_orderInv_act (k : Consts) (libc : Libc) (dev : Nat → Resp) (s : State)
    (a : Act) (h : OrderInv s.pc.line s.trace) :
    OrderInv (act k libc dev s a).pc.line (act k libc dev s a).trace := by
  obtain ⟨pc, a1, a2, a3, a4, a5, a6, a7, a8, a9, a10, tr⟩ := s
  cases a with
  | irq =>
    simp only [act, iis2dulpx_read_data_drdy_handler, State.log]
    exact iis2dulpx_orderInv_snoc h
      (by simp [Ev.isIdGet, Ev.isReset, Ev.isRateOrScale, Ev.isSample])
  | main =>
    cases pc <;> simp only [act, step, State.log] <;> (try split) <;>
      first
      | exact iis2dulpx_orderInv_snoc h
          (by simp [Pc.line, Ev.isIdGet, Ev.isReset, Ev.isRateOrScale, Ev.isSample])
      | exact iis2dulpx_orderInv_move h (by simp [Pc.line])

theorem iis2dulpx_ctxInv_snoc {l l' : Nat} {c : stmdev_ctx_t} {tr : List Ev} {e : Ev}
    (h : CtxInv l c tr) (cnd : 152 < l ∧ (e.ctx = none ∨ e.ctx = some c)) :
    CtxInv l' c (tr ++ [e]) := by
  obtain ⟨h1, h2, h3, h4, h5⟩ := h
  obtain ⟨hl, he⟩ := cnd
  obtain ⟨w, r, m, b⟩ := c
  have e1 := h1 (by omega)
  have e2 := h2 (by omega)
  have e3 := h3 (by omega)
  have e4 := h4 (by omega)
  simp only at e1 e2 e3 e4
  subst e1 e2 e3 e4
  refine ⟨fun _ => rfl, fun _ => rfl, fun _ => rfl, fun _ => rfl, ?_⟩
  rw [List.all_append, h5]
  rcases he with he | he <;> simp [Ev.ctxOk, he, ctx_ready]

theorem iis2dulpx_ctxInv_move {l l' : Nat} {c : stmdev_ctx_t} {tr : List Ev}
    (h : CtxInv l c tr) (hl : 152 < l) : CtxInv l' c tr := by
  obtain ⟨h1, h2, h3, h4, h5⟩ := h
  exact ⟨fun _ => h1 (by omega), fun _ => h2 (by omega), fun _ => h3 (by omega),
    fun _ => h4 (by omega), h5⟩

theorem iis2dulpx_ctxInv_act (k : Consts) (libc : Libc) (dev : Nat → Resp) (s : State)
    (a : Act) (h : CtxInv s.pc.line s.dev_ctx s.trace) :
    CtxInv (act k libc dev s a).pc.line (act k libc dev s a).dev_ctx
      (act k libc dev s a).trace := by
  obtain ⟨pc, a1, a2, a3, a4, a5, a6, a7, a8, a9, a10, tr⟩ := s
  cases a with
  | irq =>
    obtain ⟨h1, h2, h3, h4, h5⟩ := h
    refine ⟨h1, h2, h3, h4, ?_⟩
    simp only [act, iis2dulpx_read_data_drdy_handler, State.log]
    rw [List.all_append, h5]
    rfl
  | main =>
    cases pc <;> simp only [act, step, State.log] <;> (try split) <;>
      first
      | exact iis2dulpx_ctxInv_snoc h (by simp [Pc.line, Ev.ctx])
      | exact iis2dulpx_ctxInv_move h (by simp [Pc.line])
      | (obtain ⟨h1, h2, h3, h4, h5⟩ := h
         refine ⟨?_, ?_, ?_, ?_, h5⟩ <;> simp_all [Pc.line])

theorem iis2dulpx_inv_exec (k : Consts) (libc : Libc) (dev : Nat → Resp) (sch : List Act) :
    ∀ s : State, CtxInv s.pc.line s.dev_ctx s.trace ∧ OrderInv s.pc.line s.trace →
      CtxInv (exec k libc dev s sch).pc.line (exec k libc dev s sch).dev_ctx
          (exec k libc dev s sch).trace ∧
        OrderInv (exec k libc dev s sch).pc.line (exec k libc dev s sch).trace := by
  induction sch with
  | nil => intro s hs; exact hs
  | cons a sch ih =>
    intro s hs
    rw [iis2dulpx_exec_cons]
    exact ih _ ⟨iis2dulpx_ctxInv_act k libc dev s a hs.1,
      iis2dulpx_orderInv_act k libc dev s a hs.2⟩

theorem iis2dulpx_inv_init (g : iis2dulpx_pin_int_route_t) :
    CtxInv (init g).pc.line (init g).dev_ctx (init g).trace ∧
      OrderInv (init g).pc.line (init g).trace := by
  simp [CtxInv, OrderInv, Seen, NotYet, init, Pc.line, precedes_nil, allBefore_nil]

end iis2dulpx

namespace lsm6dso32x

theorem lsm6dso32x_orderInv_snoc {l l' : Nat} {tr : List Ev} {e : Ev} (h : OrderInv l tr)
    (c : (147 < l' → 147 < l ∨ e.isIdGet = true) ∧
      (153 < l' → 153 < l ∨ e.isReset = true) ∧
      (174 < l' → 174 < l ∨ e.isXlRateSet = true) ∧
      (175 < l' → 175 < l ∨ e.isGyRateSet = true) ∧
      (177 < l' → 177 < l ∨ e.isXlScaleSet = true) ∧
      (178 < l' → 178 < l ∨ e.isGyScaleSet = true) ∧
      (l' ≤ 182 → l ≤ 182 ∧ e.isSample = false) ∧
      (e.isReset = true → 147 < l) ∧
      (e.isRateOrScale = true → 153 < l) ∧
      (e.isSample = true → 178 < l) ∧
      (e.isRateOrScale = true → e.isSample = false ∧ l ≤ 182)) :
    OrderInv l' (tr ++ [e]) := by
  obtain ⟨h1, h2, h3, h4, h5, h6, h7, h8, h9, h10, h11, h12, h13, h14⟩ := h
  obtain ⟨c1, c2, c3, c4, c5, c6, c7, c8, c9, c10, c11⟩ := c
  exact ⟨seen_snoc h1 c1, seen_snoc h2 c2, seen_snoc h3 c3, seen_snoc h4 c4, seen_snoc h5 c5,
    seen_snoc h6 c6, notYet_snoc h7 c7, precedes_step h8 h1 c8, precedes_step h9 h2 c9,
    precedes_step h10 h3 (fun hq => by have := c10 hq; omega),
    precedes_step h11 h4 (fun hq => by have := c10 hq; omega),
    precedes_step h12 h5 (fun hq => by have := c10 hq; omega),
    precedes_step h13 h6 c10, allBefore_step h14 h7 c11⟩

theorem lsm6dso32x_orderInv_move {l l' : Nat} {tr : List Ev} (h : OrderInv l tr)
    (c : (147 < l' → 147 < l) ∧ (153 < l' → 153 < l) ∧ (174 < l' → 174 < l) ∧
      (175 < l' → 175 < l) ∧ (177 < l' → 177 < l) ∧ (178 < l' → 178 < l) ∧
      (l' ≤ 182 → l ≤ 182)) :
    OrderInv l' tr := by
  obtain ⟨h1, h2, h3, h4, h5, h6, h7, h8, h9, h10, h11, h12, h13, h14⟩ := h
  obtain ⟨c1, c2, c3, c4, c5, c6, c7⟩ := c
  exact ⟨seen_move h1 c1, seen_move h2 c2, seen_move h3 c3, seen_move h4 c4, seen_move h5 c5,
    seen_move h6 c6, notYet_move h7 c7, h8, h9, h10, h11, h12, h13, h14⟩

theorem lsm6dso32x_orderInv_step (k : Driver) (libc : Libc) (dev : Nat → Resp) (s : State)
    (h : OrderInv s.pc.line s.trace) :
    OrderInv (step k libc dev s).pc.line (step k libc dev s).trace := by
  obtain ⟨pc, a1, a2, a3, a4, a5, a6, a7, a8, a9, a10, a11, a12, a13, tr⟩ := s
  cases pc <;> simp only [step, State.log, State.answered] <;> (try split) <;>
    first
    | exact lsm6dso32x_orderInv_snoc h
        (by simp [Pc.line, Ev.isIdGet, Ev.isReset, Ev.isRateOrScale, Ev.isSample,
          Ev.isXlRateSet, Ev.isGyRateSet, Ev.isXlScaleSet, Ev.isGyScaleSet])
    | exact lsm6dso32x_orderInv_move h (by simp [Pc.line])

theorem lsm6dso32x_ctxInv_snoc {l l' : Nat} {c : stmdev_ctx_t} {tr : List Ev} {e : Ev}
    (h : CtxInv l c tr) (cnd : 141 < l ∧ (e.ctx = none ∨ e.ctx = some c)) :
    CtxInv l' c (tr ++ [e]) := by
  obtain ⟨h1, h2, h3, h4, h5⟩ := h
  obtain ⟨hl, he⟩ := cnd
  obtain ⟨w, r, m, b⟩ := c
  have e1 := h1 (by omega)
  have e2 := h2 (by omega)
  have e3 := h3 (by omega)
  have e4 := h4 (by omega)
  simp only at e1 e2 e3 e4
  subst e1 e2 e3 e4
  refine ⟨fun _ => rfl, fun _ => rfl, fun _ => rfl, fun _ => rfl, ?_⟩
  rw [List.all_append, h5]
  rcases he with he | he <;> simp [Ev.ctxOk, he, ctx_ready]

theorem lsm6dso32x_ctxInv_move {l l' : Nat} {c : stmdev_ctx_t} {tr : List Ev}
    (h : CtxInv l c tr) (hl : 141 < l) : CtxInv l' c tr := by
  obtain ⟨h1, h2, h3, h4, h5⟩ := h
  exact ⟨fun _ => h1 (by omega), fun _ => h2 (by omega), fun _ => h3 (by omega),
    fun _ => h4 (by omega), h5⟩

theorem lsm6dso32x_ctxInv_step (k : Driver) (libc : Libc) (dev : Nat → Resp) (s : State)
    (h : CtxInv s.pc.line s.dev_ctx s.trace) :
    CtxInv (step k libc dev s).pc.line (step k libc dev s).dev_ctx
      (step k libc dev s).trace := by
  obtain ⟨pc, a1, a2, a3, a4, a5, a6, a7, a8, a9, a10, a11, a12, a13, tr⟩ := s
  cases pc <;> simp only [step, State.log, State.answered] <;> (try split) <;>
    first
    | exact lsm6dso32x_ctxInv_snoc h (by simp [Pc.line, Ev.ctx])
    | exact lsm6dso32x_ctxInv_move h (by simp [Pc.line])
    | (obtain ⟨h1, h2, h3, h4, h5⟩ := h
       refine ⟨?_, ?_, ?_, ?_, h5⟩ <;> simp_all [Pc.line])

theorem lsm6dso32x_inv_run (k : Driver) (libc : Libc) (dev : Nat → Resp) (n : Nat) :
    CtxInv (run k libc dev n init).pc.line (run k libc dev n init).dev_ctx
        (run k libc dev n init).trace ∧
      OrderInv (run k libc dev n init).pc.line (run k libc dev n init).trace := by
  induction n with
  | zero =>
    simp [run, CtxInv, OrderInv, Seen, NotYet, init, Pc.line, precedes_nil, allBefore_nil,
      ctx_unset]
  | succ n ih =>
    have h : run k libc dev (n + 1) init = step k libc dev (run k libc dev n init) := by
      simp [run, Function.iterate_succ_apply']
    rw [h]
    exact ⟨lsm6dso32x_ctxInv_step k libc dev _ ih.1, lsm6dso32x_orderInv_step k libc dev _ ih.2⟩

end lsm6dso32x

namespace lsm6dso16is

theorem lsm6dso16is_orderInv_snoc {l l' : Nat} {tr : List Ev} {e : Ev} (h : OrderInv l tr)
    (c : (203 < l' → 203 < l ∨ e.isIdGet = true) ∧
      (209 < l' → 209 < l ∨ e.isReset = true) ∧
      (l' ≤ 234 → l ≤ 234 ∧ e.isSample = false) ∧
      (e.isReset = true → 203 < l) ∧
      (e.isRateOrScale = true → 209 < l)) :
    OrderInv l' (tr ++ [e]) := by
  obtain ⟨h1, h2, h3, h4, h5⟩ := h
  obtain ⟨c1, c2, c3, c4, c5⟩ := c
  exact ⟨seen_snoc h1 c1, seen_snoc h2 c2, notYet_snoc h3 c3, precedes_step h4 h1 c4,
    precedes_step h5 h2 c5⟩

theorem lsm6dso16is_orderInv_move {l l' : Nat} {tr : List Ev} (h : OrderInv l tr)
    (c : (203 < l' → 203 < l) ∧ (209 < l' → 209 < l) ∧ (l' ≤ 234 → l ≤ 234)) :
    OrderInv l' tr := by
  obtain ⟨h1, h2, h3, h4, h5⟩ := h
  obtain ⟨c1, c2, c3⟩ := c
  exact ⟨seen_move h1 c1, seen_move h2 c2, notYet_move h3 c3, h4, h5⟩

theorem lsm6dso16is_orderInv_step (k : Driver) (dev : Nat → Resp) (s : State)
    (h : OrderInv s.pc.line s.trace) :
    OrderInv (step k dev s).pc.line (step k dev s).trace := by
  obtain ⟨pc, hpc, a1, a2, a3, a4, a5, a6, a7, a8, a9, a10, a11, a12, tr⟩ := s
  cases pc <;> simp only [step, State.log, State.answered] <;> (try split) <;>
    first
    | exact lsm6dso16is_orderInv_snoc h
        (by simp [Pc.line, Ev.isIdGet, Ev.isReset, Ev.isRateOrScale, Ev.isSample])
    | exact lsm6dso16is_orderInv_move h (by simp [Pc.line])

theorem lsm6dso16is_ctxInv_snoc {l l' : Nat} {c : stmdev_ctx_t} {tr : List Ev} {e : Ev}
    (h : CtxInv l c tr) (cnd : 197 < l ∧ (e.ctx = none ∨ e.ctx = some c)) :
    CtxInv l' c (tr ++ [e]) := by
  obtain ⟨h1, h2, h3, h4, h5⟩ := h
  obtain ⟨hl, he⟩ := cnd
  obtain ⟨w, r, m, b⟩ := c
  have e1 := h1 (by omega)
  have e2 := h2 (by omega)
  have e3 := h3 (by omega)
  have e4 := h4 (by omega)
  simp only at e1 e2 e3 e4
  subst e1 e2 e3 e4
  refine ⟨fun _ => rfl, fun _ => rfl, fun _ => rfl, fun _ => rfl, ?_⟩
  rw [List.all_append, h5]
  rcases he with he | he <;> simp [Ev.ctxOk, he, ctx_ready]

theorem lsm6dso16is_ctxInv_move {l l' : Nat} {c : stmdev_ctx_t} {tr : List Ev}
    (h : CtxInv l c tr) (hl : 197 < l) : CtxInv l' c tr := by
  obtain ⟨h1, h2, h3, h4, h5⟩ := h
  exact ⟨fun _ => h1 (by omega), fun _ => h2 (by omega), fun _ => h3 (by omega),
    fun _ => h4 (by omega), h5⟩

theorem lsm6dso16is_ctxInv_step (k : Driver) (dev : Nat → Resp) (s : State)
    (h : CtxInv s.pc.line s.dev_ctx s.trace) :
    CtxInv (step k dev s).pc.line (step k dev s).dev_ctx (step k dev s).trace := by
  obtain ⟨pc, hpc, a1, a2, a3, a4, a5, a6, a7, a8, a9, a10, a11, a12, tr⟩ := s
  cases pc <;> simp only [step, State.log, State.answered] <;> (try split) <;>
    first
    | exact lsm6dso16is_ctxInv_snoc h (by simp [Pc.line, Ev.ctx])
    | exact lsm6dso16is_ctxInv_move h (by simp [Pc.line])
    | (obtain ⟨h1, h2, h3, h4, h5⟩ := h
       refine ⟨?_, ?_, ?_, ?_, h5⟩ <;> simp_all [Pc.line])

theorem lsm6dso16is_inv_run (k : Driver) (dev : Nat → Resp) (n : Nat) :
    CtxInv (run k dev n init).pc.line (run k dev n init).dev_ctx (run k dev n init).trace ∧
      OrderInv (run k dev n init).pc.line (run k dev n init).trace := by
  induction n with
  | zero => simp [run, CtxInv, OrderInv, Seen, NotYet, init, Pc.line, precedes_nil]
  | succ n ih =>
    have h : run k dev (n + 1) init = step k dev (run k dev n init) := by
      simp [run, Function.iterate_succ_apply']
    rw [h]
    exact ⟨lsm6dso16is_ctxInv_step k dev _ ih.1, lsm6dso16is_orderInv_step k dev _ ih.2⟩

end lsm6dso16is

/-- C5: in every run of each main function (for iis2dulpx: under any
interleaving with the handler) every call that is given the device
context is given the context with `write_reg`, `read_reg`, `mdelay` and
`handle` set to `platform_write`, `platform_read`, `platform_delay` and
`&SENSOR_BUS`; every device reset has the device-ID read before it; every
output-data-rate and full-scale setting has the reset before it; every
sample read or data-ready poll has each of these settings before it, and
no such setting comes after one. The main function of lsm6dso16is makes no
sample read or poll at all. On the devices `dev_ok` the calls concerned do
occur. -/
theorem c5_initialisation_order
    (k1 : iis2dulpx.Consts) (k2 : lsm6dso32x.Driver) (k3 : lsm6dso16is.Driver) (libc : Libc)
    (d1 : Nat → iis2dulpx.Resp) (d2 : Nat → lsm6dso32x.Resp) (d3 : Nat → lsm6dso16is.Resp)
    (g : iis2dulpx.iis2dulpx_pin_int_route_t) (sch : List iis2dulpx.Act) (n2 n3 : Nat) :
    ((∀ e ∈ (iis2dulpx.exec k1 libc d1 (iis2dulpx.init g) sch).trace,
        ∀ c, e.ctx = some c → c = ctx_ready) ∧
      Precedes iis2dulpx.Ev.isIdGet iis2dulpx.Ev.isReset
        (iis2dulpx.exec k1 libc d1 (iis2dulpx.init g) sch).trace ∧
      Precedes iis2dulpx.Ev.isReset iis2dulpx.Ev.isRateOrScale
        (iis2dulpx.exec k1 libc d1 (iis2dulpx.init g) sch).trace ∧
      Precedes iis2dulpx.Ev.isRateOrScale iis2dulpx.Ev.isSample
        (iis2dulpx.exec k1 libc d1 (iis2dulpx.init g) sch).trace ∧
      AllBefore iis2dulpx.Ev.isRateOrScale iis2dulpx.Ev.isSample
        (iis2dulpx.exec k1 libc d1 (iis2dulpx.init g) sch).trace) ∧
    ((∀ e ∈ (lsm6dso32x.run k2 libc d2 n2 lsm6dso32x.init).trace,
        ∀ c, e.ctx = some c → c = ctx_ready) ∧
      Precedes lsm6dso32x.Ev.isIdGet lsm6dso32x.Ev.isReset
        (lsm6dso32x.run k2 libc d2 n2 lsm6dso32x.init).trace ∧
      Precedes lsm6dso32x.Ev.isReset lsm6dso32x.Ev.isRateOrScale
        (lsm6dso32x.run k2 libc d2 n2 lsm6dso32x.init).trace ∧
      Precedes lsm6dso32x.Ev.isXlRateSet lsm6dso32x.Ev.isSample
        (lsm6dso32x.run k2 libc d2 n2 lsm6dso32x.init).trace ∧
      Precedes lsm6dso32x.Ev.isGyRateSet lsm6dso32x.Ev.isSample
        (lsm6dso32x.run k2 libc d2 n2 lsm6dso32x.init).trace ∧
      Precedes lsm6dso32x.Ev.isXlScaleSet lsm6dso32x.Ev.isSample
        (lsm6dso32x.run k2 libc d2 n2 lsm6dso32x.init).trace ∧
      Precedes lsm6dso32x.Ev.isGyScaleSet lsm6dso32x.Ev.isSample
        (lsm6dso32x.run k2 libc d2 n2 lsm6dso32x.init).trace ∧
      AllBefore lsm6dso32x.Ev.isRateOrScale lsm6dso32x.Ev.isSample
        (lsm6dso32x.run k2 libc d2 n2 lsm6dso32x.init).trace) ∧
    ((∀ e ∈ (lsm6dso16is.run k3 d3 n3 lsm6dso16is.init).trace,
        ∀ c, e.ctx = some c → c = ctx_ready) ∧
      Precedes lsm6dso16is.Ev.isIdGet lsm6dso16is.Ev.isReset
        (lsm6dso16is.run k3 d3 n3 lsm6dso16is.init).trace ∧
      Precedes lsm6dso16is.Ev.isReset lsm6dso16is.Ev.isRateOrScale
        (lsm6dso16is.run k3 d3 n3 lsm6dso16is.init).trace ∧
      ∀ e ∈ (lsm6dso16is.run k3 d3 n3 lsm6dso16is.init).trace, e.isSample = false) ∧
    ((iis2dulpx.exec iis2dulpx.k_ex libc_ex iis2dulpx.dev_ok (iis2dulpx.init ⟨0, 0⟩)
        iis2dulpx.sch_served).trace.any iis2dulpx.Ev.isSample = true ∧
      (lsm6dso32x.run lsm6dso32x.k_ex libc_ex lsm6dso32x.dev_ok 32
        lsm6dso32x.init).trace.any lsm6dso32x.Ev.isSample = true ∧
      (lsm6dso16is.run lsm6dso16is.k_ex lsm6dso16is.dev_ok 16
        lsm6dso16is.init).trace.any lsm6dso16is.Ev.isRateOrScale = true) := by
  have h1 := iis2dulpx.iis2dulpx_inv_exec k1 libc d1 sch (iis2dulpx.init g)
    (iis2dulpx.iis2dulpx_inv_init g)
  have h2 := lsm6dso32x.lsm6dso32x_inv_run k2 libc d2 n2
  have h3 := lsm6dso16is.lsm6dso16is_inv_run k3 d3 n3
  refine ⟨⟨?_, h1.2.2.2.2.2.1, h1.2.2.2.2.2.2.1, h1.2.2.2.2.2.2.2.1, h1.2.2.2.2.2.2.2.2⟩,
    ⟨?_, h2.2.2.2.2.2.2.2.2.1, h2.2.2.2.2.2.2.2.2.2.1, h2.2.2.2.2.2.2.2.2.2.2.1,
      h2.2.2.2.2.2.2.2.2.2.2.2.1, h2.2.2.2.2.2.2.2.2.2.2.2.2.1,
      h2.2.2.2.2.2.2.2.2.2.2.2.2.2.1, h2.2.2.2.2.2.2.2.2.2.2.2.2.2.2⟩,
    ⟨?_, h3.2.2.2.2.1, h3.2.2.2.2.2, ?_⟩, ⟨by decide, by decide, by decide⟩⟩
  · intro e he c hc
    have h := List.all_eq_true.1 h1.1.2.2.2.2 e he
    simpa [iis2dulpx.Ev.ctxOk, hc] using h
  · intro e he c hc
    have h := List.all_eq_true.1 h2.1.2.2.2.2 e he
    simpa [lsm6dso32x.Ev.ctxOk, hc] using h
  · intro e he c hc
    have h := List.all_eq_true.1 h3.1.2.2.2.2 e he
    simpa [lsm6dso16is.Ev.ctxOk, hc] using h
  · intro e he
    have h := h3.2.2.2.1
    have hl : (lsm6dso16is.run k3 d3 n3 lsm6dso16is.init).pc.line ≤ 234 := by
      cases (lsm6dso16is.run k3 d3 n3 lsm6dso16is.init).pc <;> simp [lsm6dso16is.Pc.line]
    have h' := List.any_eq_false.1 (h hl) e he
    simpa using h'

end STMems
/-! ## C6: how long the initialisation takes -/

namespace STMems

namespace iis2dulpx

theorem iis2dulpx_stuck_step (k : Consts) (libc : Libc) (dev : Nat → Resp)
    (hdev : ∀ r, (dev r).sw_reset % 2 = 1) (s : State)
    (h : s.pc.line ≤ 171 ∧ (s.pc = .l171 → s.sw_reset = 1)) :
    (step k libc dev s).pc.line ≤ 171 ∧
      ((step k libc dev s).pc = .l171 → (step k libc dev s).sw_reset = 1) := by
  obtain ⟨pc, a1, a2, a3, a4, a5, a6, a7, a8, a9, a10, tr⟩ := s
  cases pc <;> simp only [step, State.log] <;> (try split) <;> simp_all [Pc.line]

theorem iis2dulpx_stuck (k : Consts) (libc : Libc) (dev : Nat → Resp)
    (hdev : ∀ r, (dev r).sw_reset % 2 = 1) (g : iis2dulpx_pin_int_route_t) (n : Nat) :
    (run k libc dev n (init g)).pc.line ≤ 171 ∧
      ((run k libc dev n (init g)).pc = .l171 → (run k libc dev n (init g)).sw_reset = 1) := by
  induction n with
  | zero => simp [run, init, Pc.line]
  | succ n ih =>
    have h : run k libc dev (n + 1) (init g) = step k libc dev (run k libc dev n (init g)) := by
      simp [run, Function.iterate_succ_apply']
    rw [h]
    exact iis2dulpx_stuck_step k libc dev hdev _ ih

theorem iis2dulpx_poll (k : Consts) (libc : Libc) (dev : Nat → Resp) (p : Nat) :
    ∀ s : State, s.pc = .l170 →
      (∀ j, j < p → (dev (s.reads + j)).sw_reset % 2 ≠ 0) →
      (dev (s.reads + p)).sw_reset % 2 = 0 →
      ∃ evs : List Ev,
        run k libc dev (2 * (p + 1)) s =
          { s with pc := .l174, sw_reset := 0, reads := s.reads + (p + 1)
                   trace := s.trace ++ evs } ∧
        evs.length = p + 1 ∧ ∀ e ∈ evs, ∃ v, e = Ev.status_get s.dev_ctx v := by
  induction p with
  | zero =>
    intro s hpc _ hdone
    obtain ⟨pc, a1, a2, a3, a4, a5, a6, a7, a8, a9, a10, tr⟩ := s
    simp only at hpc hdone
    subst hpc
    have hdone' : (dev a10).sw_reset % 2 = 0 := by simpa using hdone
    refine ⟨[Ev.status_get a4 0], ?_, rfl, ?_⟩
    · simp [run, step, State.log, hdone']
    · intro e he; exact ⟨0, by simpa using he⟩
  | succ p ih =>
    intro s hpc hbusy hdone
    obtain ⟨pc, a1, a2, a3, a4, a5, a6, a7, a8, a9, a10, tr⟩ := s
    simp only at hpc hbusy hdone
    subst hpc
    have h0 : (dev a10).sw_reset % 2 ≠ 0 := by simpa using hbusy 0 (by omega)
    have hsplit : 2 * (p + 1 + 1) = 2 * (p + 1) + 2 := by ring
    have h2 : run k libc dev 2
        ⟨.l170, a1, a2, a3, a4, a5, a6, a7, a8, a9, a10, tr⟩ =
        ⟨.l170, a1, a2, a3, a4, a5, a6, a7, (dev a10).sw_reset % 2, a9, a10 + 1,
          tr ++ [Ev.status_get a4 ((dev a10).sw_reset % 2)]⟩ := by
      simp [run, step, State.log, h0]
    obtain ⟨evs, hrun, hlen, hall⟩ := ih
      ⟨.l170, a1, a2, a3, a4, a5, a6, a7, (dev a10).sw_reset % 2, a9, a10 + 1,
        tr ++ [Ev.status_get a4 ((dev a10).sw_reset % 2)]⟩ rfl
      (fun j hj => by
        have := hbusy (j + 1) (by omega)
        simpa [Nat.add_assoc, Nat.add_comm 1 j] using this)
      (by simpa [Nat.add_assoc, Nat.add_comm 1 p] using hdone)
    refine ⟨Ev.status_get a4 ((dev a10).sw_reset % 2) :: evs, ?_, by simp [hlen], ?_⟩
    · rw [hsplit, iis2dulpx_run_add, h2, hrun]
      simp [Nat.add_assoc, Nat.add_comm 1 (p + 1)]
    · intro e he
      rcases List.mem_cons.1 he with h | h
      · exact ⟨_, h⟩
      · exact hall e h

theorem iis2dulpx_init_done (k : Consts) (libc : Libc) (dev : Nat → Resp)
    (g : iis2dulpx_pin_int_route_t) (p : Nat)
    (hid : u8 (dev 0).id = k.IIS2DULPX_ID)
    (hbusy : ∀ j, j < p → (dev (1 + j)).sw_reset % 2 ≠ 0)
    (hdone : (dev (1 + p)).sw_reset % 2 = 0) :
    (run k libc dev (19 + 2 * p) (init g)).pc = .l189 ∧
    (run k libc dev (19 + 2 * p) (init g)).trace.countP Ev.isDriverCall = 7 + p ∧
    (run k libc dev (19 + 2 * p) (init g)).trace.countP Ev.isDelay = 1 := by
  have h10 : run k libc dev 10 (init g) =
      { init g with pc := .l170, dev_ctx := ctx_ready, id := u8 (dev 0).id, reads := 1
                    trace := id_trace (u8 (dev 0).id) ++
                      [Ev.init_set ctx_ready .IIS2DULPX_RESET] } := by
    simp [run, step, init, State.log, hid, id_trace, ctx_ready, ctx_unset]
  obtain ⟨evs, hrun, hlen, hall⟩ := iis2dulpx_poll k libc dev p
    { init g with pc := .l170, dev_ctx := ctx_ready, id := u8 (dev 0).id, reads := 1
                  trace := id_trace (u8 (dev 0).id) ++
                    [Ev.init_set ctx_ready .IIS2DULPX_RESET] } rfl hbusy hdone
  have hsplit : 19 + 2 * p = 7 + (2 * (p + 1) + 10) := by ring
  have hcall : evs.countP Ev.isDriverCall = evs.length := by
    rw [List.countP_eq_length]
    intro e he
    obtain ⟨v, rfl⟩ := hall e he
    rfl
  have hdelay : evs.countP Ev.isDelay = 0 := by
    rw [List.countP_eq_zero]
    intro e he
    obtain ⟨v, rfl⟩ := hall e he
    simp [Ev.isDelay]
  rw [hsplit, iis2dulpx_run_add, iis2dulpx_run_add, h10, hrun]
  simp [run, step, init, State.log, id_trace, List.countP_append, List.countP_cons,
    Ev.isDriverCall, Ev.isDelay, hcall, hdelay, hlen]
  omega

end iis2dulpx

namespace lsm6dso32x

theorem lsm6dso32x_stuck_step (k : Driver) (libc : Libc) (dev : Nat → Resp)
    (hdev : ∀ r, 0 < r → u8 (dev r).byte ≠ 0) (s : State)
    (h : s.pc.line ≤ 157 ∧ (s.pc = .l157 → s.rst ≠ 0) ∧ (147 < s.pc.line → 0 < s.reads)) :
    (step k libc dev s).pc.line ≤ 157 ∧
      ((step k libc dev s).pc = .l157 → (step k libc dev s).rst ≠ 0) ∧
      (147 < (step k libc dev s).pc.line → 0 < (step k libc dev s).reads) := by
  obtain ⟨pc, a1, a2, a3, a4, a5, a6, a7, a8, a9, a10, a11, a12, a13, tr⟩ := s
  cases pc <;> simp only [step, State.log, State.answered] <;> (try split) <;>
    simp_all [Pc.line]

theorem lsm6dso32x_stuck (k : Driver) (libc : Libc) (dev : Nat → Resp)
    (hdev : ∀ r, 0 < r → u8 (dev r).byte ≠ 0) (n : Nat) :
    (run k libc dev n init).pc.line ≤ 157 ∧
      ((run k libc dev n init).pc = .l157 → (run k libc dev n init).rst ≠ 0) ∧
      (147 < (run k libc dev n init).pc.line → 0 < (run k libc dev n init).reads) := by
  induction n with
  | zero => simp [run, init, Pc.line]
  | succ n ih =>
    have h : run k libc dev (n + 1) init = step k libc dev (run k libc dev n init) := by
      simp [run, Function.iterate_succ_apply']
    rw [h]
    exact lsm6dso32x_stuck_step k libc dev hdev _ ih

theorem lsm6dso32x_poll (k : Driver) (libc : Libc) (dev : Nat → Resp) (p : Nat) :
    ∀ s : State, s.pc = .l156 →
      (∀ j, j < p → u8 (dev (s.reads + j)).byte ≠ 0) →
      u8 (dev (s.reads + p)).byte = 0 →
      ∃ evs : List Ev,
        run k libc dev (2 * (p + 1)) s =
          { s with pc := .l160, rst := 0, reads := s.reads + (p + 1)
                   trace := s.trace ++ evs } ∧
        evs.length = p + 1 ∧ ∀ e ∈ evs, ∃ v, e = Ev.reset_get s.dev_ctx v := by
  induction p with
  | zero =>
    intro s hpc _ hdone
    obtain ⟨pc, a1, a2, a3, a4, a5, a6, a7, a8, a9, a10, a11, a12, a13, tr⟩ := s
    simp only at hpc hdone
    subst hpc
    have hdone' : u8 (dev a13).byte = 0 := by simpa using hdone
    refine ⟨[Ev.reset_get a10 0], ?_, rfl, ?_⟩
    · simp [run, step, State.log, State.answered, hdone']
    · intro e he; exact ⟨0, by simpa using he⟩
  | succ p ih =>
    intro s hpc hbusy hdone
    obtain ⟨pc, a1, a2, a3, a4, a5, a6, a7, a8, a9, a10, a11, a12, a13, tr⟩ := s
    simp only at hpc hbusy hdone
    subst hpc
    have h0 : u8 (dev a13).byte ≠ 0 := by simpa using hbusy 0 (by omega)
    have hsplit : 2 * (p + 1 + 1) = 2 * (p + 1) + 2 := by ring
    have h2 : run k libc dev 2
        ⟨.l156, a1, a2, a3, a4, a5, a6, a7, a8, a9, a10, a11, a12, a13, tr⟩ =
        ⟨.l156, a1, a2, a3, a4, a5, a6, a7, u8 (dev a13).byte, a9, a10, a11, a12, a13 + 1,
          tr ++ [Ev.reset_get a10 (u8 (dev a13).byte)]⟩ := by
      simp [run, step, State.log, State.answered, h0]
    obtain ⟨evs, hrun, hlen, hall⟩ := ih
      ⟨.l156, a1, a2, a3, a4, a5, a6, a7, u8 (dev a13).byte, a9, a10, a11, a12, a13 + 1,
        tr ++ [Ev.reset_get a10 (u8 (dev a13).byte)]⟩ rfl
      (fun j hj => by
        have := hbusy (j + 1) (by omega)
        simpa [Nat.add_assoc, Nat.add_comm 1 j] using this)
      (by simpa [Nat.add_assoc, Nat.add_comm 1 p] using hdone)
    refine ⟨Ev.reset_get a10 (u8 (dev a13).byte) :: evs, ?_, by simp [hlen], ?_⟩
    · rw [hsplit, lsm6dso32x_run_add, h2, hrun]
      simp [Nat.add_assoc, Nat.add_comm 1 (p + 1)]
    · intro e he
      rcases List.mem_cons.1 he with h | h
      · exact ⟨_, h⟩
      · exact hall e h

theorem lsm6dso32x_init_done (k : Driver) (libc : Libc) (dev : Nat → Resp) (p : Nat)
    (hid : u8 (dev 0).byte = k.LSM6DSO32X_ID)
    (hbusy : ∀ j, j < p → u8 (dev (1 + j)).byte ≠ 0)
    (hdone : u8 (dev (1 + p)).byte = 0) :
    (run k libc dev (24 + 2 * p) init).pc = .l188 ∧
    (run k libc dev (24 + 2 * p) init).trace.countP Ev.isDriverCall = 16 + p ∧
    (run k libc dev (24 + 2 * p) init).trace.countP Ev.isDelay = 1 := by
  have h9 : run k libc dev 9 init =
      { init with pc := .l156, dev_ctx := ctx_ready, whoamI := u8 (dev 0).byte, reads := 1
                  trace := id_trace (u8 (dev 0).byte) ++
                    [Ev.reset_set ctx_ready .PROPERTY_ENABLE] } := by
    simp [run, step, init, State.log, State.answered, hid, id_trace, ctx_ready, ctx_unset]
  obtain ⟨evs, hrun, hlen, hall⟩ := lsm6dso32x_poll k libc dev p
    { init with pc := .l156, dev_ctx := ctx_ready, whoamI := u8 (dev 0).byte, reads := 1
                trace := id_trace (u8 (dev 0).byte) ++
                  [Ev.reset_set ctx_ready .PROPERTY_ENABLE] } rfl hbusy hdone
  have hsplit : 24 + 2 * p = 13 + (2 * (p + 1) + 9) := by ring
  have hcall : evs.countP Ev.isDriverCall = evs.length := by
    rw [List.countP_eq_length]
    intro e he
    obtain ⟨v, rfl⟩ := hall e he
    rfl
  have hdelay : evs.countP Ev.isDelay = 0 := by
    rw [List.countP_eq_zero]
    intro e he
    obtain ⟨v, rfl⟩ := hall e he
    simp [Ev.isDelay]
  rw [hsplit, lsm6dso32x_run_add, lsm6dso32x_run_add, h9, hrun]
  simp [run, step, init, State.log, State.answered, id_trace, List.countP_append,
    List.countP_cons, Ev.isDriverCall, Ev.ctx, Ev.isDelay, hcall, hdelay, hlen]
  omega

end lsm6dso32x

namespace lsm6dso16is

theorem lsm6dso16is_init_done (k : Driver) (dev : Nat → Resp)
    (hid : u8 (dev 0).byte = k.LSM6DSO16IS_ID) :
    (run k dev 16 init).pc = .l234 ∧
    (run k dev 16 init).trace.countP Ev.isDriverCall = 8 ∧
    (run k dev 16 init).trace.countP Ev.isDelay = 1 := by
  simp [run, step, init, State.log, State.answered, hid, List.countP_cons,
    Ev.isDriverCall, Ev.ctx, Ev.isDelay]

end lsm6dso16is

/-- C6 as stated fails: on a device that answers the right ID and never
reports the reset finished, the initialisation of the iis2dulpx example
and of the lsm6dso32x example never reaches the sampling loop, whatever
the number of statements executed: both stay in the `do ... while` that
polls the reset flag (lines 169 to 171, and 155 to 157). -/
theorem c6_reset_poll_counterexample :
    (u8 (iis2dulpx.dev_stuck 0).id = iis2dulpx.k_ex.IIS2DULPX_ID ∧
      ¬ ∃ n, (iis2dulpx.run iis2dulpx.k_ex libc_ex iis2dulpx.dev_stuck n
        (iis2dulpx.init ⟨0, 0⟩)).pc = .l189) ∧
    (u8 (lsm6dso32x.dev_stuck 0).byte = lsm6dso32x.k_ex.LSM6DSO32X_ID ∧
      ¬ ∃ n, (lsm6dso32x.run lsm6dso32x.k_ex libc_ex lsm6dso32x.dev_stuck n
        lsm6dso32x.init).pc = .l188) := by
  refine ⟨⟨by decide, ?_⟩, ⟨by decide, ?_⟩⟩
  · rintro ⟨n, hn⟩
    have h := (iis2dulpx.iis2dulpx_stuck iis2dulpx.k_ex libc_ex iis2dulpx.dev_stuck
      (fun r => by simp [iis2dulpx.dev_stuck]) ⟨0, 0⟩ n).1
    rw [hn] at h
    simp [iis2dulpx.Pc.line] at h
  · rintro ⟨n, hn⟩
    have h := (lsm6dso32x.lsm6dso32x_stuck lsm6dso32x.k_ex libc_ex lsm6dso32x.dev_stuck
      (fun r hr => by
        have : r ≠ 0 := by omega
        simp [lsm6dso32x.dev_stuck, this, u8]) n).1
    rw [hn] at h
    simp [lsm6dso32x.Pc.line] at h

/-- C6, amended: on a run in which the device ID matches, the
initialisation of lsm6dso16is reaches its final loop after 16 statements
and 8 driver calls whatever the device returns; the initialisation of
iis2dulpx and of lsm6dso32x polls the reset flag until the device reports
the reset finished, and when the poll number `p + 1` is the first to do
so, it reaches the sampling loop after `19 + 2 p` (resp. `24 + 2 p`)
statements and `7 + p` (resp. `16 + p`) driver calls. In all three the
only `platform_delay` is the one boot delay. On a device that never
reports the reset finished, these two never reach the sampling loop. -/
theorem c6_init_bounded_by_reset_polls
    (k1 : iis2dulpx.Consts) (k2 : lsm6dso32x.Driver) (k3 : lsm6dso16is.Driver) (libc : Libc)
    (d1 : Nat → iis2dulpx.Resp) (d2 : Nat → lsm6dso32x.Resp) (d3 : Nat → lsm6dso16is.Resp)
    (g : iis2dulpx.iis2dulpx_pin_int_route_t) (p1 p2 : Nat)
    (hid1 : u8 (d1 0).id = k1.IIS2DULPX_ID)
    (hbusy1 : ∀ j, j < p1 → (d1 (1 + j)).sw_reset % 2 ≠ 0)
    (hdone1 : (d1 (1 + p1)).sw_reset % 2 = 0)
    (hid2 : u8 (d2 0).byte = k2.LSM6DSO32X_ID)
    (hbusy2 : ∀ j, j < p2 → u8 (d2 (1 + j)).byte ≠ 0)
    (hdone2 : u8 (d2 (1 + p2)).byte = 0)
    (hid3 : u8 (d3 0).byte = k3.LSM6DSO16IS_ID) :
    ((iis2dulpx.run k1 libc d1 (19 + 2 * p1) (iis2dulpx.init g)).pc = .l189 ∧
      (iis2dulpx.run k1 libc d1 (19 + 2 * p1) (iis2dulpx.init g)).trace.countP
        iis2dulpx.Ev.isDriverCall = 7 + p1 ∧
      (iis2dulpx.run k1 libc d1 (19 + 2 * p1) (iis2dulpx.init g)).trace.countP
        iis2dulpx.Ev.isDelay = 1) ∧
    ((lsm6dso32x.run k2 libc d2 (24 + 2 * p2) lsm6dso32x.init).pc = .l188 ∧
      (lsm6dso32x.run k2 libc d2 (24 + 2 * p2) lsm6dso32x.init).trace.countP
        lsm6dso32x.Ev.isDriverCall = 16 + p2 ∧
      (lsm6dso32x.run k2 libc d2 (24 + 2 * p2) lsm6dso32x.init).trace.countP
        lsm6dso32x.Ev.isDelay = 1) ∧
    ((lsm6dso16is.run k3 d3 16 lsm6dso16is.init).pc = .l234 ∧
      (lsm6dso16is.run k3 d3 16 lsm6dso16is.init).trace.countP
        lsm6dso16is.Ev.isDriverCall = 8 ∧
      (lsm6dso16is.run k3 d3 16 lsm6dso16is.init).trace.countP
        lsm6dso16is.Ev.isDelay = 1) ∧
    (∀ d : Nat → iis2dulpx.Resp, (∀ r, (d r).sw_reset % 2 = 1) →
      ∀ n, (iis2dulpx.run k1 libc d n (iis2dulpx.init g)).pc ≠ .l189) ∧
    (∀ d : Nat → lsm6dso32x.Resp, (∀ r, 0 < r → u8 (d r).byte ≠ 0) →
      ∀ n, (lsm6dso32x.run k2 libc d n lsm6dso32x.init).pc ≠ .l188) := by
  refine ⟨iis2dulpx.iis2dulpx_init_done k1 libc d1 g p1 hid1 hbusy1 hdone1,
    lsm6dso32x.lsm6dso32x_init_done k2 libc d2 p2 hid2 hbusy2 hdone2,
    lsm6dso16is.lsm6dso16is_init_done k3 d3 hid3, ?_, ?_⟩
  · intro d hd n hn
    have h := (iis2dulpx.iis2dulpx_stuck k1 libc d hd g n).1
    rw [hn] at h
    simp [iis2dulpx.Pc.line] at h
  · intro d hd n hn
    have h := (lsm6dso32x.lsm6dso32x_stuck k2 libc d hd n).1
    rw [hn] at h
    simp [lsm6dso32x.Pc.line] at h

/-- C6, amended, at a concrete input: the devices `dev_ok`, which report
the reset finished at the third poll. -/
theorem c6_init_bounded_by_reset_polls_witness :
    (iis2dulpx.run iis2dulpx.k_ex libc_ex iis2dulpx.dev_ok 23
      (iis2dulpx.init ⟨0, 0⟩)).pc = .l189 ∧
    (lsm6dso32x.run lsm6dso32x.k_ex libc_ex lsm6dso32x.dev_ok 28 lsm6dso32x.init).pc = .l188 ∧
    (lsm6dso16is.run lsm6dso16is.k_ex lsm6dso16is.dev_ok 16 lsm6dso16is.init).pc = .l234 :=
  have h := c6_init_bounded_by_reset_polls iis2dulpx.k_ex lsm6dso32x.k_ex lsm6dso16is.k_ex
    libc_ex iis2dulpx.dev_ok lsm6dso32x.dev_ok lsm6dso16is.dev_ok ⟨0, 0⟩ 2 2
    (by decide) (by decide) (by decide) (by decide) (by decide) (by decide) (by decide)
  ⟨h.1.1, h.2.1.1, h.2.2.1.1⟩

end STMems
/-! ## C7: the bus callbacks have no error path -/

namespace STMems

theorem platform_write_spec (b : Board) (ADD_N ADD_S : Nat) (hal : Hal) (handle reg : Nat)
    (bufp : List Nat) (len : Nat) :
    (platform_write b ADD_N ADD_S hal handle reg bufp len).2 = 0 ∧
    (platform_write b ADD_N ADD_S hal handle reg bufp len).1.log =
      hal.log ++ write_calls b ADD_N ADD_S handle reg bufp len := by
  obtain ⟨n, s, d⟩ := b
  cases n <;> cases s <;> cases d <;> simp [platform_write, write_calls, Hal.call]

theorem platform_read_spec (b : Board) (ADD_N ADD_S : Nat) (hal : Hal) (handle reg : Nat)
    (bufp : List Nat) (len : Nat) :
    (platform_read b ADD_N ADD_S hal handle reg bufp len).2.2 = 0 ∧
    (platform_read b ADD_N ADD_S hal handle reg bufp len).1.log =
      hal.log ++ read_calls b ADD_N ADD_S handle reg len := by
  obtain ⟨n, s, d⟩ := b
  cases n <;> cases s <;> cases d <;>
    simp [platform_read, read_calls, Hal.call, Hal.recv]

theorem transfer_count (b : Board) (ADD_N ADD_S handle reg : Nat) (bufp : List Nat)
    (len : Nat) :
    (write_calls b ADD_N ADD_S handle reg bufp len).countP HalCall.isTransfer =
      (if b.NUCLEO_F401RE then 1 else if b.STEVAL_MKI109V3 then 2
        else if b.SPC584B_DIS then 1 else 0) ∧
    (read_calls b ADD_N ADD_S handle reg len).countP HalCall.isTransfer =
      (if b.NUCLEO_F401RE then 1 else if b.STEVAL_MKI109V3 then 2
        else if b.SPC584B_DIS then 1 else 0) := by
  obtain ⟨n, s, d⟩ := b
  cases n <;> cases s <;> cases d <;>
    simp [write_calls, read_calls, HalCall.isTransfer, List.countP_cons]

/-- C7: in all three examples and whichever of the three board macros are
defined (none included), `platform_write` and `platform_read` return 0
for every state of the hardware layer (so whatever statuses it returns),
handle, register, buffer and length; the calls they add to the layer's log
are the fixed list of the board, which does not depend on any status: one
I2C transfer under `NUCLEO_F401RE` or `SPC584B_DIS`, the two SPI transfers
(address, data) between the two chip-select writes under
`STEVAL_MKI109V3`, nothing when no board is defined. -/
theorem c7_platform_callbacks_return_zero (k1 : iis2dulpx.Consts) (k2 : lsm6dso32x.Driver)
    (k3 : lsm6dso16is.Driver) (b : Board) (hal : Hal) (handle reg : Nat) (bufp : List Nat)
    (len : Nat) :
    ((iis2dulpx.platform_write k1 b hal handle reg bufp len).2 = 0 ∧
      (iis2dulpx.platform_write k1 b hal handle reg bufp len).1.log = hal.log ++
        write_calls b k1.IIS2DULPX_I2C_ADD_L k1.IIS2DULPX_I2C_ADD_L handle reg bufp len ∧
      (iis2dulpx.platform_read k1 b hal handle reg bufp len).2.2 = 0 ∧
      (iis2dulpx.platform_read k1 b hal handle reg bufp len).1.log = hal.log ++
        read_calls b k1.IIS2DULPX_I2C_ADD_L k1.IIS2DULPX_I2C_ADD_L handle reg len) ∧
    ((lsm6dso32x.platform_write k2 b hal handle reg bufp len).2 = 0 ∧
      (lsm6dso32x.platform_write k2 b hal handle reg bufp len).1.log = hal.log ++
        write_calls b k2.LSM6DSO32X_I2C_ADD_L k2.LSM6DSO32X_I2C_ADD_L handle reg bufp len ∧
      (lsm6dso32x.platform_read k2 b hal handle reg bufp len).2.2 = 0 ∧
      (lsm6dso32x.platform_read k2 b hal handle reg bufp len).1.log = hal.log ++
        read_calls b k2.LSM6DSO32X_I2C_ADD_L k2.LSM6DSO32X_I2C_ADD_L handle reg len) ∧
    ((lsm6dso16is.platform_write k3 b hal handle reg bufp len).2 = 0 ∧
      (lsm6dso16is.platform_write k3 b hal handle reg bufp len).1.log = hal.log ++
        write_calls b k3.LSM6DSO16IS_I2C_ADD_L k3.LSM6DSO16IS_I2C_ADD_H handle reg bufp len ∧
      (lsm6dso16is.platform_read k3 b hal handle reg bufp len).2.2 = 0 ∧
      (lsm6dso16is.platform_read k3 b hal handle reg bufp len).1.log = hal.log ++
        read_calls b k3.LSM6DSO16IS_I2C_ADD_L k3.LSM6DSO16IS_I2C_ADD_H handle reg len) ∧
    (∀ ADD_N ADD_S : Nat,
      (write_calls b ADD_N ADD_S handle reg bufp len).countP HalCall.isTransfer =
        (if b.NUCLEO_F401RE then 1 else if b.STEVAL_MKI109V3 then 2
          else if b.SPC584B_DIS then 1 else 0) ∧
      (read_calls b ADD_N ADD_S handle reg len).countP HalCall.isTransfer =
        (if b.NUCLEO_F401RE then 1 else if b.STEVAL_MKI109V3 then 2
          else if b.SPC584B_DIS then 1 else 0)) := by
  refine ⟨⟨?_, ?_, ?_, ?_⟩, ⟨?_, ?_, ?_, ?_⟩, ⟨?_, ?_, ?_, ?_⟩, fun n s => ?_⟩
  · exact (platform_write_spec b _ _ hal handle reg bufp len).1
  · exact (platform_write_spec b _ _ hal handle reg bufp len).2
  · exact (platform_read_spec b _ _ hal handle reg bufp len).1
  · exact (platform_read_spec b _ _ hal handle reg bufp len).2
  · exact (platform_write_spec b _ _ hal handle reg bufp len).1
  · exact (platform_write_spec b _ _ hal handle reg bufp len).2
  · exact (platform_read_spec b _ _ hal handle reg bufp len).1
  · exact (platform_read_spec b _ _ hal handle reg bufp len).2
  · exact (platform_write_spec b _ _ hal handle reg bufp len).1
  · exact (platform_write_spec b _ _ hal handle reg bufp len).2
  · exact (platform_read_spec b _ _ hal handle reg bufp len).1
  · exact (platform_read_spec b _ _ hal handle reg bufp len).2
  · exact transfer_count b n s handle reg bufp len

end STMems
/-! ## C8: the data-ready flag as a signal between handler and main loop -/

namespace STMems

theorem getElem?_cons_iff {E : Type} (a : E) (tr : List E) (x : E) (j : Nat) :
    (a :: tr)[j]? = some x ↔ (j = 0 ∧ x = a) ∨ (∃ m, j = m + 1 ∧ tr[m]? = some x) := by
  cases j with
  | zero => simp [eq_comm]
  | succ m => simp

theorem followedBy_iff {E : Type} (p q : E → Bool) (tr : List E) :
    FollowedBy p q tr ↔ followedByB p q tr = true := by
  induction tr with
  | nil => simp [FollowedBy, followedByB]
  | cons a tr ih =>
    simp only [followedByB, Bool.and_eq_true, Bool.or_eq_true, Bool.not_eq_true',
      List.any_eq_true, ← ih]
    constructor
    · intro h
      refine ⟨?_, ?_⟩
      · cases hp : p a with
        | false => exact Or.inl rfl
        | true =>
          obtain ⟨j, e', hj, he', hq⟩ := h 0 a (by simp) hp
          rcases (getElem?_cons_iff a tr e' j).1 he' with ⟨h0, _⟩ | ⟨m, _, hm⟩
          · omega
          · exact Or.inr ⟨e', List.mem_iff_getElem?.2 ⟨m, hm⟩, hq⟩
      · intro i e he hp
        obtain ⟨j, e', hj, he', hq⟩ := h (i + 1) e (by simpa using he) hp
        rcases (getElem?_cons_iff a tr e' j).1 he' with ⟨h0, _⟩ | ⟨m, hjm, hm⟩
        · omega
        · exact ⟨m, e', by omega, hm, hq⟩
    · rintro ⟨h1, h2⟩ i e he hp
      rcases (getElem?_cons_iff a tr e i).1 he with ⟨_, hea⟩ | ⟨m, him, hm⟩
      · subst hea
        rcases h1 with h1 | ⟨e', hmem, hq⟩
        · rw [h1] at hp; cases hp
        · obtain ⟨m, hm⟩ := List.mem_iff_getElem?.1 hmem
          exact ⟨m + 1, e', by omega, by simpa using hm, hq⟩
      · obtain ⟨j, e', hj, he', hq⟩ := h2 m e hm hp
        exact ⟨j + 1, e', by omega, by simpa using he', hq⟩

theorem followedByB_snoc {E : Type} (p q : E → Bool) (tr : List E) (x : E) :
    followedByB p q (tr ++ [x]) = (!p x && (q x || followedByB p q tr)) := by
  induction tr with
  | nil => simp [followedByB]
  | cons a tr ih =>
    have h1 : followedByB p q ((a :: tr) ++ [x]) =
        ((!p a || (tr ++ [x]).any q) && followedByB p q (tr ++ [x])) := rfl
    have h2 : followedByB p q (a :: tr) = ((!p a || tr.any q) && followedByB p q tr) := rfl
    rw [h1, h2, ih, List.any_append]
    simp only [List.any_cons, List.any_nil, Bool.or_false]
    cases p a <;> cases p x <;> cases q x <;> cases tr.any q <;>
      cases followedByB p q tr <;> rfl

namespace iis2dulpx

/-- The invariant behind the amended C8: an unserved invocation of the
handler (one outside the window of lines 190 to 192) keeps `drdy_event`
at 1, and there is none while the main function stands on line 192. -/
theorem iis2dulpx_signal_inv_act (k : Consts) (libc : Libc) (dev : Nat → Resp) (s : State)
    (a : Act)
    (h : (followedByB Ev.isHandlerOutside192 Ev.isXlGet s.trace = false → s.drdy_event = 1) ∧
      (s.pc = .l192 → followedByB Ev.isHandlerOutside192 Ev.isXlGet s.trace = true)) :
    (followedByB Ev.isHandlerOutside192 Ev.isXlGet (act k libc dev s a).trace = false →
        (act k libc dev s a).drdy_event = 1) ∧
      ((act k libc dev s a).pc = .l192 →
        followedByB Ev.isHandlerOutside192 Ev.isXlGet (act k libc dev s a).trace = true) := by
  obtain ⟨pc, a1, a2, a3, a4, a5, a6, a7, a8, a9, a10, tr⟩ := s
  cases a with
  | irq =>
    cases pc <;>
      simp_all [act, iis2dulpx_read_data_drdy_handler, State.log, followedByB_snoc,
        Ev.isHandlerOutside192, Ev.isXlGet]
  | main =>
    cases pc <;> simp only [act, step, State.log] <;> (try split) <;>
      simp_all [followedByB_snoc, Ev.isHandlerOutside192, Ev.isXlGet]

theorem iis2dulpx_signal_inv (k : Consts) (libc : Libc) (dev : Nat → Resp) (sch : List Act) :
    ∀ s : State,
      ((followedByB Ev.isHandlerOutside192 Ev.isXlGet s.trace = false → s.drdy_event = 1) ∧
        (s.pc = .l192 → followedByB Ev.isHandlerOutside192 Ev.isXlGet s.trace = true)) →
      ((followedByB Ev.isHandlerOutside192 Ev.isXlGet (exec k libc dev s sch).trace = false →
          (exec k libc dev s sch).drdy_event = 1) ∧
        ((exec k libc dev s sch).pc = .l192 →
          followedByB Ev.isHandlerOutside192 Ev.isXlGet (exec k libc dev s sch).trace = true)) := by
  induction sch with
  | nil => intro s hs; exact hs
  | cons a sch ih =>
    intro s hs
    rw [iis2dulpx_exec_cons]
    exact ih _ (iis2dulpx_signal_inv_act k libc dev s a hs)

end iis2dulpx

/-- C8 as stated fails: on the schedule `sch_lost` the main loop is back at
its test on line 189 with `drdy_event` equal to 0, and the handler
invocation that interrupted line 192 (after the read of line 190, before
the clearing) is not followed by any read of the acceleration sample. -/
theorem c8_event_lost_counterexample :
    (iis2dulpx.exec iis2dulpx.k_ex libc_ex iis2dulpx.dev_ok (iis2dulpx.init ⟨0, 0⟩)
        iis2dulpx.sch_lost).pc = .l189 ∧
    (iis2dulpx.exec iis2dulpx.k_ex libc_ex iis2dulpx.dev_ok (iis2dulpx.init ⟨0, 0⟩)
        iis2dulpx.sch_lost).drdy_event = 0 ∧
    ¬ FollowedBy iis2dulpx.Ev.isHandler iis2dulpx.Ev.isXlGet
      (iis2dulpx.exec iis2dulpx.k_ex libc_ex iis2dulpx.dev_ok (iis2dulpx.init ⟨0, 0⟩)
        iis2dulpx.sch_lost).trace := by
  rw [followedBy_iff]
  decide

/-- C8, amended: in every interleaving of handler invocations with the
statements of the main function, whenever the main loop is at its test on
line 189 with `drdy_event` equal to 0, every handler invocation so far
that did not interrupt the main function on line 192 (between the read of
line 190 and the clearing) has been followed by a later call of
`iis2dulpx_xl_data_get`. -/
theorem c8_no_event_lost_outside_window (k : iis2dulpx.Consts) (libc : Libc)
    (dev : Nat → iis2dulpx.Resp) (g : iis2dulpx.iis2dulpx_pin_int_route_t)
    (sch : List iis2dulpx.Act)
    (_hpc : (iis2dulpx.exec k libc dev (iis2dulpx.init g) sch).pc = .l189)
    (hflag : (iis2dulpx.exec k libc dev (iis2dulpx.init g) sch).drdy_event = 0) :
    FollowedBy iis2dulpx.Ev.isHandlerOutside192 iis2dulpx.Ev.isXlGet
      (iis2dulpx.exec k libc dev (iis2dulpx.init g) sch).trace := by
  have h := (iis2dulpx.iis2dulpx_signal_inv k libc dev sch (iis2dulpx.init g)
    (by simp [iis2dulpx.init, followedByB])).1
  rw [followedBy_iff]
  cases hb : followedByB iis2dulpx.Ev.isHandlerOutside192 iis2dulpx.Ev.isXlGet
      (iis2dulpx.exec k libc dev (iis2dulpx.init g) sch).trace with
  | true => rfl
  | false => have h1 := h hb; omega

/-- C8, amended, at a concrete input: on the schedule `sch_served` the
handler interrupts line 189, the loop is back at its test with the flag
cleared, and the invocation is followed by a read. -/
theorem c8_no_event_lost_outside_window_witness :
    iis2dulpx.Ev.handler .l189 ∈
      (iis2dulpx.exec iis2dulpx.k_ex libc_ex iis2dulpx.dev_ok (iis2dulpx.init ⟨0, 0⟩)
        iis2dulpx.sch_served).trace ∧
    FollowedBy iis2dulpx.Ev.isHandlerOutside192 iis2dulpx.Ev.isXlGet
      (iis2dulpx.exec iis2dulpx.k_ex libc_ex iis2dulpx.dev_ok (iis2dulpx.init ⟨0, 0⟩)
        iis2dulpx.sch_served).trace :=
  ⟨by decide,
    c8_no_event_lost_outside_window iis2dulpx.k_ex libc_ex iis2dulpx.dev_ok ⟨0, 0⟩
      iis2dulpx.sch_served (by decide) (by decide)⟩

end STMems
/-! ## Deciding the order of a list of calls -/

namespace STMems

theorem precedes_iff {E : Type} (p q : E → Bool) (tr : List E) :
    Precedes p q tr ↔ precedesB p q tr = true := by
  induction tr with
  | nil => simp [Precedes, precedesB]
  | cons a tr ih =>
    simp only [precedesB, Bool.and_eq_true, Bool.or_eq_true, Bool.not_eq_true', ← ih]
    constructor
    · intro h
      refine ⟨?_, ?_⟩
      · cases hq : q a with
        | false => rfl
        | true =>
          obtain ⟨i, e', hi, _, _⟩ := h 0 a (by simp) hq
          omega
      · cases hp : p a with
        | true => exact Or.inl rfl
        | false =>
          refine Or.inr ?_
          intro j e he hq
          obtain ⟨i, e', hi, he', hp'⟩ := h (j + 1) e (by simpa using he) hq
          rcases (getElem?_cons_iff a tr e' i).1 he' with ⟨_, hea⟩ | ⟨m, him, hm⟩
          · subst hea; rw [hp] at hp'; cases hp'
          · exact ⟨m, e', by omega, hm, hp'⟩
    · rintro ⟨hqa, h2⟩ j e he hq
      rcases (getElem?_cons_iff a tr e j).1 he with ⟨_, hea⟩ | ⟨m, hjm, hm⟩
      · subst hea; rw [hqa] at hq; cases hq
      · rcases h2 with hp | h2
        · exact ⟨0, a, by omega, by simp, hp⟩
        · obtain ⟨i, e', hi, he', hp'⟩ := h2 m e hm hq
          exact ⟨i + 1, e', by omega, by simpa using he', hp'⟩

theorem precedes_append {E : Type} (p q : E → Bool) (a b : List E)
    (ha : Precedes p q a) (hb : Precedes p q b) : Precedes p q (a ++ b) := by
  intro j e he hq
  rcases Nat.lt_or_ge j a.length with hj | hj
  · rw [List.getElem?_append_left hj] at he
    obtain ⟨i, e', hi, he', hp⟩ := ha j e he hq
    exact ⟨i, e', hi, by rw [List.getElem?_append_left (by omega)]; exact he', hp⟩
  · rw [List.getElem?_append_right hj] at he
    obtain ⟨i, e', hi, he', hp⟩ := hb _ e he hq
    exact ⟨i + a.length, e', by omega,
      by rw [List.getElem?_append_right (by omega)]; simpa using he', hp⟩

theorem wbr_append {E L : Type} (reads writes : E → List L) (a b : List E)
    (ha : WrittenBeforeRead reads writes a) (hb : WrittenBeforeRead reads writes b) :
    WrittenBeforeRead reads writes (a ++ b) := by
  intro j e l he hl
  rcases Nat.lt_or_ge j a.length with hj | hj
  · rw [List.getElem?_append_left hj] at he
    obtain ⟨i, e', hi, he', hw⟩ := ha j e l he hl
    exact ⟨i, e', hi, by rw [List.getElem?_append_left (by omega)]; exact he', hw⟩
  · rw [List.getElem?_append_right hj] at he
    obtain ⟨i, e', hi, he', hw⟩ := hb _ e l he hl
    exact ⟨i + a.length, e', by omega,
      by rw [List.getElem?_append_right (by omega)]; simpa using he', hw⟩

theorem wbrB_sound {E L : Type} [DecidableEq L] (reads writes : E → List L) (tr : List E) :
    ∀ written : List L, wbrB reads writes written tr = true →
      ∀ (i : Nat) (e : E) (l : L), tr[i]? = some e → l ∈ reads e →
        l ∈ written ∨ ∃ (j : Nat) (e' : E), j < i ∧ tr[j]? = some e' ∧ l ∈ writes e' := by
  induction tr with
  | nil => intro w _ i e l he; simp at he
  | cons a tr ih =>
    intro w hw i e l he hl
    simp only [wbrB, Bool.and_eq_true, List.all_eq_true, decide_eq_true_eq] at hw
    rcases (getElem?_cons_iff a tr e i).1 he with ⟨_, hea⟩ | ⟨m, him, hm⟩
    · subst hea
      exact Or.inl (hw.1 l hl)
    · rcases ih _ hw.2 m e l hm hl with h | ⟨j, e', hj, he', hw'⟩
      · rcases List.mem_append.1 h with h | h
        · exact Or.inl h
        · exact Or.inr ⟨0, a, by omega, by simp, h⟩
      · exact Or.inr ⟨j + 1, e', by omega, by simpa using he', hw'⟩

theorem wbr_of_wbrB {E L : Type} [DecidableEq L] (reads writes : E → List L) (tr : List E)
    (h : wbrB reads writes [] tr = true) : WrittenBeforeRead reads writes tr := by
  intro i e l he hl
  rcases wbrB_sound reads writes tr [] h i e l he hl with h | h
  · simp at h
  · exact h

end STMems
/-! ## C4: reading, converting, formatting and sending are gated by data-ready -/

namespace STMems

namespace lsm6dso32x

theorem lsm6dso32x_acceleration_part_gated (k : Driver) (libc : Libc) (dev : Nat → Resp) (s : State)
    (h : s.pc = .l188) :
    ∃ evs, (acceleration_part k libc dev s).trace = s.trace ++ evs ∧
      GatedBy (u8 (dev s.reads).byte) .acceleration evs ∧
      (u8 (dev s.reads).byte = 0 → Untouched s (acceleration_part k libc dev s)) := by
  refine ⟨acceleration_events k libc s.dev_ctx (u8 (dev s.reads).byte) (raw3_of (dev (s.reads + 1))) s.tx_buffer,
    ?_, ?_, ?_⟩
  · rw [lsm6dso32x_acceleration_part_eq k libc dev s h]
    split <;> rfl
  · by_cases hf : u8 (dev s.reads).byte = 0
    · simp [GatedBy, acceleration_events, hf, Ev.isFlagGet, Ev.isRawGet, Ev.isConv, Ev.isSnprintf,
        Ev.isTx]
    · simp [GatedBy, acceleration_events, hf, Ev.isFlagGet, Ev.isRawGet, Ev.isConv, Ev.isSnprintf,
        Ev.isTx, tx_event, List.countP_cons]
  · intro hf
    rw [lsm6dso32x_acceleration_part_eq k libc dev s h]
    simp [hf, Untouched]

theorem lsm6dso32x_angular_rate_part_gated (k : Driver) (libc : Libc) (dev : Nat → Resp) (s : State)
    (h : s.pc = .l206) :
    ∃ evs, (angular_rate_part k libc dev s).trace = s.trace ++ evs ∧
      GatedBy (u8 (dev s.reads).byte) .angular_rate evs ∧
      (u8 (dev s.reads).byte = 0 → Untouched s (angular_rate_part k libc dev s)) := by
  refine ⟨angular_rate_events k libc s.dev_ctx (u8 (dev s.reads).byte) (raw3_of (dev (s.reads + 1))) s.tx_buffer,
    ?_, ?_, ?_⟩
  · rw [lsm6dso32x_angular_rate_part_eq k libc dev s h]
    split <;> rfl
  · by_cases hf : u8 (dev s.reads).byte = 0
    · simp [GatedBy, angular_rate_events, hf, Ev.isFlagGet, Ev.isRawGet, Ev.isConv, Ev.isSnprintf,
        Ev.isTx]
    · simp [GatedBy, angular_rate_events, hf, Ev.isFlagGet, Ev.isRawGet, Ev.isConv, Ev.isSnprintf,
        Ev.isTx, tx_event, List.countP_cons]
  · intro hf
    rw [lsm6dso32x_angular_rate_part_eq k libc dev s h]
    simp [hf, Untouched]

theorem lsm6dso32x_temperature_part_gated (k : Driver) (libc : Libc) (dev : Nat → Resp) (s : State)
    (h : s.pc = .l224) :
    ∃ evs, (temperature_part k libc dev s).trace = s.trace ++ evs ∧
      GatedBy (u8 (dev s.reads).byte) .temperature evs ∧
      (u8 (dev s.reads).byte = 0 → Untouched s (temperature_part k libc dev s)) := by
  refine ⟨temperature_events k libc s.dev_ctx (u8 (dev s.reads).byte) (i16 (dev (s.reads + 1)).raw) s.tx_buffer,
    ?_, ?_, ?_⟩
  · rw [lsm6dso32x_temperature_part_eq k libc dev s h]
    split <;> rfl
  · by_cases hf : u8 (dev s.reads).byte = 0
    · simp [GatedBy, temperature_events, hf, Ev.isFlagGet, Ev.isRawGet, Ev.isConv, Ev.isSnprintf,
        Ev.isTx]
    · simp [GatedBy, temperature_events, hf, Ev.isFlagGet, Ev.isRawGet, Ev.isConv, Ev.isSnprintf,
        Ev.isTx, tx_event, List.countP_cons]
  · intro hf
    rw [lsm6dso32x_temperature_part_eq k libc dev s h]
    simp [hf, Untouched]

theorem lsm6dso32x_iteration_idle (k : Driver) (libc : Libc) (dev : Nat → Resp) (s : State)
    (h : s.pc = .l188) (h1 : u8 (dev s.reads).byte = 0) (h2 : u8 (dev (s.reads + 1)).byte = 0)
    (h3 : u8 (dev (s.reads + 2)).byte = 0) :
    iteration k libc dev s =
      { s with
        reg := 0
        reads := s.reads + 3
        trace := s.trace ++
          [Ev.xl_flag_data_ready_get s.dev_ctx 0, Ev.gy_flag_data_ready_get s.dev_ctx 0,
           Ev.temp_flag_data_ready_get s.dev_ctx 0] } := by
  obtain ⟨pc, a1, a2, a3, a4, a5, a6, a7, a8, a9, a10, a11, a12, areads, tr⟩ := s
  simp only at h h1 h2 h3
  subst h
  simp only [iteration]
  rw [lsm6dso32x_acceleration_part_eq _ _ _ _ rfl]
  simp only [h1, ne_eq, not_true_eq_false, ↓reduceIte]
  rw [lsm6dso32x_angular_rate_part_eq _ _ _ _ rfl]
  simp only [h2, ne_eq, not_true_eq_false, ↓reduceIte]
  rw [lsm6dso32x_temperature_part_eq _ _ _ _ rfl]
  simp only [h3, ne_eq, not_true_eq_false, ↓reduceIte, Nat.add_assoc, Nat.reduceAdd,
    acceleration_events, angular_rate_events, temperature_events, List.append_assoc,
    List.cons_append, List.nil_append]

end lsm6dso32x

namespace lsm6dso16is

theorem lsm6dso16is_acceleration_part_gated (k : Driver) (libc : Libc) (dev : Nat → Resp) (s : State)
    (h : s.hpc = .h138) :
    ∃ evs, (acceleration_part k libc dev s).trace = s.trace ++ evs ∧
      GatedBy (u8 (dev s.reads).byte) .acceleration evs ∧
      (u8 (dev s.reads).byte = 0 → Untouched s (acceleration_part k libc dev s)) := by
  refine ⟨acceleration_events k libc s.dev_ctx (u8 (dev s.reads).byte) (raw3_of (dev (s.reads + 1))) s.tx_buffer,
    ?_, ?_, ?_⟩
  · rw [lsm6dso16is_acceleration_part_eq k libc dev s h]
    split <;> rfl
  · by_cases hf : u8 (dev s.reads).byte = 0
    · simp [GatedBy, acceleration_events, hf, Ev.isFlagGet, Ev.isRawGet, Ev.isConv, Ev.isSnprintf,
        Ev.isTx]
    · simp [GatedBy, acceleration_events, hf, Ev.isFlagGet, Ev.isRawGet, Ev.isConv, Ev.isSnprintf,
        Ev.isTx, tx_event, List.countP_cons]
  · intro hf
    rw [lsm6dso16is_acceleration_part_eq k libc dev s h]
    simp [hf, Untouched]

theorem lsm6dso16is_angular_rate_part_gated (k : Driver) (libc : Libc) (dev : Nat → Resp) (s : State)
    (h : s.hpc = .h156) :
    ∃ evs, (angular_rate_part k libc dev s).trace = s.trace ++ evs ∧
      GatedBy (u8 (dev s.reads).byte) .angular_rate evs ∧
      (u8 (dev s.reads).byte = 0 → Untouched s (angular_rate_part k libc dev s)) := by
  refine ⟨angular_rate_events k libc s.dev_ctx (u8 (dev s.reads).byte) (raw3_of (dev (s.reads + 1))) s.tx_buffer,
    ?_, ?_, ?_⟩
  · rw [lsm6dso16is_angular_rate_part_eq k libc dev s h]
    split <;> rfl
  · by_cases hf : u8 (dev s.reads).byte = 0
    · simp [GatedBy, angular_rate_events, hf, Ev.isFlagGet, Ev.isRawGet, Ev.isConv, Ev.isSnprintf,
        Ev.isTx]
    · simp [GatedBy, angular_rate_events, hf, Ev.isFlagGet, Ev.isRawGet, Ev.isConv, Ev.isSnprintf,
        Ev.isTx, tx_event, List.countP_cons]
  · intro hf
    rw [lsm6dso16is_angular_rate_part_eq k libc dev s h]
    simp [hf, Untouched]

theorem lsm6dso16is_temperature_part_gated (k : Driver) (libc : Libc) (dev : Nat → Resp) (s : State)
    (h : s.hpc = .h174) :
    ∃ evs, (temperature_part k libc dev s).trace = s.trace ++ evs ∧
      GatedBy (u8 (dev s.reads).byte) .temperature evs ∧
      (u8 (dev s.reads).byte = 0 → Untouched s (temperature_part k libc dev s)) := by
  refine ⟨temperature_events k libc s.dev_ctx (u8 (dev s.reads).byte) (i16 (dev (s.reads + 1)).raw) s.tx_buffer,
    ?_, ?_, ?_⟩
  · rw [lsm6dso16is_temperature_part_eq k libc dev s h]
    split <;> rfl
  · by_cases hf : u8 (dev s.reads).byte = 0
    · simp [GatedBy, temperature_events, hf, Ev.isFlagGet, Ev.isRawGet, Ev.isConv, Ev.isSnprintf,
        Ev.isTx]
    · simp [GatedBy, temperature_events, hf, Ev.isFlagGet, Ev.isRawGet, Ev.isConv, Ev.isSnprintf,
        Ev.isTx, tx_event, List.countP_cons]
  · intro hf
    rw [lsm6dso16is_temperature_part_eq k libc dev s h]
    simp [hf, Untouched]

theorem lsm6dso16is_handler_idle (k : Driver) (libc : Libc) (dev : Nat → Resp) (s : State)
    (h1 : u8 (dev s.reads).byte = 0) (h2 : u8 (dev (s.reads + 1)).byte = 0)
    (h3 : u8 (dev (s.reads + 2)).byte = 0) :
    lsm6dso16is_read_data_drdy_handler k libc dev s =
      { s with
        hpc := .h186
        drdy := 0
        reads := s.reads + 3
        trace := s.trace ++
          [Ev.xl_flag_data_ready_get s.dev_ctx 0, Ev.gy_flag_data_ready_get s.dev_ctx 0,
           Ev.temp_flag_data_ready_get s.dev_ctx 0] } := by
  obtain ⟨pc, hpc, a1, a2, a3, a4, a5, a6, a7, a8, a9, a10, a11, areads, tr⟩ := s
  simp only at h1 h2 h3
  simp only [lsm6dso16is_read_data_drdy_handler]
  rw [lsm6dso16is_acceleration_part_eq _ _ _ _ rfl]
  simp only [h1, ne_eq, not_true_eq_false, ↓reduceIte]
  rw [lsm6dso16is_angular_rate_part_eq _ _ _ _ rfl]
  simp only [h2, ne_eq, not_true_eq_false, ↓reduceIte]
  rw [lsm6dso16is_temperature_part_eq _ _ _ _ rfl]
  simp only [h3, ne_eq, not_true_eq_false, ↓reduceIte, Nat.add_assoc, Nat.reduceAdd,
    acceleration_events, angular_rate_events, temperature_events, List.append_assoc,
    List.cons_append, List.nil_append]

end lsm6dso16is

namespace iis2dulpx

theorem iis2dulpx_iteration_gated (k : Consts) (libc : Libc) (dev : Nat → Resp) (s : State)
    (h : s.pc = .l189) :
    ∃ evs, (iteration k libc dev s).trace = s.trace ++ evs ∧
      (evs.any Ev.isXlGet = true ↔ 0 < s.drdy_event) ∧
      (evs.any Ev.isOuttGet = true ↔ 0 < s.drdy_event) ∧
      evs.countP Ev.isTx = (if 0 < s.drdy_event then 2 else 0) ∧
      (s.drdy_event = 0 → iteration k libc dev s = s) := by
  refine ⟨iteration_events libc s.dev_ctx s.md s.drdy_event (dev s.reads).xl
    (dev (s.reads + 1)).outt s.tx_buffer, ?_, ?_, ?_, ?_, ?_⟩
  · rw [iis2dulpx_iteration_eq k libc dev s h]
    split
    · rfl
    · rename_i hf
      simp [iteration_events, hf]
  · by_cases hf : 0 < s.drdy_event <;> simp [iteration_events, hf, Ev.isXlGet, tx_event]
  · by_cases hf : 0 < s.drdy_event <;> simp [iteration_events, hf, Ev.isOuttGet, tx_event]
  · by_cases hf : 0 < s.drdy_event <;>
      simp [iteration_events, hf, Ev.isTx, tx_event, List.countP_cons]
  · intro hf
    rw [iis2dulpx_iteration_eq k libc dev s h]
    simp [hf]

end iis2dulpx

/-- C4: in the loop of `lsm6dso32x_offset` and in
`lsm6dso16is_read_data_drdy_handler`, each of the three passes
(acceleration, angular rate, temperature) polls its data-ready flag once,
and its raw-get, its conversions with the update of the converted values,
its formatting into `tx_buffer` and its `tx_com` call happen exactly when
the flag returned is not zero; when it is zero the pass leaves the sample
and text buffers as they are. In the loop of `iis2dulpx_read_data_drdy`,
`iis2dulpx_xl_data_get`, `iis2dulpx_outt_data_get` and the two `tx_com`
calls happen exactly when `drdy_event > 0` at the loop head, and otherwise
the iteration changes nothing. An iteration, or a handler invocation, in
which all three flags are zero leaves the buffers unchanged and transmits
nothing. -/
theorem c4_sampling_gated_by_data_ready
    (k1 : iis2dulpx.Consts) (k2 : lsm6dso32x.Driver) (k3 : lsm6dso16is.Driver) (libc : Libc)
    (d1 : Nat → iis2dulpx.Resp) (d2 : Nat → lsm6dso32x.Resp) (d3 : Nat → lsm6dso16is.Resp) :
    ((∀ s : lsm6dso32x.State, s.pc = .l188 →
        ∃ evs, (lsm6dso32x.acceleration_part k2 libc d2 s).trace = s.trace ++ evs ∧
          lsm6dso32x.GatedBy (u8 (d2 s.reads).byte) .acceleration evs ∧
          (u8 (d2 s.reads).byte = 0 →
            lsm6dso32x.Untouched s (lsm6dso32x.acceleration_part k2 libc d2 s))) ∧
      (∀ s : lsm6dso32x.State, s.pc = .l206 →
        ∃ evs, (lsm6dso32x.angular_rate_part k2 libc d2 s).trace = s.trace ++ evs ∧
          lsm6dso32x.GatedBy (u8 (d2 s.reads).byte) .angular_rate evs ∧
          (u8 (d2 s.reads).byte = 0 →
            lsm6dso32x.Untouched s (lsm6dso32x.angular_rate_part k2 libc d2 s))) ∧
      (∀ s : lsm6dso32x.State, s.pc = .l224 →
        ∃ evs, (lsm6dso32x.temperature_part k2 libc d2 s).trace = s.trace ++ evs ∧
          lsm6dso32x.GatedBy (u8 (d2 s.reads).byte) .temperature evs ∧
          (u8 (d2 s.reads).byte = 0 →
            lsm6dso32x.Untouched s (lsm6dso32x.temperature_part k2 libc d2 s))) ∧
      (∀ s : lsm6dso32x.State, s.pc = .l188 → u8 (d2 s.reads).byte = 0 →
        u8 (d2 (s.reads + 1)).byte = 0 → u8 (d2 (s.reads + 2)).byte = 0 →
        lsm6dso32x.Untouched s (lsm6dso32x.iteration k2 libc d2 s) ∧
        ((lsm6dso32x.iteration k2 libc d2 s).trace.drop s.trace.length).any
          lsm6dso32x.Ev.isTx = false)) ∧
    ((∀ s : lsm6dso16is.State, s.hpc = .h138 →
        ∃ evs, (lsm6dso16is.acceleration_part k3 libc d3 s).trace = s.trace ++ evs ∧
          lsm6dso16is.GatedBy (u8 (d3 s.reads).byte) .acceleration evs ∧
          (u8 (d3 s.reads).byte = 0 →
            lsm6dso16is.Untouched s (lsm6dso16is.acceleration_part k3 libc d3 s))) ∧
      (∀ s : lsm6dso16is.State, s.hpc = .h156 →
        ∃ evs, (lsm6dso16is.angular_rate_part k3 libc d3 s).trace = s.trace ++ evs ∧
          lsm6dso16is.GatedBy (u8 (d3 s.reads).byte) .angular_rate evs ∧
          (u8 (d3 s.reads).byte = 0 →
            lsm6dso16is.Untouched s (lsm6dso16is.angular_rate_part k3 libc d3 s))) ∧
      (∀ s : lsm6dso16is.State, s.hpc = .h174 →
        ∃ evs, (lsm6dso16is.temperature_part k3 libc d3 s).trace = s.trace ++ evs ∧
          lsm6dso16is.GatedBy (u8 (d3 s.reads).byte) .temperature evs ∧
          (u8 (d3 s.reads).byte = 0 →
            lsm6dso16is.Untouched s (lsm6dso16is.temperature_part k3 libc d3 s))) ∧
      (∀ s : lsm6dso16is.State, u8 (d3 s.reads).byte = 0 →
        u8 (d3 (s.reads + 1)).byte = 0 → u8 (d3 (s.reads + 2)).byte = 0 →
        lsm6dso16is.Untouched s (lsm6dso16is.lsm6dso16is_read_data_drdy_handler k3 libc d3 s) ∧
        ((lsm6dso16is.lsm6dso16is_read_data_drdy_handler k3 libc d3 s).trace.drop
          s.trace.length).any lsm6dso16is.Ev.isTx = false)) ∧
    (∀ s : iis2dulpx.State, s.pc = .l189 →
      ∃ evs, (iis2dulpx.iteration k1 libc d1 s).trace = s.trace ++ evs ∧
        (evs.any iis2dulpx.Ev.isXlGet = true ↔ 0 < s.drdy_event) ∧
        (evs.any iis2dulpx.Ev.isOuttGet = true ↔ 0 < s.drdy_event) ∧
        evs.countP iis2dulpx.Ev.isTx = (if 0 < s.drdy_event then 2 else 0) ∧
        (s.drdy_event = 0 → iis2dulpx.iteration k1 libc d1 s = s)) := by
  refine ⟨⟨lsm6dso32x.lsm6dso32x_acceleration_part_gated k2 libc d2,
      lsm6dso32x.lsm6dso32x_angular_rate_part_gated k2 libc d2,
      lsm6dso32x.lsm6dso32x_temperature_part_gated k2 libc d2, ?_⟩,
    ⟨lsm6dso16is.lsm6dso16is_acceleration_part_gated k3 libc d3,
      lsm6dso16is.lsm6dso16is_angular_rate_part_gated k3 libc d3,
      lsm6dso16is.lsm6dso16is_temperature_part_gated k3 libc d3, ?_⟩,
    iis2dulpx.iis2dulpx_iteration_gated k1 libc d1⟩
  · intro s h h1 h2 h3
    rw [lsm6dso32x.lsm6dso32x_iteration_idle k2 libc d2 s h h1 h2 h3]
    simp [lsm6dso32x.Untouched, lsm6dso32x.Ev.isTx]
  · intro s h1 h2 h3
    rw [lsm6dso16is.lsm6dso16is_handler_idle k3 libc d3 s h1 h2 h3]
    simp [lsm6dso16is.Untouched, lsm6dso16is.Ev.isTx]

/-- C4 at a concrete input: on `dev_ok` the flag of the loop head of
`lsm6dso32x_offset` is set and the acceleration pass is gated by it; with
`drdy_event` at 0 the iteration of iis2dulpx changes nothing. -/
theorem c4_sampling_gated_by_data_ready_witness :
    (∃ evs,
      (lsm6dso32x.acceleration_part lsm6dso32x.k_ex libc_ex lsm6dso32x.dev_ok
        (lsm6dso32x.run lsm6dso32x.k_ex libc_ex lsm6dso32x.dev_ok 28
          lsm6dso32x.init)).trace =
        (lsm6dso32x.run lsm6dso32x.k_ex libc_ex lsm6dso32x.dev_ok 28
          lsm6dso32x.init).trace ++ evs ∧
      lsm6dso32x.GatedBy 1 .acceleration evs) ∧
    iis2dulpx.iteration iis2dulpx.k_ex libc_ex iis2dulpx.dev_ok
        (iis2dulpx.run iis2dulpx.k_ex libc_ex iis2dulpx.dev_ok 23 (iis2dulpx.init ⟨0, 0⟩)) =
      iis2dulpx.run iis2dulpx.k_ex libc_ex iis2dulpx.dev_ok 23 (iis2dulpx.init ⟨0, 0⟩) :=
  have h := c4_sampling_gated_by_data_ready iis2dulpx.k_ex lsm6dso32x.k_ex lsm6dso16is.k_ex
    libc_ex iis2dulpx.dev_ok lsm6dso32x.dev_ok lsm6dso16is.dev_ok
  ⟨(h.1.1 _ (by decide)).imp fun _ hx => ⟨hx.1, hx.2.1⟩,
    (h.2.2 _ (by decide)).choose_spec.2.2.2.2 (by decide)⟩

end STMems
/-! ## C9: buffers are written before they are read -/

namespace STMems

namespace lsm6dso32x

theorem lsm6dso32x_acceleration_events_inOrder (k : Driver) (libc : Libc) (ctx : stmdev_ctx_t) (f : Nat)
    (raw : Int × Int × Int) (buf : List Nat) :
    InOrder .acceleration (acceleration_events k libc ctx f raw buf) := by
  unfold InOrder
  rw [precedes_iff, precedes_iff, precedes_iff, precedes_iff]
  refine ⟨wbr_of_wbrB _ _ _ ?_, ?_, ?_, ?_, ?_⟩ <;> by_cases hf : f = 0 <;>
    simp [acceleration_events, hf, wbrB, precedesB, Ev.reads, Ev.writes, tx_event, Ev.isMemset,
      Ev.isRawGet, Ev.isConv, Ev.isSnprintf, Ev.isTx]

theorem lsm6dso32x_angular_rate_events_inOrder (k : Driver) (libc : Libc) (ctx : stmdev_ctx_t) (f : Nat)
    (raw : Int × Int × Int) (buf : List Nat) :
    InOrder .angular_rate (angular_rate_events k libc ctx f raw buf) := by
  unfold InOrder
  rw [precedes_iff, precedes_iff, precedes_iff, precedes_iff]
  refine ⟨wbr_of_wbrB _ _ _ ?_, ?_, ?_, ?_, ?_⟩ <;> by_cases hf : f = 0 <;>
    simp [angular_rate_events, hf, wbrB, precedesB, Ev.reads, Ev.writes, tx_event, Ev.isMemset,
      Ev.isRawGet, Ev.isConv, Ev.isSnprintf, Ev.isTx]

theorem lsm6dso32x_temperature_events_inOrder (k : Driver) (libc : Libc) (ctx : stmdev_ctx_t) (f : Nat)
    (raw : Int) (buf : List Nat) :
    InOrder .temperature (temperature_events k libc ctx f raw buf) := by
  unfold InOrder
  rw [precedes_iff, precedes_iff, precedes_iff, precedes_iff]
  refine ⟨wbr_of_wbrB _ _ _ ?_, ?_, ?_, ?_, ?_⟩ <;> by_cases hf : f = 0 <;>
    simp [temperature_events, hf, wbrB, precedesB, Ev.reads, Ev.writes, tx_event, Ev.isMemset,
      Ev.isRawGet, Ev.isConv, Ev.isSnprintf, Ev.isTx]

theorem lsm6dso32x_acceleration_part_trace (k : Driver) (libc : Libc) (dev : Nat → Resp) (s : State)
    (h : s.pc = .l188) :
    (acceleration_part k libc dev s).pc = .l206 ∧
    (acceleration_part k libc dev s).trace = s.trace ++
      acceleration_events k libc s.dev_ctx (u8 (dev s.reads).byte) (raw3_of (dev (s.reads + 1))) s.tx_buffer := by
  rw [lsm6dso32x_acceleration_part_eq k libc dev s h]
  split <;> exact ⟨rfl, rfl⟩

theorem lsm6dso32x_angular_rate_part_trace (k : Driver) (libc : Libc) (dev : Nat → Resp) (s : State)
    (h : s.pc = .l206) :
    (angular_rate_part k libc dev s).pc = .l224 ∧
    (angular_rate_part k libc dev s).trace = s.trace ++
      angular_rate_events k libc s.dev_ctx (u8 (dev s.reads).byte) (raw3_of (dev (s.reads + 1))) s.tx_buffer := by
  rw [lsm6dso32x_angular_rate_part_eq k libc dev s h]
  split <;> exact ⟨rfl, rfl⟩

theorem lsm6dso32x_temperature_part_trace (k : Driver) (libc : Libc) (dev : Nat → Resp) (s : State)
    (h : s.pc = .l224) :
    (temperature_part k libc dev s).pc = .l188 ∧
    (temperature_part k libc dev s).trace = s.trace ++
      temperature_events k libc s.dev_ctx (u8 (dev s.reads).byte) (i16 (dev (s.reads + 1)).raw) s.tx_buffer := by
  rw [lsm6dso32x_temperature_part_eq k libc dev s h]
  split <;> exact ⟨rfl, rfl⟩

theorem lsm6dso32x_iteration_inOrder (k : Driver) (libc : Libc) (dev : Nat → Resp) (s : State)
    (h : s.pc = .l188) :
    ∃ e1 e2 e3, (iteration k libc dev s).trace = s.trace ++ (e1 ++ e2 ++ e3) ∧
      InOrder .acceleration e1 ∧ InOrder .angular_rate e2 ∧ InOrder .temperature e3 ∧
      WrittenBeforeRead Ev.reads Ev.writes (e1 ++ e2 ++ e3) := by
  have p1 := lsm6dso32x_acceleration_part_trace k libc dev s h
  have p2 := lsm6dso32x_angular_rate_part_trace k libc dev _ p1.1
  have p3 := lsm6dso32x_temperature_part_trace k libc dev _ p2.1
  have o1 := lsm6dso32x_acceleration_events_inOrder k libc (s : State).dev_ctx
    (u8 (dev (s : State).reads).byte) (raw3_of (dev ((s : State).reads + 1)))
    (s : State).tx_buffer
  have o2 := lsm6dso32x_angular_rate_events_inOrder k libc
    (acceleration_part k libc dev s).dev_ctx
    (u8 (dev (acceleration_part k libc dev s).reads).byte)
    (raw3_of (dev ((acceleration_part k libc dev s).reads + 1)))
    (acceleration_part k libc dev s).tx_buffer
  have o3 := lsm6dso32x_temperature_events_inOrder k libc
    (angular_rate_part k libc dev (acceleration_part k libc dev s)).dev_ctx
    (u8 (dev (angular_rate_part k libc dev (acceleration_part k libc dev s)).reads).byte)
    (i16 (dev ((angular_rate_part k libc dev
      (acceleration_part k libc dev s)).reads + 1)).raw)
    (angular_rate_part k libc dev (acceleration_part k libc dev s)).tx_buffer
  refine ⟨_, _, _, ?_, o1, o2, o3, wbr_append _ _ _ _ (wbr_append _ _ _ _ o1.1 o2.1) o3.1⟩
  show (temperature_part k libc dev (angular_rate_part k libc dev
    (acceleration_part k libc dev s))).trace = _
  rw [p3.2, p2.2, p1.2, List.append_assoc, List.append_assoc, List.append_assoc]

end lsm6dso32x

namespace lsm6dso16is

theorem lsm6dso16is_acceleration_events_inOrder (k : Driver) (libc : Libc) (ctx : stmdev_ctx_t) (f : Nat)
    (raw : Int × Int × Int) (buf : List Nat) :
    InOrder .acceleration (acceleration_events k libc ctx f raw buf) := by
  unfold InOrder
  rw [precedes_iff, precedes_iff, precedes_iff, precedes_iff]
  refine ⟨wbr_of_wbrB _ _ _ ?_, ?_, ?_, ?_, ?_⟩ <;> by_cases hf : f = 0 <;>
    simp [acceleration_events, hf, wbrB, precedesB, Ev.reads, Ev.writes, tx_event, Ev.isMemset,
      Ev.isRawGet, Ev.isConv, Ev.isSnprintf, Ev.isTx]

theorem lsm6dso16is_angular_rate_events_inOrder (k : Driver) (libc : Libc) (ctx : stmdev_ctx_t) (f : Nat)
    (raw : Int × Int × Int) (buf : List Nat) :
    InOrder .angular_rate (angular_rate_events k libc ctx f raw buf) := by
  unfold InOrder
  rw [precedes_iff, precedes_iff, precedes_iff, precedes_iff]
  refine ⟨wbr_of_wbrB _ _ _ ?_, ?_, ?_, ?_, ?_⟩ <;> by_cases hf : f = 0 <;>
    simp [angular_rate_events, hf, wbrB, precedesB, Ev.reads, Ev.writes, tx_event, Ev.isMemset,
      Ev.isRawGet, Ev.isConv, Ev.isSnprintf, Ev.isTx]

theorem lsm6dso16is_temperature_events_inOrder (k : Driver) (libc : Libc) (ctx : stmdev_ctx_t) (f : Nat)
    (raw : Int) (buf : List Nat) :
    InOrder .temperature (temperature_events k libc ctx f raw buf) := by
  unfold InOrder
  rw [precedes_iff, precedes_iff, precedes_iff, precedes_iff]
  refine ⟨wbr_of_wbrB _ _ _ ?_, ?_, ?_, ?_, ?_⟩ <;> by_cases hf : f = 0 <;>
    simp [temperature_events, hf, wbrB, precedesB, Ev.reads, Ev.writes, tx_event, Ev.isMemset,
      Ev.isRawGet, Ev.isConv, Ev.isSnprintf, Ev.isTx]

theorem lsm6dso16is_acceleration_part_trace (k : Driver) (libc : Libc) (dev : Nat → Resp) (s : State)
    (h : s.hpc = .h138) :
    (acceleration_part k libc dev s).hpc = .h156 ∧
    (acceleration_part k libc dev s).trace = s.trace ++
      acceleration_events k libc s.dev_ctx (u8 (dev s.reads).byte) (raw3_of (dev (s.reads + 1))) s.tx_buffer := by
  rw [lsm6dso16is_acceleration_part_eq k libc dev s h]
  split <;> exact ⟨rfl, rfl⟩

theorem lsm6dso16is_angular_rate_part_trace (k : Driver) (libc : Libc) (dev : Nat → Resp) (s : State)
    (h : s.hpc = .h156) :
    (angular_rate_part k libc dev s).hpc = .h174 ∧
    (angular_rate_part k libc dev s).trace = s.trace ++
      angular_rate_events k libc s.dev_ctx (u8 (dev s.reads).byte) (raw3_of (dev (s.reads + 1))) s.tx_buffer := by
  rw [lsm6dso16is_angular_rate_part_eq k libc dev s h]
  split <;> exact ⟨rfl, rfl⟩

theorem lsm6dso16is_temperature_part_trace (k : Driver) (libc : Libc) (dev : Nat → Resp) (s : State)
    (h : s.hpc = .h174) :
    (temperature_part k libc dev s).hpc = .h186 ∧
    (temperature_part k libc dev s).trace = s.trace ++
      temperature_events k libc s.dev_ctx (u8 (dev s.reads).byte) (i16 (dev (s.reads + 1)).raw) s.tx_buffer := by
  rw [lsm6dso16is_temperature_part_eq k libc dev s h]
  split <;> exact ⟨rfl, rfl⟩

theorem lsm6dso16is_handler_inOrder (k : Driver) (libc : Libc) (dev : Nat → Resp) (s : State)
    :
    ∃ e1 e2 e3, (lsm6dso16is_read_data_drdy_handler k libc dev s).trace = s.trace ++ (e1 ++ e2 ++ e3) ∧
      InOrder .acceleration e1 ∧ InOrder .angular_rate e2 ∧ InOrder .temperature e3 ∧
      WrittenBeforeRead Ev.reads Ev.writes (e1 ++ e2 ++ e3) := by
  have p1 := lsm6dso16is_acceleration_part_trace k libc dev { s with hpc := .h138 } rfl
  have p2 := lsm6dso16is_angular_rate_part_trace k libc dev _ p1.1
  have p3 := lsm6dso16is_temperature_part_trace k libc dev _ p2.1
  have o1 := lsm6dso16is_acceleration_events_inOrder k libc ({ s with hpc := .h138 } : State).dev_ctx
    (u8 (dev ({ s with hpc := .h138 } : State).reads).byte) (raw3_of (dev (({ s with hpc := .h138 } : State).reads + 1)))
    ({ s with hpc := .h138 } : State).tx_buffer
  have o2 := lsm6dso16is_angular_rate_events_inOrder k libc
    (acceleration_part k libc dev { s with hpc := .h138 }).dev_ctx
    (u8 (dev (acceleration_part k libc dev { s with hpc := .h138 }).reads).byte)
    (raw3_of (dev ((acceleration_part k libc dev { s with hpc := .h138 }).reads + 1)))
    (acceleration_part k libc dev { s with hpc := .h138 }).tx_buffer
  have o3 := lsm6dso16is_temperature_events_inOrder k libc
    (angular_rate_part k libc dev (acceleration_part k libc dev { s with hpc := .h138 })).dev_ctx
    (u8 (dev (angular_rate_part k libc dev (acceleration_part k libc dev { s with hpc := .h138 })).reads).byte)
    (i16 (dev ((angular_rate_part k libc dev
      (acceleration_part k libc dev { s with hpc := .h138 })).reads + 1)).raw)
    (angular_rate_part k libc dev (acceleration_part k libc dev { s with hpc := .h138 })).tx_buffer
  refine ⟨_, _, _, ?_, o1, o2, o3, wbr_append _ _ _ _ (wbr_append _ _ _ _ o1.1 o2.1) o3.1⟩
  show (temperature_part k libc dev (angular_rate_part k libc dev
    (acceleration_part k libc dev { s with hpc := .h138 }))).trace = _
  rw [p3.2, p2.2, p1.2, List.append_assoc, List.append_assoc, List.append_assoc]

end lsm6dso16is

namespace iis2dulpx

theorem iis2dulpx_iteration_inOrder (k : Consts) (libc : Libc) (dev : Nat → Resp) (s : State)
    (h : s.pc = .l189) :
    ∃ e1 e2, (iteration k libc dev s).trace = s.trace ++ (e1 ++ e2) ∧
      WrittenBeforeRead Ev.reads Ev.writes e1 ∧ WrittenBeforeRead Ev.reads Ev.writes e2 ∧
      Precedes Ev.isXlGet (Ev.isSnprintf .acceleration) e1 ∧
      Precedes Ev.isOuttGet (Ev.isSnprintf .temperature) e2 ∧
      Precedes Ev.isFormat Ev.isTx e1 ∧ Precedes Ev.isFormat Ev.isTx e2 := by
  rw [iis2dulpx_iteration_eq k libc dev s h]
  by_cases hf : 0 < s.drdy_event
  · refine ⟨[.xl_data_get s.dev_ctx s.md (dev s.reads).xl, .drdy_event_clear,
        .snprintf .acceleration (fmt_acceleration libc (dev s.reads).xl.mg),
        tx_event (snprintf s.tx_buffer 1000 (fmt_acceleration libc (dev s.reads).xl.mg))],
      [.outt_data_get s.dev_ctx (dev (s.reads + 1)).outt,
        .snprintf .temperature (fmt_temp libc (dev (s.reads + 1)).outt.deg_c),
        tx_event (snprintf (snprintf s.tx_buffer 1000
          (fmt_acceleration libc (dev s.reads).xl.mg)) 1000
          (fmt_temp libc (dev (s.reads + 1)).outt.deg_c))], ?_,
      wbr_of_wbrB _ _ _ ?_, wbr_of_wbrB _ _ _ ?_, (precedes_iff _ _ _).2 ?_,
      (precedes_iff _ _ _).2 ?_, (precedes_iff _ _ _).2 ?_, (precedes_iff _ _ _).2 ?_⟩ <;>
      simp [hf, iteration_events, wbrB, precedesB, Ev.reads, Ev.writes, tx_event, Ev.isXlGet,
        Ev.isOuttGet, Ev.isSnprintf, Ev.isFormat, Ev.isTx]
  · refine ⟨[], [], ?_, wbr_of_wbrB _ _ _ rfl, wbr_of_wbrB _ _ _ rfl, precedes_nil _ _,
      precedes_nil _ _, precedes_nil _ _, precedes_nil _ _⟩
    simp [hf]

end iis2dulpx

/-- C9: the calls of one iteration of the loop of `lsm6dso32x_offset`, and
of one invocation of `lsm6dso16is_read_data_drdy_handler`, are the calls
of the acceleration pass, then of the angular-rate pass, then of the
temperature pass; in each pass, and so in the whole, every buffer element
a call reads was written by an earlier call of the same pass: the raw
buffer is zeroed before the raw-get, the raw-get comes before every
conversion, the converted values are assigned before the formatting, and
`tx_buffer` is written by `snprintf` before `strlen` and `tx_com` read it.
In an iteration of `iis2dulpx_read_data_drdy` the sample is obtained
before it is formatted and `tx_buffer` is written by `snprintf` before it
is sent, for the acceleration and for the temperature. -/
theorem c9_buffers_written_before_read
    (k1 : iis2dulpx.Consts) (k2 : lsm6dso32x.Driver) (k3 : lsm6dso16is.Driver) (libc : Libc)
    (d1 : Nat → iis2dulpx.Resp) (d2 : Nat → lsm6dso32x.Resp) (d3 : Nat → lsm6dso16is.Resp) :
    (∀ s : lsm6dso32x.State, s.pc = .l188 →
      ∃ e1 e2 e3, (lsm6dso32x.iteration k2 libc d2 s).trace = s.trace ++ (e1 ++ e2 ++ e3) ∧
        lsm6dso32x.InOrder .acceleration e1 ∧ lsm6dso32x.InOrder .angular_rate e2 ∧
        lsm6dso32x.InOrder .temperature e3 ∧
        WrittenBeforeRead lsm6dso32x.Ev.reads lsm6dso32x.Ev.writes (e1 ++ e2 ++ e3)) ∧
    (∀ s : lsm6dso16is.State,
      ∃ e1 e2 e3,
        (lsm6dso16is.lsm6dso16is_read_data_drdy_handler k3 libc d3 s).trace =
          s.trace ++ (e1 ++ e2 ++ e3) ∧
        lsm6dso16is.InOrder .acceleration e1 ∧ lsm6dso16is.InOrder .angular_rate e2 ∧
        lsm6dso16is.InOrder .temperature e3 ∧
        WrittenBeforeRead lsm6dso16is.Ev.reads lsm6dso16is.Ev.writes (e1 ++ e2 ++ e3)) ∧
    (∀ s : iis2dulpx.State, s.pc = .l189 →
      ∃ e1 e2, (iis2dulpx.iteration k1 libc d1 s).trace = s.trace ++ (e1 ++ e2) ∧
        WrittenBeforeRead iis2dulpx.Ev.reads iis2dulpx.Ev.writes e1 ∧
        WrittenBeforeRead iis2dulpx.Ev.reads iis2dulpx.Ev.writes e2 ∧
        Precedes iis2dulpx.Ev.isXlGet (iis2dulpx.Ev.isSnprintf .acceleration) e1 ∧
        Precedes iis2dulpx.Ev.isOuttGet (iis2dulpx.Ev.isSnprintf .temperature) e2 ∧
        Precedes iis2dulpx.Ev.isFormat iis2dulpx.Ev.isTx e1 ∧
        Precedes iis2dulpx.Ev.isFormat iis2dulpx.Ev.isTx e2) :=
  ⟨lsm6dso32x.lsm6dso32x_iteration_inOrder k2 libc d2,
    lsm6dso16is.lsm6dso16is_handler_inOrder k3 libc d3,
    iis2dulpx.iis2dulpx_iteration_inOrder k1 libc d1⟩

/-- C9 at a concrete input: the iteration of `lsm6dso32x_offset` that
starts when the initialisation on `dev_ok` has finished. -/
theorem c9_buffers_written_before_read_witness :
    ∃ e1 e2 e3,
      (lsm6dso32x.iteration lsm6dso32x.k_ex libc_ex lsm6dso32x.dev_ok
        (lsm6dso32x.run lsm6dso32x.k_ex libc_ex lsm6dso32x.dev_ok 28
          lsm6dso32x.init)).trace =
        (lsm6dso32x.run lsm6dso32x.k_ex libc_ex lsm6dso32x.dev_ok 28
          lsm6dso32x.init).trace ++ (e1 ++ e2 ++ e3) ∧
      lsm6dso32x.InOrder .acceleration e1 ∧ lsm6dso32x.InOrder .angular_rate e2 ∧
      lsm6dso32x.InOrder .temperature e3 ∧
      WrittenBeforeRead lsm6dso32x.Ev.reads lsm6dso32x.Ev.writes (e1 ++ e2 ++ e3) :=
  (c9_buffers_written_before_read iis2dulpx.k_ex lsm6dso32x.k_ex lsm6dso16is.k_ex libc_ex
    iis2dulpx.dev_ok lsm6dso32x.dev_ok lsm6dso16is.dev_ok).1 _ (by decide)

end STMems
/-! ## C10: a transmission sends exactly the formatted text -/

namespace STMems

theorem takeWhile_until_nul (l rest : List Nat) (h : 0 ∉ l) :
    (l ++ 0 :: rest).takeWhile (fun c => decide (c ≠ 0)) = l := by
  induction l with
  | nil => simp
  | cons a l ih =>
    have ha : a ≠ 0 := fun h0 => h (by simp [h0])
    have hl : 0 ∉ l := fun h0 => h (List.mem_cons_of_mem _ h0)
    rw [List.cons_append, List.takeWhile_cons, ih hl]
    simp [ha]

theorem snprintf_eq (buf text : List Nat) :
    snprintf buf 1000 text =
      text.take 999 ++ 0 :: buf.drop ((text.take 999).length + 1) := by
  simp [snprintf]

theorem strlen_snprintf (buf text : List Nat) (h : 0 ∉ text) :
    strlen (snprintf buf 1000 text) = min text.length 999 := by
  have h' : 0 ∉ text.take 999 := fun h0 => h (List.mem_of_mem_take h0)
  rw [snprintf_eq, strlen, takeWhile_until_nul _ _ h', List.length_take, Nat.min_comm]

theorem tx_of_snprintf (buf text : List Nat) (h : 0 ∉ text) :
    strlen (snprintf buf 1000 text) = min text.length 999 ∧
    u16 (strlen (snprintf buf 1000 text)) = min text.length 999 ∧
    (snprintf buf 1000 text).take (u16 (strlen (snprintf buf 1000 text))) = text.take 999 := by
  have h1 := strlen_snprintf buf text h
  have h2 : u16 (min text.length 999) = min text.length 999 := by
    unfold u16
    exact Nat.mod_eq_of_lt (by omega)
  refine ⟨h1, by rw [h1, h2], ?_⟩
  rw [h1, h2, snprintf_eq]
  have h3 : min text.length 999 = (text.take 999).length := by
    rw [List.length_take, Nat.min_comm]
  rw [h3, List.take_left']
  rfl

theorem bytes_nul_free :
    0 ∉ bytes "Acceleration [mg]:" ∧ 0 ∉ bytes "\t" ∧ 0 ∉ bytes "\r\n" ∧
    0 ∉ bytes "Angular rate [mdps]:" ∧ 0 ∉ bytes "Temperature [degC]:" ∧
    0 ∉ bytes "Temp[degC]:" := by
  decide

theorem fmt_nul_free (libc : Libc) (hn : libc.NulFree) :
    (∀ v, 0 ∉ fmt_acceleration libc v) ∧ (∀ v, 0 ∉ fmt_angular_rate libc v) ∧
    (∀ v, 0 ∉ fmt_temperature libc v) ∧ (∀ v, 0 ∉ fmt_temp libc v) := by
  obtain ⟨b1, b2, b3, b4, b5, b6⟩ := bytes_nul_free
  refine ⟨fun v => ?_, fun v => ?_, fun v => ?_, fun v => ?_⟩
  · simp only [fmt_acceleration, List.mem_append, not_or]
    exact ⟨⟨⟨⟨⟨⟨b1, hn _ _ _⟩, b2⟩, hn _ _ _⟩, b2⟩, hn _ _ _⟩, b3⟩
  · simp only [fmt_angular_rate, List.mem_append, not_or]
    exact ⟨⟨⟨⟨⟨⟨b4, hn _ _ _⟩, b2⟩, hn _ _ _⟩, b2⟩, hn _ _ _⟩, b3⟩
  · simp only [fmt_temperature, List.mem_append, not_or]
    exact ⟨⟨b5, hn _ _ _⟩, b3⟩
  · simp only [fmt_temp, List.mem_append, not_or]
    exact ⟨⟨b6, hn _ _ _⟩, b3⟩

theorem libc_ex_nul_free : libc_ex.NulFree := by
  intro w p v
  simp only [libc_ex, List.mem_singleton]
  omega

namespace lsm6dso32x

theorem lsm6dso32x_l200_sends (k : Driver) (libc : Libc) (dev : Nat → Resp) (hn : libc.NulFree)
    (s : State) (h : s.pc = .l200) :
    FormatsAndSends s (step k libc dev (step k libc dev s)) .acceleration (fmt_acceleration libc s.acceleration_mg) := by
  obtain ⟨pc, a1, a2, a3, a4, a5, a6, a7, a8, abuf, a10, a11, a12, areads, tr⟩ := s
  simp only at h
  subst h
  obtain ⟨t1, t2, t3⟩ := tx_of_snprintf abuf (fmt_acceleration libc a4) ((fmt_nul_free libc hn).1 _)
  simp only [step, State.log, FormatsAndSends]
  refine ⟨?_, t1, ?_, ?_⟩
  · rw [t3, t2]
    simp
  · rw [t2, t1]
  · rw [t1]
    omega

theorem lsm6dso32x_l218_sends (k : Driver) (libc : Libc) (dev : Nat → Resp) (hn : libc.NulFree)
    (s : State) (h : s.pc = .l218) :
    FormatsAndSends s (step k libc dev (step k libc dev s)) .angular_rate (fmt_angular_rate libc s.angular_rate_mdps) := by
  obtain ⟨pc, a1, a2, a3, a4, a5, a6, a7, a8, abuf, a10, a11, a12, areads, tr⟩ := s
  simp only at h
  subst h
  obtain ⟨t1, t2, t3⟩ := tx_of_snprintf abuf (fmt_angular_rate libc a5) ((fmt_nul_free libc hn).2.1 _)
  simp only [step, State.log, FormatsAndSends]
  refine ⟨?_, t1, ?_, ?_⟩
  · rw [t3, t2]
    simp
  · rw [t2, t1]
  · rw [t1]
    omega

theorem lsm6dso32x_l232_sends (k : Driver) (libc : Libc) (dev : Nat → Resp) (hn : libc.NulFree)
    (s : State) (h : s.pc = .l232) :
    FormatsAndSends s (step k libc dev (step k libc dev s)) .temperature (fmt_temperature libc s.temperature_degC) := by
  obtain ⟨pc, a1, a2, a3, a4, a5, a6, a7, a8, abuf, a10, a11, a12, areads, tr⟩ := s
  simp only at h
  subst h
  obtain ⟨t1, t2, t3⟩ := tx_of_snprintf abuf (fmt_temperature libc a6) ((fmt_nul_free libc hn).2.2.1 _)
  simp only [step, State.log, FormatsAndSends]
  refine ⟨?_, t1, ?_, ?_⟩
  · rw [t3, t2]
    simp
  · rw [t2, t1]
  · rw [t1]
    omega

end lsm6dso32x

namespace lsm6dso16is

theorem lsm6dso16is_h150_sends (k : Driver) (libc : Libc) (dev : Nat → Resp) (hn : libc.NulFree)
    (s : State) (h : s.hpc = .h150) :
    FormatsAndSends s (hstep k libc dev (hstep k libc dev s)) .acceleration (fmt_acceleration libc s.acceleration_mg) := by
  obtain ⟨pc, hpc, a1, a2, a3, a4, a5, a6, a7, abuf, a9, a10, a11, areads, tr⟩ := s
  simp only at h
  subst h
  obtain ⟨t1, t2, t3⟩ := tx_of_snprintf abuf (fmt_acceleration libc a4) ((fmt_nul_free libc hn).1 _)
  simp only [hstep, State.log, FormatsAndSends]
  refine ⟨?_, t1, ?_, ?_⟩
  · rw [t3, t2]
    simp
  · rw [t2, t1]
  · rw [t1]
    omega

theorem lsm6dso16is_h168_sends (k : Driver) (libc : Libc) (dev : Nat → Resp) (hn : libc.NulFree)
    (s : State) (h : s.hpc = .h168) :
    FormatsAndSends s (hstep k libc dev (hstep k libc dev s)) .angular_rate (fmt_angular_rate libc s.angular_rate_mdps) := by
  obtain ⟨pc, hpc, a1, a2, a3, a4, a5, a6, a7, abuf, a9, a10, a11, areads, tr⟩ := s
  simp only at h
  subst h
  obtain ⟨t1, t2, t3⟩ := tx_of_snprintf abuf (fmt_angular_rate libc a5) ((fmt_nul_free libc hn).2.1 _)
  simp only [hstep, State.log, FormatsAndSends]
  refine ⟨?_, t1, ?_, ?_⟩
  · rw [t3, t2]
    simp
  · rw [t2, t1]
  · rw [t1]
    omega

theorem lsm6dso16is_h182_sends (k : Driver) (libc : Libc) (dev : Nat → Resp) (hn : libc.NulFree)
    (s : State) (h : s.hpc = .h182) :
    FormatsAndSends s (hstep k libc dev (hstep k libc dev s)) .temperature (fmt_temperature libc s.temperature_degC) := by
  obtain ⟨pc, hpc, a1, a2, a3, a4, a5, a6, a7, abuf, a9, a10, a11, areads, tr⟩ := s
  simp only at h
  subst h
  obtain ⟨t1, t2, t3⟩ := tx_of_snprintf abuf (fmt_temperature libc a6) ((fmt_nul_free libc hn).2.2.1 _)
  simp only [hstep, State.log, FormatsAndSends]
  refine ⟨?_, t1, ?_, ?_⟩
  · rw [t3, t2]
    simp
  · rw [t2, t1]
  · rw [t1]
    omega

end lsm6dso16is

namespace iis2dulpx

theorem iis2dulpx_l195_sends (k : Consts) (libc : Libc) (dev : Nat → Resp) (hn : libc.NulFree)
    (s : State) (h : s.pc = .l195) :
    FormatsAndSends s (step k libc dev (step k libc dev s)) .acceleration (fmt_acceleration libc s.data_xl.mg) := by
  obtain ⟨pc, abuf, a2, a3, a4, a5, a6, a7, a8, a9, a10, tr⟩ := s
  simp only at h
  subst h
  obtain ⟨t1, t2, t3⟩ := tx_of_snprintf abuf (fmt_acceleration libc a2.mg) ((fmt_nul_free libc hn).1 _)
  simp only [step, State.log, FormatsAndSends]
  refine ⟨?_, t1, ?_, ?_⟩
  · rw [t3, t2]
    simp
  · rw [t2, t1]
  · rw [t1]
    omega

theorem iis2dulpx_l202_sends (k : Consts) (libc : Libc) (dev : Nat → Resp) (hn : libc.NulFree)
    (s : State) (h : s.pc = .l202) :
    FormatsAndSends s (step k libc dev (step k libc dev s)) .temperature (fmt_temp libc s.data_temp.deg_c) := by
  obtain ⟨pc, abuf, a2, a3, a4, a5, a6, a7, a8, a9, a10, tr⟩ := s
  simp only at h
  subst h
  obtain ⟨t1, t2, t3⟩ := tx_of_snprintf abuf (fmt_temp libc a3.deg_c) ((fmt_nul_free libc hn).2.2.2 _)
  simp only [step, State.log, FormatsAndSends]
  refine ⟨?_, t1, ?_, ?_⟩
  · rw [t3, t2]
    simp
  · rw [t2, t1]
  · rw [t1]
    omega

end iis2dulpx

/-- C10: with `snprintf(buf, 1000, ...)` storing at most 999 characters
and a terminating NUL, and a `%f` conversion that produces no NUL, at each
of the eight places where an example formats and then transmits (three in
`lsm6dso32x_offset`, three in `lsm6dso16is_read_data_drdy_handler`, two in
`iis2dulpx_read_data_drdy`) and for every state, so for every sample
value: the `tx_com` call is given the first 999 characters of the text
just formatted and their number, this number is the `strlen` of
`tx_buffer` after the formatting, it is at most 999, and converting it to
`uint16_t` does not change it. -/
theorem c10_transmission_is_formatted_text
    (k1 : iis2dulpx.Consts) (k2 : lsm6dso32x.Driver) (k3 : lsm6dso16is.Driver) (libc : Libc)
    (d1 : Nat → iis2dulpx.Resp) (d2 : Nat → lsm6dso32x.Resp) (d3 : Nat → lsm6dso16is.Resp)
    (hn : libc.NulFree) :
    ((∀ s : lsm6dso32x.State, s.pc = .l200 →
        lsm6dso32x.FormatsAndSends s
          (lsm6dso32x.step k2 libc d2 (lsm6dso32x.step k2 libc d2 s)) .acceleration
          (fmt_acceleration libc s.acceleration_mg)) ∧
      (∀ s : lsm6dso32x.State, s.pc = .l218 →
        lsm6dso32x.FormatsAndSends s
          (lsm6dso32x.step k2 libc d2 (lsm6dso32x.step k2 libc d2 s)) .angular_rate
          (fmt_angular_rate libc s.angular_rate_mdps)) ∧
      (∀ s : lsm6dso32x.State, s.pc = .l232 →
        lsm6dso32x.FormatsAndSends s
          (lsm6dso32x.step k2 libc d2 (lsm6dso32x.step k2 libc d2 s)) .temperature
          (fmt_temperature libc s.temperature_degC))) ∧
    ((∀ s : lsm6dso16is.State, s.hpc = .h150 →
        lsm6dso16is.FormatsAndSends s
          (lsm6dso16is.hstep k3 libc d3 (lsm6dso16is.hstep k3 libc d3 s)) .acceleration
          (fmt_acceleration libc s.acceleration_mg)) ∧
      (∀ s : lsm6dso16is.State, s.hpc = .h168 →
        lsm6dso16is.FormatsAndSends s
          (lsm6dso16is.hstep k3 libc d3 (lsm6dso16is.hstep k3 libc d3 s)) .angular_rate
          (fmt_angular_rate libc s.angular_rate_mdps)) ∧
      (∀ s : lsm6dso16is.State, s.hpc = .h182 →
        lsm6dso16is.FormatsAndSends s
          (lsm6dso16is.hstep k3 libc d3 (lsm6dso16is.hstep k3 libc d3 s)) .temperature
          (fmt_temperature libc s.temperature_degC))) ∧
    ((∀ s : iis2dulpx.State, s.pc = .l195 →
        iis2dulpx.FormatsAndSends s
          (iis2dulpx.step k1 libc d1 (iis2dulpx.step k1 libc d1 s)) .acceleration
          (fmt_acceleration libc s.data_xl.mg)) ∧
      (∀ s : iis2dulpx.State, s.pc = .l202 →
        iis2dulpx.FormatsAndSends s
          (iis2dulpx.step k1 libc d1 (iis2dulpx.step k1 libc d1 s)) .temperature
          (fmt_temp libc s.data_temp.deg_c))) :=
  ⟨⟨lsm6dso32x.lsm6dso32x_l200_sends k2 libc d2 hn, lsm6dso32x.lsm6dso32x_l218_sends k2 libc d2 hn,
      lsm6dso32x.lsm6dso32x_l232_sends k2 libc d2 hn⟩,
    ⟨lsm6dso16is.lsm6dso16is_h150_sends k3 libc d3 hn,
      lsm6dso16is.lsm6dso16is_h168_sends k3 libc d3 hn,
      lsm6dso16is.lsm6dso16is_h182_sends k3 libc d3 hn⟩,
    ⟨iis2dulpx.iis2dulpx_l195_sends k1 libc d1 hn, iis2dulpx.iis2dulpx_l202_sends k1 libc d1 hn⟩⟩

/-- C10 at a concrete input: the C library `libc_ex`, whose conversions
hold no NUL, and the state of `lsm6dso32x_offset` on line 200 with zeroed
buffers. -/
theorem c10_transmission_is_formatted_text_witness :
    libc_ex.NulFree ∧
    lsm6dso32x.FormatsAndSends { lsm6dso32x.init with pc := .l200 }
      (lsm6dso32x.step lsm6dso32x.k_ex libc_ex lsm6dso32x.dev_ok
        (lsm6dso32x.step lsm6dso32x.k_ex libc_ex lsm6dso32x.dev_ok
          { lsm6dso32x.init with pc := .l200 })) .acceleration
      (fmt_acceleration libc_ex (0, 0, 0)) :=
  ⟨libc_ex_nul_free,
    (c10_transmission_is_formatted_text iis2dulpx.k_ex lsm6dso32x.k_ex lsm6dso16is.k_ex
      libc_ex iis2dulpx.dev_ok lsm6dso32x.dev_ok lsm6dso16is.dev_ok libc_ex_nul_free).1.1
      { lsm6dso32x.init with pc := .l200 } rfl⟩

end STMems
/-! ## C11: block data update -/

namespace STMems

namespace lsm6dso32x

theorem lsm6dso32x_bduInv_snoc {l l' : Nat} {tr : List Ev} {e : Ev} (h : BduInv l tr)
    (c : (162 < l' → 162 < l ∨ e.isBduEnable = true) ∧
      (l' ≤ 182 → l ≤ 182 ∧ e.isAnyRawGet = false) ∧
      (e.isAnyRawGet = true → 162 < l)) :
    BduInv l' (tr ++ [e]) := by
  obtain ⟨h1, h2, h3⟩ := h
  obtain ⟨c1, c2, c3⟩ := c
  exact ⟨seen_snoc h1 c1, notYet_snoc h2 c2, precedes_step h3 h1 c3⟩

theorem lsm6dso32x_bduInv_move {l l' : Nat} {tr : List Ev} (h : BduInv l tr)
    (c : (162 < l' → 162 < l) ∧ (l' ≤ 182 → l ≤ 182)) : BduInv l' tr := by
  obtain ⟨h1, h2, h3⟩ := h
  obtain ⟨c1, c2⟩ := c
  exact ⟨seen_move h1 c1, notYet_move h2 c2, h3⟩

theorem lsm6dso32x_bduInv_step (k : Driver) (libc : Libc) (dev : Nat → Resp) (s : State)
    (h : BduInv s.pc.line s.trace) :
    BduInv (step k libc dev s).pc.line (step k libc dev s).trace := by
  obtain ⟨pc, a1, a2, a3, a4, a5, a6, a7, a8, a9, a10, a11, a12, a13, tr⟩ := s
  cases pc <;> simp only [step, State.log, State.answered] <;> (try split) <;>
    first
    | exact lsm6dso32x_bduInv_snoc h (by simp [Pc.line, Ev.isBduEnable, Ev.isAnyRawGet])
    | exact lsm6dso32x_bduInv_move h (by simp [Pc.line])

theorem lsm6dso32x_bduInv_run (k : Driver) (libc : Libc) (dev : Nat → Resp) (n : Nat) :
    BduInv (run k libc dev n init).pc.line (run k libc dev n init).trace := by
  induction n with
  | zero => simp [run, BduInv, Seen, NotYet, init, Pc.line, precedes_nil]
  | succ n ih =>
    have h : run k libc dev (n + 1) init = step k libc dev (run k libc dev n init) := by
      simp [run, Function.iterate_succ_apply']
    rw [h]
    exact lsm6dso32x_bduInv_step k libc dev _ ih

end lsm6dso32x

namespace lsm6dso16is

theorem lsm6dso16is_run_to_end (k : Driver) (dev : Nat → Resp)
    (h : u8 (dev 0).byte = k.LSM6DSO16IS_ID) :
    run k dev 16 init =
      { init with pc := .l234, dev_ctx := ctx_ready, whoamI := u8 (dev 0).byte, reads := 2
                  val := { (dev 1).route with drdy_xl := 1 }
                  trace := init_trace (u8 (dev 0).byte) (dev 1).route } := by
  simp [run, step, init, State.log, State.answered, h, init_trace, ctx_ready, ctx_unset]

theorem lsm6dso16is_id_trace_segment (id : Nat) (r : lsm6dso16is_pin_int1_route_t) :
    id_trace id <+: init_trace id r := by
  simp [id_trace, init_trace, List.prefix_iff_eq_take]

theorem lsm6dso16is_init_segment (k : Driver) (dev : Nat → Resp) (n : Nat) :
    (run k dev n init).trace <+: init_trace (u8 (dev 0).byte) (dev 1).route := by
  by_cases h : u8 (dev 0).byte = k.LSM6DSO16IS_ID
  · by_cases hn : 16 ≤ n
    · obtain ⟨m, rfl⟩ : ∃ m, n = m + 16 := ⟨n - 16, by omega⟩
      rw [lsm6dso16is_run_add, lsm6dso16is_run_to_end k dev h,
        lsm6dso16is_run_fixed _ _ _ _ (by simp [step])]
    · have h16 : n < 16 := by omega
      interval_cases n <;>
        simp [run, step, init, State.log, State.answered, h, init_trace, ctx_ready, ctx_unset,
          List.prefix_iff_eq_take]
  · exact (lsm6dso16is_mismatch_run k dev h n).1.trans (lsm6dso16is_id_trace_segment _ _)

end lsm6dso16is

theorem not_precedes_of_absent {E : Type} (p q : E → Bool) (tr : List E)
    (hq : tr.any q = true) (hp : tr.any p = false) : ¬ Precedes p q tr := by
  intro h
  obtain ⟨e, hm, hqe⟩ := List.any_eq_true.1 hq
  obtain ⟨j, hj⟩ := List.mem_iff_getElem?.1 hm
  obtain ⟨i, e', _, he', hpe⟩ := h j e hj hqe
  have hne := List.any_eq_false.1 hp e' (List.mem_iff_getElem?.2 ⟨i, he'⟩)
  exact absurd hpe hne

/-- C11 as stated fails for `lsm6dso16is_read_data_drdy`: on the device
`dev_ok` the initialisation runs to the final loop on line 234 and its
history is the ten calls listed, none of which enables block data update;
the handler invoked afterwards reads a raw sample, so the history then
holds a raw-get with no call enabling block data update before it. -/
theorem c11_block_data_update_counterexample :
    (lsm6dso16is.run lsm6dso16is.k_ex lsm6dso16is.dev_ok 16 lsm6dso16is.init).pc = .l234 ∧
    (lsm6dso16is.run lsm6dso16is.k_ex lsm6dso16is.dev_ok 16 lsm6dso16is.init).trace =
      [.platform_init, .platform_delay 10, .device_id_get ctx_ready 0x22,
       .software_reset ctx_ready,
       .pin_int1_route_get ctx_ready ⟨0, 5⟩,
       .pin_int1_route_set ctx_ready ⟨1, 5⟩,
       .xl_data_rate_set ctx_ready .LSM6DSO16IS_XL_ODR_AT_12Hz5_HP,
       .gy_data_rate_set ctx_ready .LSM6DSO16IS_GY_ODR_AT_12Hz5_HP,
       .xl_full_scale_set ctx_ready .LSM6DSO16IS_2g,
       .gy_full_scale_set ctx_ready .LSM6DSO16IS_2000dps] ∧
    (lsm6dso16is.lsm6dso16is_read_data_drdy_handler lsm6dso16is.k_ex libc_ex
      lsm6dso16is.dev_ok (lsm6dso16is.run lsm6dso16is.k_ex lsm6dso16is.dev_ok 16
        lsm6dso16is.init)).trace.any lsm6dso16is.Ev.isAnyRawGet = true ∧
    ¬ Precedes lsm6dso16is.Ev.isBduEnable lsm6dso16is.Ev.isAnyRawGet
      (lsm6dso16is.lsm6dso16is_read_data_drdy_handler lsm6dso16is.k_ex libc_ex
        lsm6dso16is.dev_ok (lsm6dso16is.run lsm6dso16is.k_ex lsm6dso16is.dev_ok 16
          lsm6dso16is.init)).trace := by
  have hraw : (lsm6dso16is.lsm6dso16is_read_data_drdy_handler lsm6dso16is.k_ex libc_ex
      lsm6dso16is.dev_ok (lsm6dso16is.run lsm6dso16is.k_ex lsm6dso16is.dev_ok 16
        lsm6dso16is.init)).trace.any lsm6dso16is.Ev.isAnyRawGet = true := by decide
  refine ⟨by decide, by decide, hraw, not_precedes_of_absent _ _ _ hraw ?_⟩
  exact List.any_eq_false.2 (fun e _ => by simp [lsm6dso16is.Ev.isBduEnable])

/-- C11, amended: in every run of `lsm6dso32x_offset` each acceleration,
angular-rate or temperature raw-get of the history has a call
`lsm6dso32x_block_data_update_set(&dev_ctx, PROPERTY_ENABLE)` before it;
that call is in the history as soon as the run is past line 162, and no
raw-get is made up to line 182, the end of the initialisation (on
`dev_ok` raw-gets do occur). `lsm6dso16is_read_data_drdy` makes no call
that enables block data update: in every run the history of its main
function is an initial segment of platform initialisation, boot delay,
device-ID read, software reset, INT1 routing get and set, the two
data-rate and the two full-scale settings, which holds no raw-get either;
on `dev_ok` the history is that whole list. -/
theorem c11_block_data_update_before_raw_get (k2 : lsm6dso32x.Driver)
    (k3 : lsm6dso16is.Driver) (libc : Libc) (d2 : Nat → lsm6dso32x.Resp)
    (d3 : Nat → lsm6dso16is.Resp) (n2 n3 : Nat) :
    (Precedes lsm6dso32x.Ev.isBduEnable lsm6dso32x.Ev.isAnyRawGet
        (lsm6dso32x.run k2 libc d2 n2 lsm6dso32x.init).trace ∧
      (162 < (lsm6dso32x.run k2 libc d2 n2 lsm6dso32x.init).pc.line →
        (lsm6dso32x.run k2 libc d2 n2 lsm6dso32x.init).trace.any
          lsm6dso32x.Ev.isBduEnable = true) ∧
      ((lsm6dso32x.run k2 libc d2 n2 lsm6dso32x.init).pc.line ≤ 182 →
        (lsm6dso32x.run k2 libc d2 n2 lsm6dso32x.init).trace.any
          lsm6dso32x.Ev.isAnyRawGet = false)) ∧
    (lsm6dso32x.run lsm6dso32x.k_ex libc_ex lsm6dso32x.dev_ok 32
      lsm6dso32x.init).trace.any lsm6dso32x.Ev.isAnyRawGet = true ∧
    ((lsm6dso16is.run k3 d3 n3 lsm6dso16is.init).trace <+:
        lsm6dso16is.init_trace (u8 (d3 0).byte) (d3 1).route ∧
      (∀ e ∈ (lsm6dso16is.run k3 d3 n3 lsm6dso16is.init).trace,
        e.isAnyRawGet = false)) ∧
    (lsm6dso16is.run lsm6dso16is.k_ex lsm6dso16is.dev_ok 16 lsm6dso16is.init).trace =
      lsm6dso16is.init_trace 0x22 ⟨0, 5⟩ := by
  have h2 := lsm6dso32x.lsm6dso32x_bduInv_run k2 libc d2 n2
  have h3 := lsm6dso16is.lsm6dso16is_init_segment k3 d3 n3
  refine ⟨⟨h2.2.2, h2.1, h2.2.1⟩, by decide, ⟨h3, ?_⟩, by decide⟩
  intro e he
  have hm := h3.subset he
  simp only [lsm6dso16is.init_trace, List.mem_cons, List.mem_singleton, List.not_mem_nil,
    or_false] at hm
  rcases hm with h | h | h | h | h | h | h | h | h | h <;> subst h <;> rfl

end STMems
/-! ## C12: the reported values and the configured scale -/

namespace STMems

namespace lsm6dso32x

theorem lsm6dso32x_scaleInv_snoc {l l' : Nat} {tr : List Ev} {e : Ev} (h : ScaleInv l tr)
    (c : (177 < l' → 177 < l ∨ e.isXlScaleSet = true) ∧
      (178 < l' → 178 < l ∨ e.isGyScaleSet = true) ∧
      (e.isConv .acceleration = true → 177 < l) ∧
      (e.isConv .angular_rate = true → 178 < l) ∧
      e.scaleOk = true) :
    ScaleInv l' (tr ++ [e]) := by
  obtain ⟨h1, h2, h3, h4, h5⟩ := h
  obtain ⟨c1, c2, c3, c4, c5⟩ := c
  refine ⟨seen_snoc h1 c1, seen_snoc h2 c2, precedes_step h3 h1 c3, precedes_step h4 h2 c4, ?_⟩
  rw [List.all_append, h5]
  simp [c5]

theorem lsm6dso32x_scaleInv_move {l l' : Nat} {tr : List Ev} (h : ScaleInv l tr)
    (c : (177 < l' → 177 < l) ∧ (178 < l' → 178 < l)) : ScaleInv l' tr := by
  obtain ⟨h1, h2, h3, h4, h5⟩ := h
  obtain ⟨c1, c2⟩ := c
  exact ⟨seen_move h1 c1, seen_move h2 c2, h3, h4, h5⟩

theorem lsm6dso32x_scaleInv_step (k : Driver) (libc : Libc) (dev : Nat → Resp) (s : State)
    (h : ScaleInv s.pc.line s.trace) :
    ScaleInv (step k libc dev s).pc.line (step k libc dev s).trace := by
  obtain ⟨pc, a1, a2, a3, a4, a5, a6, a7, a8, a9, a10, a11, a12, a13, tr⟩ := s
  cases pc <;> simp only [step, State.log, State.answered] <;> (try split) <;>
    first
    | exact lsm6dso32x_scaleInv_snoc h
        (by simp [Pc.line, Ev.isXlScaleSet, Ev.isGyScaleSet, Ev.isConv, Ev.scaleOk])
    | exact lsm6dso32x_scaleInv_move h (by simp [Pc.line])

theorem lsm6dso32x_scaleInv_run (k : Driver) (libc : Libc) (dev : Nat → Resp) (n : Nat) :
    ScaleInv (run k libc dev n init).pc.line (run k libc dev n init).trace := by
  induction n with
  | zero => simp [run, ScaleInv, Seen, init, Pc.line, precedes_nil]
  | succ n ih =>
    have h : run k libc dev (n + 1) init = step k libc dev (run k libc dev n init) := by
      simp [run, Function.iterate_succ_apply']
    rw [h]
    exact lsm6dso32x_scaleInv_step k libc dev _ ih

theorem lsm6dso32x_reports_acceleration (k : Driver) (libc : Libc) (dev : Nat → Resp)
    (s : State) (h : s.pc = .l188) (hf : u8 (dev s.reads).byte ≠ 0) :
    ReportsAcceleration k libc s (acceleration_part k libc dev s)
      (raw3_of (dev (s.reads + 1))) := by
  rw [lsm6dso32x_acceleration_part_eq k libc dev s h, if_pos hf]
  refine ⟨rfl, rfl, rfl, rfl, _, rfl, ?_, ?_⟩ <;>
    simp [acceleration_events, hf, fmt_acceleration, acceleration_mg_of]

theorem lsm6dso32x_reports_angular_rate (k : Driver) (libc : Libc) (dev : Nat → Resp)
    (s : State) (h : s.pc = .l206) (hf : u8 (dev s.reads).byte ≠ 0) :
    ReportsAngularRate k libc s (angular_rate_part k libc dev s)
      (raw3_of (dev (s.reads + 1))) := by
  rw [lsm6dso32x_angular_rate_part_eq k libc dev s h, if_pos hf]
  refine ⟨rfl, rfl, rfl, rfl, _, rfl, ?_, ?_⟩ <;>
    simp [angular_rate_events, hf, fmt_angular_rate, angular_rate_mdps_of]

end lsm6dso32x

namespace lsm6dso16is

theorem lsm6dso16is_reports_acceleration (k : Driver) (libc : Libc) (dev : Nat → Resp)
    (s : State) (h : s.hpc = .h138) (hf : u8 (dev s.reads).byte ≠ 0) :
    ReportsAcceleration k libc s (acceleration_part k libc dev s)
      (raw3_of (dev (s.reads + 1))) := by
  rw [lsm6dso16is_acceleration_part_eq k libc dev s h, if_pos hf]
  refine ⟨rfl, rfl, rfl, rfl, _, rfl, ?_, ?_⟩ <;>
    simp [acceleration_events, hf, fmt_acceleration, acceleration_mg_of]

theorem lsm6dso16is_reports_angular_rate (k : Driver) (libc : Libc) (dev : Nat → Resp)
    (s : State) (h : s.hpc = .h156) (hf : u8 (dev s.reads).byte ≠ 0) :
    ReportsAngularRate k libc s (angular_rate_part k libc dev s)
      (raw3_of (dev (s.reads + 1))) := by
  rw [lsm6dso16is_angular_rate_part_eq k libc dev s h, if_pos hf]
  refine ⟨rfl, rfl, rfl, rfl, _, rfl, ?_, ?_⟩ <;>
    simp [angular_rate_events, hf, fmt_angular_rate, angular_rate_mdps_of]

theorem lsm6dso16is_scale_ok (k : Driver) (dev : Nat → Resp) (n : Nat) :
    (run k dev n init).trace.all Ev.scaleOk = true := by
  rw [List.all_eq_true]
  intro e he
  have hm := (lsm6dso16is_init_segment k dev n).subset he
  simp only [init_trace, List.mem_cons, List.mem_singleton, List.not_mem_nil,
    or_false] at hm
  rcases hm with h | h | h | h | h | h | h | h | h | h <;> subst h <;> rfl

theorem lsm6dso16is_at_end (k : Driver) (dev : Nat → Resp) (n : Nat)
    (hpc : (run k dev n init).pc = .l234) :
    (run k dev n init).trace = init_trace (u8 (dev 0).byte) (dev 1).route := by
  by_cases h : u8 (dev 0).byte = k.LSM6DSO16IS_ID
  · by_cases hn : 16 ≤ n
    · obtain ⟨m, rfl⟩ : ∃ m, n = m + 16 := ⟨n - 16, by omega⟩
      rw [lsm6dso16is_run_add, lsm6dso16is_run_to_end k dev h,
        lsm6dso16is_run_fixed _ _ _ _ (by simp [step])]
    · have h16 : n < 16 := by omega
      exfalso
      revert hpc
      interval_cases n <;> simp [run, step, init, State.log, State.answered, h]
  · exfalso
    by_cases hn : 8 ≤ n
    · rw [((lsm6dso16is_mismatch_run k dev h n).2 hn).1] at hpc
      cases hpc
    · have h8 : n < 8 := by omega
      revert hpc
      interval_cases n <;> simp [run, step, init, State.log, State.answered, h]

end lsm6dso16is

namespace iis2dulpx

theorem iis2dulpx_mdInv_snoc {l l' : Nat} {md : iis2dulpx_md_t} {tr : List Ev} {e : Ev}
    (h : MdInv l md tr)
    (c : (182 < l' → 182 < l) ∧ (183 < l' → 183 < l) ∧ (184 < l' → 184 < l) ∧
      (185 < l' → 185 < l ∨ e.isModeSet = true) ∧
      (e.isXlGet = true → 185 < l) ∧
      (e.mdOk = true ∨ 184 < l) ∧ (md = md_set → e.mdOk = true)) :
    MdInv l' md (tr ++ [e]) := by
  obtain ⟨h1, h2, h3, h4, h5, h6⟩ := h
  obtain ⟨c1, c2, c3, c4, c5, c6, c7⟩ := c
  refine ⟨fun hl => h1 (c1 hl), fun hl => h2 (c2 hl), fun hl => h3 (c3 hl), seen_snoc h4 c4,
    precedes_step h5 h4 c5, ?_⟩
  rw [List.all_append, h6]
  rcases c6 with hok | hl
  · simp [hok]
  · have hmd : md = md_set := by
      obtain ⟨f, b, o⟩ := md
      have e1 := h1 (by omega)
      have e2 := h2 (by omega)
      have e3 := h3 (by omega)
      simp only at e1 e2 e3
      subst e1 e2 e3
      rfl
    simp [c7 hmd]

theorem iis2dulpx_mdInv_move {l l' : Nat} {md : iis2dulpx_md_t} {tr : List Ev}
    (h : MdInv l md tr)
    (c : (182 < l' → 182 < l) ∧ (183 < l' → 183 < l) ∧ (184 < l' → 184 < l) ∧
      (185 < l' → 185 < l)) :
    MdInv l' md tr := by
  obtain ⟨h1, h2, h3, h4, h5, h6⟩ := h
  obtain ⟨c1, c2, c3, c4⟩ := c
  exact ⟨fun hl => h1 (c1 hl), fun hl => h2 (c2 hl), fun hl => h3 (c3 hl), seen_move h4 c4,
    h5, h6⟩

theorem iis2dulpx_mdInv_act (k : Consts) (libc : Libc) (dev : Nat → Resp) (s : State)
    (a : Act) (h : MdInv s.pc.line s.md s.trace) :
    MdInv (act k libc dev s a).pc.line (act k libc dev s a).md (act k libc dev s a).trace := by
  obtain ⟨pc, a1, a2, a3, a4, a5, a6, a7, a8, a9, a10, tr⟩ := s
  cases a with
  | irq =>
    simp only [act, iis2dulpx_read_data_drdy_handler, State.log]
    exact iis2dulpx_mdInv_snoc h (by simp [Ev.isModeSet, Ev.isXlGet, Ev.mdOk])
  | main =>
    cases pc <;> simp only [act, step, State.log] <;> (try split) <;>
      first
      | exact iis2dulpx_mdInv_snoc h (by simp [Pc.line, Ev.isModeSet, Ev.isXlGet, Ev.mdOk])
      | exact iis2dulpx_mdInv_move h (by simp [Pc.line])
      | (obtain ⟨h1, h2, h3, h4, h5, h6⟩ := h
         refine ⟨?_, ?_, ?_, ?_, h5, h6⟩ <;> simp_all [Pc.line, Seen])

theorem iis2dulpx_mdInv_exec (k : Consts) (libc : Libc) (dev : Nat → Resp) (sch : List Act) :
    ∀ s : State, MdInv s.pc.line s.md s.trace →
      MdInv (exec k libc dev s sch).pc.line (exec k libc dev s sch).md
        (exec k libc dev s sch).trace := by
  induction sch with
  | nil => intro s hs; exact hs
  | cons a sch ih =>
    intro s hs
    rw [iis2dulpx_exec_cons]
    exact ih _ (iis2dulpx_mdInv_act k libc dev s a hs)

theorem iis2dulpx_mdInv_init (g : iis2dulpx_pin_int_route_t) :
    MdInv (init g).pc.line (init g).md (init g).trace := by
  simp [MdInv, Seen, init, Pc.line, precedes_nil]

theorem iis2dulpx_iteration_reports (k : Consts) (libc : Libc) (dev : Nat → Resp) (s : State)
    (h : s.pc = .l189) (hf : 0 < s.drdy_event) :
    ∃ evs, (iteration k libc dev s).trace = s.trace ++ evs ∧
      Ev.xl_data_get s.dev_ctx s.md (dev s.reads).xl ∈ evs ∧
      Ev.snprintf .acceleration
        (bytes "Acceleration [mg]:" ++ libc.fmt_f 4 2 (dev s.reads).xl.mg.1 ++ bytes "\t" ++
          libc.fmt_f 4 2 (dev s.reads).xl.mg.2.1 ++ bytes "\t" ++
          libc.fmt_f 4 2 (dev s.reads).xl.mg.2.2 ++ bytes "\r\n") ∈ evs := by
  rw [iis2dulpx_iteration_eq k libc dev s h, if_pos hf]
  refine ⟨_, rfl, ?_, ?_⟩ <;> simp [iteration_events, hf, fmt_acceleration]

end iis2dulpx

/-- C12: each reported value is the raw sample of the same axis, converted
for the scale that was configured, and the three values are formatted in
the order 0, 1, 2. In `lsm6dso32x_offset` a pass with its flag set leaves
`acceleration_mg[i] = lsm6dso32x_from_fs4_to_mg(data_raw_acceleration[i])`
and `angular_rate_mdps[i] =
lsm6dso32x_from_fs2000_to_mdps(data_raw_angular_rate[i])` for i = 0, 1, 2,
the raw buffer holding what the raw-get of the pass delivered; in every run
the full-scale calls carry `LSM6DSO32X_4g` and `LSM6DSO32X_2000dps` and
stand before every conversion. In the lsm6dso16is example the handler does
the same with `lsm6dso16is_from_fs2g_to_mg` and
`lsm6dso16is_from_fs2000dps_to_mdps`, and the main function sets
`LSM6DSO16IS_2g` and `LSM6DSO16IS_2000dps`, both calls made once it stands
on line 234. In the iis2dulpx example, under every interleaving with the
handler, `iis2dulpx_mode_set` and every `iis2dulpx_xl_data_get` are given
the same mode structure (`fs = IIS2DULPX_4g`, `bw = IIS2DULPX_ODR_div_4`,
`odr = IIS2DULPX_25Hz_LP`), the former before the latter, and the three
values `mg[0]`, `mg[1]`, `mg[2]` delivered are formatted in this order. -/
theorem c12_values_converted_for_configured_scale
    (k1 : iis2dulpx.Consts) (k2 : lsm6dso32x.Driver) (k3 : lsm6dso16is.Driver) (libc : Libc)
    (d1 : Nat → iis2dulpx.Resp) (d2 : Nat → lsm6dso32x.Resp) (d3 : Nat → lsm6dso16is.Resp)
    (g : iis2dulpx.iis2dulpx_pin_int_route_t) (sch : List iis2dulpx.Act) (n2 n3 : Nat) :
    ((∀ s : lsm6dso32x.State, s.pc = .l188 → u8 (d2 s.reads).byte ≠ 0 →
        lsm6dso32x.ReportsAcceleration k2 libc s (lsm6dso32x.acceleration_part k2 libc d2 s)
          (lsm6dso32x.raw3_of (d2 (s.reads + 1)))) ∧
      (∀ s : lsm6dso32x.State, s.pc = .l206 → u8 (d2 s.reads).byte ≠ 0 →
        lsm6dso32x.ReportsAngularRate k2 libc s (lsm6dso32x.angular_rate_part k2 libc d2 s)
          (lsm6dso32x.raw3_of (d2 (s.reads + 1)))) ∧
      (lsm6dso32x.run k2 libc d2 n2 lsm6dso32x.init).trace.all lsm6dso32x.Ev.scaleOk = true ∧
      Precedes lsm6dso32x.Ev.isXlScaleSet (lsm6dso32x.Ev.isConv .acceleration)
        (lsm6dso32x.run k2 libc d2 n2 lsm6dso32x.init).trace ∧
      Precedes lsm6dso32x.Ev.isGyScaleSet (lsm6dso32x.Ev.isConv .angular_rate)
        (lsm6dso32x.run k2 libc d2 n2 lsm6dso32x.init).trace) ∧
    ((∀ s : lsm6dso16is.State, s.hpc = .h138 → u8 (d3 s.reads).byte ≠ 0 →
        lsm6dso16is.ReportsAcceleration k3 libc s
          (lsm6dso16is.acceleration_part k3 libc d3 s)
          (lsm6dso16is.raw3_of (d3 (s.reads + 1)))) ∧
      (∀ s : lsm6dso16is.State, s.hpc = .h156 → u8 (d3 s.reads).byte ≠ 0 →
        lsm6dso16is.ReportsAngularRate k3 libc s
          (lsm6dso16is.angular_rate_part k3 libc d3 s)
          (lsm6dso16is.raw3_of (d3 (s.reads + 1)))) ∧
      (lsm6dso16is.run k3 d3 n3 lsm6dso16is.init).trace.all lsm6dso16is.Ev.scaleOk = true ∧
      ((lsm6dso16is.run k3 d3 n3 lsm6dso16is.init).pc = .l234 →
        (lsm6dso16is.run k3 d3 n3 lsm6dso16is.init).trace.any
            lsm6dso16is.Ev.isXlScaleSet = true ∧
          (lsm6dso16is.run k3 d3 n3 lsm6dso16is.init).trace.any
            lsm6dso16is.Ev.isGyScaleSet = true)) ∧
    ((iis2dulpx.exec k1 libc d1 (iis2dulpx.init g) sch).trace.all iis2dulpx.Ev.mdOk = true ∧
      Precedes iis2dulpx.Ev.isModeSet iis2dulpx.Ev.isXlGet
        (iis2dulpx.exec k1 libc d1 (iis2dulpx.init g) sch).trace ∧
      (∀ s : iis2dulpx.State, s.pc = .l189 → 0 < s.drdy_event →
        ∃ evs, (iis2dulpx.iteration k1 libc d1 s).trace = s.trace ++ evs ∧
          iis2dulpx.Ev.xl_data_get s.dev_ctx s.md (d1 s.reads).xl ∈ evs ∧
          iis2dulpx.Ev.snprintf .acceleration
            (bytes "Acceleration [mg]:" ++ libc.fmt_f 4 2 (d1 s.reads).xl.mg.1 ++
              bytes "\t" ++ libc.fmt_f 4 2 (d1 s.reads).xl.mg.2.1 ++ bytes "\t" ++
              libc.fmt_f 4 2 (d1 s.reads).xl.mg.2.2 ++ bytes "\r\n") ∈ evs)) := by
  have h2 := lsm6dso32x.lsm6dso32x_scaleInv_run k2 libc d2 n2
  have h1 := iis2dulpx.iis2dulpx_mdInv_exec k1 libc d1 sch (iis2dulpx.init g)
    (iis2dulpx.iis2dulpx_mdInv_init g)
  refine ⟨⟨lsm6dso32x.lsm6dso32x_reports_acceleration k2 libc d2,
      lsm6dso32x.lsm6dso32x_reports_angular_rate k2 libc d2, h2.2.2.2.2, h2.2.2.1,
      h2.2.2.2.1⟩,
    ⟨lsm6dso16is.lsm6dso16is_reports_acceleration k3 libc d3,
      lsm6dso16is.lsm6dso16is_reports_angular_rate k3 libc d3,
      lsm6dso16is.lsm6dso16is_scale_ok k3 d3 n3, ?_⟩,
    ⟨h1.2.2.2.2.2, h1.2.2.2.2.1, iis2dulpx.iis2dulpx_iteration_reports k1 libc d1⟩⟩
  intro hpc
  rw [lsm6dso16is.lsm6dso16is_at_end k3 d3 n3 hpc]
  exact ⟨rfl, rfl⟩

/-- C12 at a concrete input: on `dev_ok`, after the 28 statements of the
initialisation of `lsm6dso32x_offset`, the flag is set and the
acceleration pass reports the sample the device delivers; after the
initialisation of the iis2dulpx example and one interrupt the iteration
formats the three values delivered. -/
theorem c12_values_converted_for_configured_scale_witness :
    lsm6dso32x.ReportsAcceleration lsm6dso32x.k_ex libc_ex
      (lsm6dso32x.run lsm6dso32x.k_ex libc_ex lsm6dso32x.dev_ok 28 lsm6dso32x.init)
      (lsm6dso32x.acceleration_part lsm6dso32x.k_ex libc_ex lsm6dso32x.dev_ok
        (lsm6dso32x.run lsm6dso32x.k_ex libc_ex lsm6dso32x.dev_ok 28 lsm6dso32x.init))
      (lsm6dso32x.raw3_of (lsm6dso32x.dev_ok
        ((lsm6dso32x.run lsm6dso32x.k_ex libc_ex lsm6dso32x.dev_ok 28
          lsm6dso32x.init).reads + 1))) ∧
    (lsm6dso16is.run lsm6dso16is.k_ex lsm6dso16is.dev_ok 16 lsm6dso16is.init).trace.any
      lsm6dso16is.Ev.isXlScaleSet = true :=
  have h := c12_values_converted_for_configured_scale iis2dulpx.k_ex lsm6dso32x.k_ex
    lsm6dso16is.k_ex libc_ex iis2dulpx.dev_ok lsm6dso32x.dev_ok lsm6dso16is.dev_ok ⟨0, 0⟩
    iis2dulpx.sch_served 28 16
  ⟨h.1.1 _ (by decide) (by decide), (h.2.1.2.2.2 (by decide)).1⟩

end STMems
/-! ## C13: the INT1 routing given to the driver -/

namespace STMems

namespace iis2dulpx

theorem iis2dulpx_routeInv_snoc {g r : iis2dulpx_pin_int_route_t} {l l' : Nat}
    {tr : List Ev} {e : Ev} (h : RouteInv g l r tr)
    (c : (177 < l' → 177 < l) ∧ (178 < l' → 178 < l ∨ e.isRouteSet = true) ∧
      (e.isRouteSet = false ∨ (177 < l ∧ ∃ ctx, e = .pin_int1_route_set ctx r))) :
    RouteInv g l' r (tr ++ [e]) := by
  obtain ⟨h1, h2, h3, h4⟩ := h
  obtain ⟨c1, c2, c3⟩ := c
  refine ⟨h1, fun hl => h2 (c1 hl), seen_snoc h3 c2, ?_⟩
  rw [List.all_append, h4]
  rcases c3 with hno | ⟨hl, ctx, rfl⟩
  · cases e <;> simp_all [Ev.isRouteSet, Ev.routeIs]
  · obtain ⟨d, o⟩ := r
    have e1 := h2 hl
    simp only at e1 h1
    subst e1 h1
    simp [Ev.routeIs]

theorem iis2dulpx_routeInv_move {g r : iis2dulpx_pin_int_route_t} {l l' : Nat}
    {tr : List Ev} (h : RouteInv g l r tr)
    (c : (177 < l' → 177 < l) ∧ (178 < l' → 178 < l)) : RouteInv g l' r tr := by
  obtain ⟨h1, h2, h3, h4⟩ := h
  obtain ⟨c1, c2⟩ := c
  exact ⟨h1, fun hl => h2 (c1 hl), seen_move h3 c2, h4⟩

theorem iis2dulpx_routeInv_act (k : Consts) (libc : Libc) (dev : Nat → Resp)
    (g : iis2dulpx_pin_int_route_t) (s : State) (a : Act)
    (h : RouteInv g s.pc.line s.int_route s.trace) :
    RouteInv g (act k libc dev s a).pc.line (act k libc dev s a).int_route
      (act k libc dev s a).trace := by
  obtain ⟨pc, a1, a2, a3, a4, a5, a6, a7, a8, a9, a10, tr⟩ := s
  cases a with
  | irq =>
    simp only [act, iis2dulpx_read_data_drdy_handler, State.log]
    exact iis2dulpx_routeInv_snoc h (by simp [Ev.isRouteSet])
  | main =>
    cases pc <;> simp only [act, step, State.log] <;> (try split) <;>
      first
      | exact iis2dulpx_routeInv_snoc h (by simp [Pc.line, Ev.isRouteSet])
      | exact iis2dulpx_routeInv_move h (by simp [Pc.line])
      | (obtain ⟨h1, h2, h3, h4⟩ := h
         refine ⟨?_, ?_, ?_, h4⟩ <;> simp_all [Pc.line, Seen])

theorem iis2dulpx_routeInv_exec (k : Consts) (libc : Libc) (dev : Nat → Resp)
    (g : iis2dulpx_pin_int_route_t) (sch : List Act) :
    ∀ s : State, RouteInv g s.pc.line s.int_route s.trace →
      RouteInv g (exec k libc dev s sch).pc.line (exec k libc dev s sch).int_route
        (exec k libc dev s sch).trace := by
  induction sch with
  | nil => intro s hs; exact hs
  | cons a sch ih =>
    intro s hs
    rw [iis2dulpx_exec_cons]
    exact ih _ (iis2dulpx_routeInv_act k libc dev g s a hs)

theorem iis2dulpx_routeInv_init (g : iis2dulpx_pin_int_route_t) :
    RouteInv g (init g).pc.line (init g).int_route (init g).trace := by
  simp [RouteInv, Seen, init, Pc.line]

end iis2dulpx

/-- C13 on the code: `iis2dulpx_read_data_drdy` declares `int_route`
without an initialiser and assigns only its field `drdy` before passing it
to `iis2dulpx_pin_int1_route_set`. Under every interleaving with the
handler, every routing given to that call has `drdy = 1` and, in all its
other fields, whatever the memory of the local held on entry; the call is
in the history once the run is past line 178. Entered with a nonzero value
there (`garbage_ex`), the run on `dev_ok` passes that value to the driver:
the other routing fields are not 0. In `lsm6dso16is_read_data_drdy` the
three statements of lines 211 to 213 pass to
`lsm6dso16is_pin_int1_route_set` the structure that
`lsm6dso16is_pin_int1_route_get` returned with `drdy_xl` set to 1, and the
history of every run is an initial segment of the list `init_trace` that
holds these two calls. -/
theorem c13_int1_route_passes_uninitialised_fields
    (k1 : iis2dulpx.Consts) (k3 : lsm6dso16is.Driver) (libc : Libc)
    (d1 : Nat → iis2dulpx.Resp) (d3 : Nat → lsm6dso16is.Resp)
    (g : iis2dulpx.iis2dulpx_pin_int_route_t) (sch : List iis2dulpx.Act)
    (s3 : lsm6dso16is.State) (n3 : Nat) :
    ((iis2dulpx.exec k1 libc d1 (iis2dulpx.init g) sch).trace.all
        (iis2dulpx.Ev.routeIs g) = true ∧
      (178 < (iis2dulpx.exec k1 libc d1 (iis2dulpx.init g) sch).pc.line →
        (iis2dulpx.exec k1 libc d1 (iis2dulpx.init g) sch).trace.any
          iis2dulpx.Ev.isRouteSet = true)) ∧
    (iis2dulpx.Ev.pin_int1_route_set ctx_ready ⟨1, 1⟩ ∈
        (iis2dulpx.run iis2dulpx.k_ex libc_ex iis2dulpx.dev_ok 23
          (iis2dulpx.init iis2dulpx.garbage_ex)).trace ∧
      (iis2dulpx.run iis2dulpx.k_ex libc_ex iis2dulpx.dev_ok 23
          (iis2dulpx.init iis2dulpx.garbage_ex)).int_route.others ≠ 0) ∧
    ((lsm6dso16is.run k3 d3 3 { s3 with pc := .l211 }).trace =
        s3.trace ++
          [.pin_int1_route_get s3.dev_ctx (d3 s3.reads).route,
           .pin_int1_route_set s3.dev_ctx { (d3 s3.reads).route with drdy_xl := 1 }] ∧
      (lsm6dso16is.run k3 d3 n3 lsm6dso16is.init).trace <+:
        lsm6dso16is.init_trace (u8 (d3 0).byte) (d3 1).route) := by
  have h1 := iis2dulpx.iis2dulpx_routeInv_exec k1 libc d1 g sch (iis2dulpx.init g)
    (iis2dulpx.iis2dulpx_routeInv_init g)
  refine ⟨⟨h1.2.2.2, h1.2.2.1⟩, ⟨by decide, by decide⟩,
    ⟨?_, lsm6dso16is.lsm6dso16is_init_segment k3 d3 n3⟩⟩
  simp [lsm6dso16is.run, lsm6dso16is.step, lsm6dso16is.State.log, lsm6dso16is.State.answered]

end STMems
/-! ## C14: the address byte of an SPI transaction -/

namespace STMems

set_option maxRecDepth 100000 in
theorem read_address_bits : ∀ reg, reg < 256 →
    (reg ||| 0x80) < 256 ∧ (reg ||| 0x80).testBit 7 = true ∧
    (reg ||| 0x80) % 128 = reg % 128 ∧ (reg ||| 0x80) ||| 0x80 = reg ||| 0x80 ∧
    (reg < 0x80 → reg ||| 0x80 = reg + 0x80 ∧ (reg ||| 0x80) ^^^ reg = 0x80) ∧
    (0x80 ≤ reg → reg ||| 0x80 = reg) := by
  decide

theorem spi_read_address (b : Board) (ADD_N ADD_S : Nat) (hal : Hal) (handle reg : Nat)
    (bufp : List Nat) (len : Nat) (hN : b.NUCLEO_F401RE = false)
    (hS : b.STEVAL_MKI109V3 = true) (hreg : reg < 256) :
    spi_address ((platform_read b ADD_N ADD_S hal handle reg bufp len).1.log.drop
      hal.log.length) = some (reg ||| 0x80) := by
  have h1 : reg % 256 = reg := Nat.mod_eq_of_lt hreg
  have h2 : (reg ||| 128) % 256 = reg ||| 128 :=
    Nat.mod_eq_of_lt (read_address_bits reg hreg).1
  simp [platform_read, hN, hS, Hal.call, Hal.recv, spi_address, u8, h1, h2]

theorem spi_write_address (b : Board) (ADD_N ADD_S : Nat) (hal : Hal) (handle reg : Nat)
    (bufp : List Nat) (len : Nat) (hN : b.NUCLEO_F401RE = false)
    (hS : b.STEVAL_MKI109V3 = true) (hreg : reg < 256) :
    spi_address ((platform_write b ADD_N ADD_S hal handle reg bufp len).1.log.drop
      hal.log.length) = some reg := by
  have h1 : reg % 256 = reg := Nat.mod_eq_of_lt hreg
  simp [platform_write, hN, hS, Hal.call, spi_address, u8, h1]

/-- C14: on the SPI board (`STEVAL_MKI109V3` defined, `NUCLEO_F401RE` not),
in each of the three examples and for every 8-bit `reg`, the address byte
`platform_read` transmits is `reg | 0x80` and the one `platform_write`
transmits is `reg`. The byte `reg | 0x80` fits in 8 bits, has bit 7 set and
the low seven bits of `reg`, and a read of the register `reg | 0x80`
transmits it again (the operation is idempotent). For `reg` below `0x80`
the read address is `reg + 0x80` and differs from the write address exactly
in bit 7; for `reg` at or above `0x80` both transactions send the same
address byte. -/
theorem c14_spi_read_address_sets_bit7
    (k1 : iis2dulpx.Consts) (k2 : lsm6dso32x.Driver) (k3 : lsm6dso16is.Driver) (b : Board)
    (hal : Hal) (handle reg : Nat) (bufp : List Nat) (len : Nat)
    (hN : b.NUCLEO_F401RE = false) (hS : b.STEVAL_MKI109V3 = true) (hreg : reg < 256) :
    (spi_address ((iis2dulpx.platform_read k1 b hal handle reg bufp len).1.log.drop
        hal.log.length) = some (reg ||| 0x80) ∧
      spi_address ((iis2dulpx.platform_read k1 b hal handle (reg ||| 0x80) bufp len).1.log.drop
        hal.log.length) = some (reg ||| 0x80) ∧
      spi_address ((iis2dulpx.platform_write k1 b hal handle reg bufp len).1.log.drop
        hal.log.length) = some reg) ∧
    (spi_address ((lsm6dso32x.platform_read k2 b hal handle reg bufp len).1.log.drop
        hal.log.length) = some (reg ||| 0x80) ∧
      spi_address ((lsm6dso32x.platform_read k2 b hal handle (reg ||| 0x80) bufp
        len).1.log.drop hal.log.length) = some (reg ||| 0x80) ∧
      spi_address ((lsm6dso32x.platform_write k2 b hal handle reg bufp len).1.log.drop
        hal.log.length) = some reg) ∧
    (spi_address ((lsm6dso16is.platform_read k3 b hal handle reg bufp len).1.log.drop
        hal.log.length) = some (reg ||| 0x80) ∧
      spi_address ((lsm6dso16is.platform_read k3 b hal handle (reg ||| 0x80) bufp
        len).1.log.drop hal.log.length) = some (reg ||| 0x80) ∧
      spi_address ((lsm6dso16is.platform_write k3 b hal handle reg bufp len).1.log.drop
        hal.log.length) = some reg) ∧
    ((reg ||| 0x80) < 256 ∧ (reg ||| 0x80).testBit 7 = true ∧
      (reg ||| 0x80) % 128 = reg % 128 ∧
      (reg < 0x80 → reg ||| 0x80 = reg + 0x80 ∧ (reg ||| 0x80) ^^^ reg = 0x80) ∧
      (0x80 ≤ reg → reg ||| 0x80 = reg)) := by
  obtain ⟨h1, h2, h3, h4, h5, h6⟩ := read_address_bits reg hreg
  have hr := fun (n s : Nat) => spi_read_address b n s hal handle reg bufp len hN hS hreg
  have hi : ∀ n s : Nat,
      spi_address ((platform_read b n s hal handle (reg ||| 0x80) bufp len).1.log.drop
        hal.log.length) = some (reg ||| 0x80) := by
    intro n s
    have h := spi_read_address b n s hal handle (reg ||| 0x80) bufp len hN hS h1
    rw [h4] at h
    exact h
  have hw := fun (n s : Nat) => spi_write_address b n s hal handle reg bufp len hN hS hreg
  exact ⟨⟨hr _ _, hi _ _, hw _ _⟩, ⟨hr _ _, hi _ _, hw _ _⟩, ⟨hr _ _, hi _ _, hw _ _⟩,
    ⟨h1, h2, h3, h5, h6⟩⟩

/-- C14 at a concrete input: on `spi_board`, for the register `0x0F`, the
read of the iis2dulpx example transmits `0x8F` and the write `0x0F`. -/
theorem c14_spi_read_address_sets_bit7_witness :
    spi_address ((iis2dulpx.platform_read iis2dulpx.k_ex spi_board hal_ex 0 0x0F [0] 1).1.log.drop
      hal_ex.log.length) = some 0x8F ∧
    spi_address ((iis2dulpx.platform_write iis2dulpx.k_ex spi_board hal_ex 0 0x0F [0] 1).1.log.drop
      hal_ex.log.length) = some 0x0F :=
  have h := c14_spi_read_address_sets_bit7 iis2dulpx.k_ex lsm6dso32x.k_ex lsm6dso16is.k_ex
    spi_board hal_ex 0 0x0F [0] 1 rfl rfl (by decide)
  ⟨h.1.1, h.1.2.2⟩

end STMems
/-! ## C15: SPI transactions are bracketed by chip select -/

namespace STMems

theorem spi_write_bracketed (b : Board) (ADD_N ADD_S : Nat) (hal : Hal) (handle reg : Nat)
    (bufp : List Nat) (len : Nat) (hN : b.NUCLEO_F401RE = false)
    (hS : b.STEVAL_MKI109V3 = true) :
    Bracketed hal (.HAL_SPI_Transmit handle [u8 reg] 1 1000)
      (.HAL_SPI_Transmit handle bufp (u16 len) 1000)
      (platform_write b ADD_N ADD_S hal handle reg bufp len).1 := by
  simp [Bracketed, platform_write, hN, hS, Hal.call, Hal.calls, Hal.levels,
    HalCall.isTransfer]

theorem spi_read_bracketed (b : Board) (ADD_N ADD_S : Nat) (hal : Hal) (handle reg : Nat)
    (bufp : List Nat) (len : Nat) (hN : b.NUCLEO_F401RE = false)
    (hS : b.STEVAL_MKI109V3 = true) :
    Bracketed hal (.HAL_SPI_Transmit handle [u8 (u8 reg ||| 0x80)] 1 1000)
      (.HAL_SPI_Receive handle (u16 len) 1000)
      (platform_read b ADD_N ADD_S hal handle reg bufp len).1 := by
  simp [Bracketed, platform_read, hN, hS, Hal.call, Hal.recv, Hal.calls, Hal.levels,
    HalCall.isTransfer]

/-- C15: on the SPI board (`STEVAL_MKI109V3` defined, `NUCLEO_F401RE` not),
in each of the three examples, every `platform_write` and every
`platform_read` is bracketed by chip select, the level of the pin being
part of the state of the layer: the calls made are the pin driven low, the
transfer of the address byte, the transfer of `len` data bytes, the pin
driven high; both transfers are made while the pin is low; the pin is high
when the function returns, so if it was high before the call it is high
after it. This holds for every state of the layer (so whatever the
transfers return, and whatever the level of the pin before), every
handle, register, buffer and length, 0 included. -/
theorem c15_spi_transactions_bracketed_by_chip_select
    (k1 : iis2dulpx.Consts) (k2 : lsm6dso32x.Driver) (k3 : lsm6dso16is.Driver) (b : Board)
    (hal : Hal) (handle reg : Nat) (bufp : List Nat) (len : Nat)
    (hN : b.NUCLEO_F401RE = false) (hS : b.STEVAL_MKI109V3 = true) :
    (Bracketed hal (.HAL_SPI_Transmit handle [u8 reg] 1 1000)
        (.HAL_SPI_Transmit handle bufp (u16 len) 1000)
        (iis2dulpx.platform_write k1 b hal handle reg bufp len).1 ∧
      Bracketed hal (.HAL_SPI_Transmit handle [u8 (u8 reg ||| 0x80)] 1 1000)
        (.HAL_SPI_Receive handle (u16 len) 1000)
        (iis2dulpx.platform_read k1 b hal handle reg bufp len).1 ∧
      (hal.cs = .GPIO_PIN_SET →
        (iis2dulpx.platform_write k1 b hal handle reg bufp len).1.cs = .GPIO_PIN_SET ∧
        (iis2dulpx.platform_read k1 b hal handle reg bufp len).1.cs = .GPIO_PIN_SET)) ∧
    (Bracketed hal (.HAL_SPI_Transmit handle [u8 reg] 1 1000)
        (.HAL_SPI_Transmit handle bufp (u16 len) 1000)
        (lsm6dso32x.platform_write k2 b hal handle reg bufp len).1 ∧
      Bracketed hal (.HAL_SPI_Transmit handle [u8 (u8 reg ||| 0x80)] 1 1000)
        (.HAL_SPI_Receive handle (u16 len) 1000)
        (lsm6dso32x.platform_read k2 b hal handle reg bufp len).1 ∧
      (hal.cs = .GPIO_PIN_SET →
        (lsm6dso32x.platform_write k2 b hal handle reg bufp len).1.cs = .GPIO_PIN_SET ∧
        (lsm6dso32x.platform_read k2 b hal handle reg bufp len).1.cs = .GPIO_PIN_SET)) ∧
    (Bracketed hal (.HAL_SPI_Transmit handle [u8 reg] 1 1000)
        (.HAL_SPI_Transmit handle bufp (u16 len) 1000)
        (lsm6dso16is.platform_write k3 b hal handle reg bufp len).1 ∧
      Bracketed hal (.HAL_SPI_Transmit handle [u8 (u8 reg ||| 0x80)] 1 1000)
        (.HAL_SPI_Receive handle (u16 len) 1000)
        (lsm6dso16is.platform_read k3 b hal handle reg bufp len).1 ∧
      (hal.cs = .GPIO_PIN_SET →
        (lsm6dso16is.platform_write k3 b hal handle reg bufp len).1.cs = .GPIO_PIN_SET ∧
        (lsm6dso16is.platform_read k3 b hal handle reg bufp len).1.cs = .GPIO_PIN_SET)) := by
  have hw := fun (n s : Nat) => spi_write_bracketed b n s hal handle reg bufp len hN hS
  have hr := fun (n s : Nat) => spi_read_bracketed b n s hal handle reg bufp len hN hS
  exact ⟨⟨hw _ _, hr _ _, fun _ => ⟨(hw _ _).2.2.2.2.2, (hr _ _).2.2.2.2.2⟩⟩,
    ⟨hw _ _, hr _ _, fun _ => ⟨(hw _ _).2.2.2.2.2, (hr _ _).2.2.2.2.2⟩⟩,
    ⟨hw _ _, hr _ _, fun _ => ⟨(hw _ _).2.2.2.2.2, (hr _ _).2.2.2.2.2⟩⟩⟩

/-- C15 at a concrete input: on `spi_board`, from the state `hal_ex`
(chip select high, every transfer answering the status 1), a write and a
read of length 0 in the lsm6dso32x example are bracketed by chip select. -/
theorem c15_spi_transactions_bracketed_by_chip_select_witness :
    Bracketed hal_ex (.HAL_SPI_Transmit 0 [u8 0x0F] 1 1000)
      (.HAL_SPI_Transmit 0 [] (u16 0) 1000)
      (lsm6dso32x.platform_write lsm6dso32x.k_ex spi_board hal_ex 0 0x0F [] 0).1 ∧
    Bracketed hal_ex (.HAL_SPI_Transmit 0 [u8 (u8 0x0F ||| 0x80)] 1 1000)
      (.HAL_SPI_Receive 0 (u16 0) 1000)
      (lsm6dso32x.platform_read lsm6dso32x.k_ex spi_board hal_ex 0 0x0F [] 0).1 :=
  have h := c15_spi_transactions_bracketed_by_chip_select iis2dulpx.k_ex lsm6dso32x.k_ex
    lsm6dso16is.k_ex spi_board hal_ex 0 0x0F [] 0 rfl rfl
  ⟨h.2.1.1, h.2.1.2.1⟩

end STMems
